import Mathlib

/-! # Device grab ledger of `gdk/gdkdisplay.c`

A shallow embedding of the per-device grab bookkeeping of `gdkdisplay.c`
(`_gdk_display_add_device_grab`, `grab_list_find`,
`_gdk_display_get_last_device_grab`, `_gdk_display_end_device_grab`,
`_gdk_display_device_grab_update` and their helpers), followed by theorems
about it.

Conventions of the embedding:

* a `GList *` is a `List`; the `NULL` list is `[]`; a pointer to a node of a
  list is the index of that node, `none` standing for `NULL`;
* `display->device_grabs` and `display->pointers_info` are association lists
  keyed by the device; a lookup that misses yields `NULL`;
* `gulong` serials are natural numbers not exceeding `G_MAXULONG`; the code
  only compares them, so no modular arithmetic occurs;
* windows and devices are opaque identities (`Nat`).
-/

namespace Gdk

/-! ## Data model -/

abbrev GdkWindow := Nat
abbrev GdkDevice := Nat

/-- The largest `gulong` (LP64), used by the code as the open end "infinity". -/
def G_MAXULONG : Nat := 2 ^ 64 - 1

/-- Grab ownership priorities, in the C enumeration order. -/
inductive GdkGrabOwnership where
  | NONE
  | WINDOW
  | APPLICATION
  deriving DecidableEq, Repr

/-- Integer value of the C enumerator. -/
def GdkGrabOwnership.toNat : GdkGrabOwnership → Nat
  | .NONE => 0
  | .WINDOW => 1
  | .APPLICATION => 2

/-- One record of a device's grab ledger (the fields the code reads and writes). -/
structure GdkDeviceGrabInfo where
  window : GdkWindow
  native_window : GdkWindow
  serial_start : Nat
  serial_end : Nat
  owner_events : Bool
  event_mask : Nat
  time : Nat
  implicit : Bool
  ownership : GdkGrabOwnership
  activated : Bool
  implicit_ungrab : Bool
  deriving DecidableEq, Repr

/-- Per pointer device cache of the window under the pointer. -/
structure GdkPointerWindowInfo where
  window_under_pointer : Option GdkWindow
  toplevel_x : Int
  toplevel_y : Int
  state : Nat
  deriving DecidableEq, Repr

/-- The `GDK_GRAB_BROKEN` event, the only event this code synthesises. -/
structure GdkEventGrabBroken where
  window : GdkWindow
  send_event : Bool
  device : GdkDevice
  implicit : Bool
  grab_window : Option GdkWindow
  keyboard : Bool
  deriving DecidableEq, Repr

/-- The part of `GdkDisplay` the grab code touches. -/
structure GdkDisplay where
  device_grabs : List (GdkDevice × List GdkDeviceGrabInfo)
  pointers_info : List (GdkDevice × GdkPointerWindowInfo)
  queued_events : List GdkEventGrabBroken
  last_event_time : Nat
  deriving DecidableEq, Repr

/-- Input source of a device (`GdkInputSource`). -/
inductive GdkInputSource where
  | MOUSE
  | PEN
  | ERASER
  | CURSOR
  | KEYBOARD
  | TOUCHSCREEN
  | TOUCHPAD
  | TRACKPOINT
  | TABLET_PAD
  deriving DecidableEq, Repr

/-- Place of a device in the master/slave hierarchy (`GdkDeviceType`). -/
inductive GdkDeviceType where
  | MASTER
  | SLAVE
  | FLOATING
  deriving DecidableEq, Repr

/-- Kind of a window (`GdkWindowType`). -/
inductive GdkWindowType where
  | ROOT
  | TOPLEVEL
  | CHILD
  | TEMP
  | FOREIGN
  | OFFSCREEN
  | SUBSURFACE
  deriving DecidableEq, Repr

/-- The collaborators the grab code calls into: window liveness and kind, device
classification, the window hierarchy and the backend query for the window under a
device. `_gdk_device_window_at_position` yields the window together with the
coordinates already rounded to integers and the modifier state. -/
structure Backend where
  GDK_WINDOW_DESTROYED : GdkWindow → Bool
  GDK_WINDOW_TYPE : GdkWindow → GdkWindowType
  gdk_device_get_source : GdkDevice → GdkInputSource
  gdk_device_get_device_type : GdkDevice → GdkDeviceType
  gdk_device_get_associated_device : GdkDevice → Option GdkDevice
  _gdk_device_window_at_position : GdkDevice → Option GdkWindow × Int × Int × Nat
  _gdk_window_event_parent_of : GdkWindow → GdkWindow → Bool

/-! ## Hash tables and lists (GLib) -/

/-- The value stored under `key`, `none` when the key is absent. -/
def g_hash_table_lookup {V : Type} : List (GdkDevice × V) → GdkDevice → Option V
  | [], _ => none
  | (k, v) :: rest, key => if k = key then some v else g_hash_table_lookup rest key

/-- Insert or replace the value stored under `key`. -/
def g_hash_table_insert {V : Type} : List (GdkDevice × V) → GdkDevice → V → List (GdkDevice × V)
  | [], key, value => [(key, value)]
  | (k, v) :: rest, key, value =>
    if k = key then (k, value) :: rest else (k, v) :: g_hash_table_insert rest key value

/-- Remove `key` from the table. -/
def g_hash_table_steal {V : Type} : List (GdkDevice × V) → GdkDevice → List (GdkDevice × V)
  | [], _ => []
  | (k, v) :: rest, key =>
    if k = key then g_hash_table_steal rest key else (k, v) :: g_hash_table_steal rest key

/-- The grab list of a device: `g_hash_table_lookup (display->device_grabs, device)`,
a missing entry being the `NULL` list. -/
def lookup_grabs (display : GdkDisplay) (device : GdkDevice) : List GdkDeviceGrabInfo :=
  (g_hash_table_lookup display.device_grabs device).getD []

/-- Insert `data` before the node `sibling`; at the end when `sibling` is `NULL`. -/
def g_list_insert_before {α : Type} (list : List α) (sibling : Option Nat) (data : α) : List α :=
  match sibling with
  | none => list ++ [data]
  | some i => list.take i ++ data :: list.drop i

/-! ## `_gdk_display_get_last_device_grab` -/

/-- The data of `g_list_last (l)`. -/
def g_list_last {α : Type} : List α → Option α
  | [] => none
  | [a] => some a
  | _ :: b :: rest => g_list_last (b :: rest)

def _gdk_display_get_last_device_grab (display : GdkDisplay) (device : GdkDevice) :
    Option GdkDeviceGrabInfo :=
  let l := lookup_grabs display device
  match l with
  | [] => none
  | _ :: _ => g_list_last l

/-! ## `_gdk_display_add_device_grab` -/

/-- The scan of lines 647-653: the node at which the loop stops, that is the first
record with a larger start; `none` when the loop runs off the list. -/
def first_larger_start (serial_start : Nat) : List GdkDeviceGrabInfo → Option Nat
  | [] => none
  | other_info :: rest =>
    if serial_start < other_info.serial_start then some 0
    else (first_larger_start serial_start rest).map (· + 1)

/-- The list part of `_gdk_display_add_device_grab`: the returned record and the
new grab list of the device. -/
def add_grab_list (grabs : List GdkDeviceGrabInfo) (window native_window : GdkWindow)
    (grab_ownership : GdkGrabOwnership) (owner_events : Bool) (event_mask : Nat)
    (serial_start : Nat) (time : Nat) (implicit : Bool) :
    GdkDeviceGrabInfo × List GdkDeviceGrabInfo :=
  -- g_new0 zeroes the fields that are not assigned
  let info0 : GdkDeviceGrabInfo :=
    { window := window, native_window := native_window, serial_start := serial_start,
      serial_end := G_MAXULONG, owner_events := owner_events, event_mask := event_mask,
      time := time, implicit := implicit, ownership := grab_ownership,
      activated := false, implicit_ungrab := false }
  let l := first_larger_start serial_start grabs
  -- make sure the new grab ends before the next grab
  let info : GdkDeviceGrabInfo :=
    match l with
    | some i =>
      match grabs[i]? with
      | some other_info => { info0 with serial_end := other_info.serial_start }
      | none => info0
    | none => info0
  let grabs1 := g_list_insert_before grabs l info
  -- g_list_find (grabs, info): the node just inserted
  let pos := match l with
    | some i => i
    | none => grabs.length
  -- find any previous grab and update its end time
  let grabs2 :=
    match pos with
    | 0 => grabs1
    | p + 1 =>
      match grabs1[p]? with
      | some other_info => grabs1.set p { other_info with serial_end := serial_start }
      | none => grabs1
  (info, grabs2)

def _gdk_display_add_device_grab (display : GdkDisplay) (device : GdkDevice)
    (window native_window : GdkWindow) (grab_ownership : GdkGrabOwnership)
    (owner_events : Bool) (event_mask : Nat) (serial_start : Nat) (time : Nat)
    (implicit : Bool) : GdkDeviceGrabInfo × GdkDisplay :=
  let grabs := lookup_grabs display device
  let r := add_grab_list grabs window native_window grab_ownership owner_events event_mask
    serial_start time implicit
  (r.1, { display with device_grabs := g_hash_table_insert display.device_grabs device r.2 })

/-! ## `grab_list_find`, `find_device_grab`, `_gdk_display_has_device_grab` -/

/-- The first node whose interval `[serial_start, serial_end)` holds `serial`. -/
def grab_list_find : List GdkDeviceGrabInfo → Nat → Option Nat
  | [], _ => none
  | grab :: rest, serial =>
    if serial ≥ grab.serial_start ∧ serial < grab.serial_end then some 0
    else (grab_list_find rest serial).map (· + 1)

def find_device_grab (display : GdkDisplay) (device : GdkDevice) (serial : Nat) : Option Nat :=
  grab_list_find (lookup_grabs display device) serial

def _gdk_display_has_device_grab (display : GdkDisplay) (device : GdkDevice) (serial : Nat) :
    Option GdkDeviceGrabInfo :=
  match find_device_grab display device serial with
  | some i => (lookup_grabs display device)[i]?
  | none => none

/-! ## `_gdk_display_end_device_grab` -/

/-- The test `if_child == NULL || _gdk_window_event_parent_of (if_child, grab->window)`. -/
def if_child_passes (env : Backend) (if_child : Option GdkWindow) (grab : GdkDeviceGrabInfo) :
    Bool :=
  match if_child with
  | none => true
  | some w => env._gdk_window_event_parent_of w grab.window

/-- Returns true if the last grab was ended. `if_child` is `none` for `NULL`. -/
def _gdk_display_end_device_grab (env : Backend) (display : GdkDisplay) (device : GdkDevice)
    (serial : Nat) (if_child : Option GdkWindow) (implicit : Bool) : Bool × GdkDisplay :=
  match find_device_grab display device serial with
  | none => (false, display)
  | some l =>
    let grabs := lookup_grabs display device
    match grabs[l]? with
    | none => (false, display)
    | some grab =>
      if if_child_passes env if_child grab then
        let grab1 := { grab with serial_end := serial, implicit_ungrab := implicit }
        -- `l->next == NULL`
        (decide (l + 1 = grabs.length),
         { display with
           device_grabs := g_hash_table_insert display.device_grabs device (grabs.set l grab1) })
      else (false, display)

/-! ## Event queue and pointer info -/

/-- Modelled from the spec: `_gdk_event_queue_append` (gdkevents.c, not among the
sources at hand) pushes the event to the tail of the display's event queue. -/
def _gdk_event_queue_append (display : GdkDisplay) (event : GdkEventGrabBroken) : GdkDisplay :=
  { display with queued_events := display.queued_events ++ [event] }

def gdk_display_put_event_nocopy (display : GdkDisplay) (event : GdkEventGrabBroken) :
    GdkDisplay :=
  _gdk_event_queue_append display event

def generate_grab_broken_event (env : Backend) (display : GdkDisplay) (window : GdkWindow)
    (device : GdkDevice) (implicit : Bool) (grab_window : Option GdkWindow) : GdkDisplay :=
  if !env.GDK_WINDOW_DESTROYED window then
    let event : GdkEventGrabBroken :=
      { window := window, send_event := false, device := device, implicit := implicit,
        grab_window := grab_window,
        keyboard := decide (env.gdk_device_get_source device = GdkInputSource.KEYBOARD) }
    gdk_display_put_event_nocopy display event
  else display

/-- A freshly allocated, zeroed pointer info (`g_slice_new0`). -/
def zeroed_pointer_info : GdkPointerWindowInfo :=
  { window_under_pointer := none, toplevel_x := 0, toplevel_y := 0, state := 0 }

/-- The pointer info of a device, as the key under which it is stored in
`display->pointers_info` (`none` for `NULL`), created on first use. -/
def _gdk_display_get_pointer_info (env : Backend) (display : GdkDisplay)
    (device : Option GdkDevice) : Option GdkDevice × GdkDisplay :=
  let device1 : Option GdkDevice :=
    match device with
    | some d =>
      if env.gdk_device_get_source d = GdkInputSource.KEYBOARD then
        env.gdk_device_get_associated_device d
      else some d
    | none => none
  match device1 with
  | none => (none, display)
  | some d =>
    match g_hash_table_lookup display.pointers_info d with
    | some _ => (some d, display)
    | none =>
      (some d, { display with
        pointers_info := g_hash_table_insert display.pointers_info d zeroed_pointer_info })

/-- The pointer info stored under `key`. -/
def pointer_info_at (display : GdkDisplay) (key : GdkDevice) : GdkPointerWindowInfo :=
  (g_hash_table_lookup display.pointers_info key).getD zeroed_pointer_info

/-- Modelled from the spec: `_gdk_display_set_window_under_pointer` (gdkwindow.c, not
among the sources at hand) records `window` as the tracked window under pointer in the
pointer info of the device. -/
def _gdk_display_set_window_under_pointer (env : Backend) (display : GdkDisplay)
    (device : GdkDevice) (window : Option GdkWindow) : GdkDisplay :=
  match _gdk_display_get_pointer_info env display (some device) with
  | (none, display1) => display1
  | (some key, display1) =>
    let device_info := pointer_info_at display1 key
    { display1 with
      pointers_info := g_hash_table_insert display1.pointers_info key
        { device_info with window_under_pointer := window } }

/-! ## Grab switch -/

/-- The toplevel under the device, with position and modifier state. -/
def get_current_toplevel (env : Backend) (device : GdkDevice) :
    Option GdkWindow × Int × Int × Nat :=
  let r := env._gdk_device_window_at_position device
  let pointer_window : Option GdkWindow :=
    match r.1 with
    | some w =>
      if env.GDK_WINDOW_DESTROYED w ∨ env.GDK_WINDOW_TYPE w = GdkWindowType.ROOT ∨
          env.GDK_WINDOW_TYPE w = GdkWindowType.FOREIGN then none
      else some w
    | none => none
  (pointer_window, r.2.1, r.2.2.1, r.2.2.2)

/-- The write `grab->activated = TRUE` through a pointer into the list `grabs`. -/
def activate_at (grabs : List GdkDeviceGrabInfo) (grab : Option Nat) : List GdkDeviceGrabInfo :=
  match grab with
  | none => grabs
  | some i =>
    match grabs[i]? with
    | some g => grabs.set i { g with activated := true }
    | none => grabs

/-- Re-association of the pointer window when the current grab of `device` changes.
`grab` points into the grab list of the device (an index, `none` for `NULL`);
`last_grab` is the record that was just unlinked, if any. The code calls this for
devices that are not keyboards only, so the pointer info `info` exists. -/
def switch_to_pointer_grab (env : Backend) (display : GdkDisplay) (device : GdkDevice)
    (_source_device : GdkDevice) (grab : Option Nat) (last_grab : Option GdkDeviceGrabInfo)
    (_time : Nat) (_serial : Nat) : GdkDisplay :=
  -- temporarily unset the grabs of the device
  let old_grabs := lookup_grabs display device
  let display0 := { display with device_grabs := g_hash_table_steal display.device_grabs device }
  let pi := _gdk_display_get_pointer_info env display0 (some device)
  let info := pi.1
  let display1 := pi.2
  let grab_rec : Option GdkDeviceGrabInfo := grab.bind (fun i => old_grabs[i]?)
  -- a new grab is in effect
  let display2 :=
    match grab_rec, info with
    | some g, some key =>
      if !g.implicit then
        if !g.owner_events ∧ (pointer_info_at display1 key).window_under_pointer ≠ some g.window then
          _gdk_display_set_window_under_pointer env display1 device none
        else display1
      else display1
    | _, _ => display1
  -- `grab->activated = TRUE`, written through the pointer into the list
  let old_grabs1 := activate_at old_grabs grab
  let display3 :=
    match last_grab with
    | none => display2
    | some last =>
      let switched_to_owner_events : Bool :=
        match grab_rec with
        | some g => !last.owner_events && g.owner_events
        | none => false
      let recompute : Bool := grab_rec.isNone || switched_to_owner_events
      let top : Option GdkWindow × Int × Int × Nat :=
        if recompute ∧
            (grab_rec.isSome ∨ env.gdk_device_get_device_type device ≠ GdkDeviceType.SLAVE) then
          get_current_toplevel env device
        else (none, 0, 0, 0)
      let new_toplevel := top.1
      let display2a :=
        match recompute, new_toplevel, info with
        | true, some w, some key =>
          let d := _gdk_display_set_window_under_pointer env display2 device (some w)
          let i := pointer_info_at d key
          { d with
            pointers_info := g_hash_table_insert d.pointers_info key
              { i with toplevel_x := top.2.1, toplevel_y := top.2.2.1, state := top.2.2.2 } }
        | _, _, _ => display2
      -- ungrabbed: update the window under pointer
      if grab_rec.isNone then
        _gdk_display_set_window_under_pointer env display2a device new_toplevel
      else display2a
  { display3 with device_grabs := g_hash_table_insert display3.device_grabs device old_grabs1 }

/-! ## `_gdk_display_device_grab_update` -/

/-- The `while (grabs != NULL)` loop of `_gdk_display_device_grab_update`; each turn
that does not leave the loop unlinks the head of the list, so `fuel` bounds the number
of turns. The local `grabs` is at every turn the list stored for the device. -/
def grab_update_loop (env : Backend) (device source_device : GdkDevice) (current_serial : Nat)
    (time : Nat) : Nat → GdkDisplay → GdkDisplay
  | 0, display => display
  | fuel + 1, display =>
    match lookup_grabs display device with
    | [] => display
    | current_grab :: rest =>
      if current_grab.serial_start > current_serial then
        display -- hasn't started yet
      else if current_grab.serial_end > current_serial then
        -- this one hasn't ended yet
        if !current_grab.activated then
          if env.gdk_device_get_source device ≠ GdkInputSource.KEYBOARD then
            switch_to_pointer_grab env display device source_device (some 0) none time
              current_serial
          else display
        else display
      else
        let next_grab : Option GdkDeviceGrabInfo :=
          match rest with
          | [] => none
          | next :: _ => if next.serial_start > current_serial then none else some next
        let broken : Bool :=
          match next_grab with
          | none => current_grab.implicit_ungrab
          | some next => decide (current_grab.window ≠ next.window)
        let display1 :=
          if broken then
            generate_grab_broken_event env display current_grab.window device
              current_grab.implicit (next_grab.map (fun next => next.window))
          else display
        -- remove the old grab
        let display2 :=
          { display1 with
            device_grabs := g_hash_table_insert display1.device_grabs device rest }
        let display3 :=
          if env.gdk_device_get_source device ≠ GdkInputSource.KEYBOARD then
            switch_to_pointer_grab env display2 device source_device
              (next_grab.map (fun _ => 0)) (some current_grab) time current_serial
          else display2
        grab_update_loop env device source_device current_serial time fuel display3

def _gdk_display_device_grab_update (env : Backend) (display : GdkDisplay) (device : GdkDevice)
    (source_device : GdkDevice) (current_serial : Nat) : GdkDisplay :=
  let time := display.last_event_time
  grab_update_loop env device source_device current_serial time
    ((lookup_grabs display device).length + 1) display

/-! ## The insertion as the specification words it -/

/-- The records that stay before the new one: those in front of the first record
whose `serial_start` strictly exceeds `s`. -/
def records_before (s : Nat) (grabs : List GdkDeviceGrabInfo) : List GdkDeviceGrabInfo :=
  grabs.takeWhile (fun r => !decide (s < r.serial_start))

/-- The first record whose `serial_start` strictly exceeds `s`, and all that follow. -/
def records_from_first_larger (s : Nat) (grabs : List GdkDeviceGrabInfo) :
    List GdkDeviceGrabInfo :=
  grabs.dropWhile (fun r => !decide (s < r.serial_start))

/-- The end of the last record becomes `s`; nothing else changes. -/
def clamp_last_end (s : Nat) : List GdkDeviceGrabInfo → List GdkDeviceGrabInfo
  | [] => []
  | [r] => [{ r with serial_end := s }]
  | r :: r1 :: rest => r :: clamp_last_end s (r1 :: rest)

/-- Where a record placed in front of `after` ends: at the start of the first record
of `after`, or at infinity when there is none. -/
def end_before (after : List GdkDeviceGrabInfo) : Nat :=
  match after with
  | next :: _ => next.serial_start
  | [] => G_MAXULONG

/-- The ledger insertion in the words of the specification: the new record goes
immediately before the first record with a larger start (at the end if there is none),
ends where that record starts (or at infinity), and the record right before it is made
to end at the new start. -/
def add_grab_spec (grabs : List GdkDeviceGrabInfo) (window native_window : GdkWindow)
    (grab_ownership : GdkGrabOwnership) (owner_events : Bool) (event_mask : Nat)
    (serial_start : Nat) (time : Nat) (implicit : Bool) :
    GdkDeviceGrabInfo × List GdkDeviceGrabInfo :=
  let before := records_before serial_start grabs
  let after := records_from_first_larger serial_start grabs
  let new_record : GdkDeviceGrabInfo :=
    { window := window, native_window := native_window, serial_start := serial_start,
      serial_end := end_before after,
      owner_events := owner_events, event_mask := event_mask, time := time,
      implicit := implicit, ownership := grab_ownership,
      activated := false, implicit_ungrab := false }
  (new_record, clamp_last_end serial_start before ++ new_record :: after)

/-! ## Ledger invariants and reachable states -/

/-- The half-open interval `[serial_start, serial_end)` of `r` holds `serial`. -/
def holds (r : GdkDeviceGrabInfo) (serial : Nat) : Prop :=
  r.serial_start ≤ serial ∧ serial < r.serial_end

instance (r : GdkDeviceGrabInfo) (serial : Nat) : Decidable (holds r serial) :=
  inferInstanceAs (Decidable (r.serial_start ≤ serial ∧ serial < r.serial_end))

/-- No two records overlap: every record starts no later than it ends, and of any two
records the earlier one in the list starts no later than, and ends no later than, the
start of the later one. -/
def NonOverlap (l : List GdkDeviceGrabInfo) : Prop :=
  (∀ r ∈ l, r.serial_start ≤ r.serial_end) ∧
  l.Pairwise (fun a b => a.serial_start ≤ b.serial_start ∧ a.serial_end ≤ b.serial_start)

instance (l : List GdkDeviceGrabInfo) : Decidable (NonOverlap l) :=
  inferInstanceAs (Decidable ((∀ r ∈ l, r.serial_start ≤ r.serial_end) ∧
    l.Pairwise (fun a b : GdkDeviceGrabInfo =>
      a.serial_start ≤ b.serial_start ∧ a.serial_end ≤ b.serial_start)))

/-- Every record ends exactly where the next one starts. -/
def Contiguous (l : List GdkDeviceGrabInfo) : Prop :=
  l.Chain' (fun a b => a.serial_end = b.serial_start)

/-- The last record, if any, is open ended. -/
def OpenEnded (l : List GdkDeviceGrabInfo) : Prop :=
  ∀ r, l.getLast? = some r → r.serial_end = G_MAXULONG

/-- The arguments of one `_gdk_display_add_device_grab` call on a given device. -/
structure GrabRequest where
  window : GdkWindow
  native_window : GdkWindow
  grab_ownership : GdkGrabOwnership
  owner_events : Bool
  event_mask : Nat
  serial_start : Nat
  time : Nat
  implicit : Bool
  deriving DecidableEq, Repr

/-- A sequence of `_gdk_display_add_device_grab` calls on one device, in order. -/
def add_device_grabs (display : GdkDisplay) (device : GdkDevice) (calls : List GrabRequest) :
    GdkDisplay :=
  calls.foldl (fun d c => (_gdk_display_add_device_grab d device c.window c.native_window
    c.grab_ownership c.owner_events c.event_mask c.serial_start c.time c.implicit).2) display

/-- The display states reachable from a display without grabs by calls of
`_gdk_display_add_device_grab`, `_gdk_display_device_grab_update` and, when
`with_end_grab` is set, `_gdk_display_end_device_grab`, on any devices, in any order
and with any serials of the `gulong` range. Between the calls the rest of the display
(pointer infos, event queue, time of the last event) may change freely, as it does
while events are processed. -/
inductive ReachableBy (with_end_grab : Bool) : GdkDisplay → Prop
  | init (display : GdkDisplay) (h : display.device_grabs = []) : ReachableBy with_end_grab display
  | add_grab (display : GdkDisplay) (device : GdkDevice) (window native_window : GdkWindow)
      (grab_ownership : GdkGrabOwnership) (owner_events : Bool) (event_mask : Nat)
      (serial_start : Nat) (time : Nat) (implicit : Bool)
      (hs : serial_start ≤ G_MAXULONG) (h : ReachableBy with_end_grab display) :
      ReachableBy with_end_grab
        (_gdk_display_add_device_grab display device window native_window grab_ownership
          owner_events event_mask serial_start time implicit).2
  | end_grab (env : Backend) (display : GdkDisplay) (device : GdkDevice) (serial : Nat)
      (if_child : Option GdkWindow) (implicit : Bool) (he : with_end_grab = true)
      (hs : serial ≤ G_MAXULONG) (h : ReachableBy with_end_grab display) :
      ReachableBy with_end_grab
        (_gdk_display_end_device_grab env display device serial if_child implicit).2
  | grab_update (env : Backend) (display : GdkDisplay) (device source_device : GdkDevice)
      (current_serial : Nat) (hs : current_serial ≤ G_MAXULONG)
      (h : ReachableBy with_end_grab display) :
      ReachableBy with_end_grab
        (_gdk_display_device_grab_update env display device source_device current_serial)
  | other (display : GdkDisplay) (pointers_info : List (GdkDevice × GdkPointerWindowInfo))
      (queued_events : List GdkEventGrabBroken) (last_event_time : Nat)
      (h : ReachableBy with_end_grab display) :
      ReachableBy with_end_grab
        { display with pointers_info := pointers_info, queued_events := queued_events,
                       last_event_time := last_event_time }

/-- Reachable by add, end and update calls. -/
abbrev Reachable : GdkDisplay → Prop := ReachableBy true

/-! ## Concrete scenarios -/

/-- A display on which no device has a grab. -/
def scenario_empty : GdkDisplay :=
  { device_grabs := [], pointers_info := [], queued_events := [], last_event_time := 0 }

/-- A backend with live toplevel windows and master pointer devices only. -/
def scenario_backend : Backend :=
  { GDK_WINDOW_DESTROYED := fun _ => false
    GDK_WINDOW_TYPE := fun _ => GdkWindowType.TOPLEVEL
    gdk_device_get_source := fun _ => GdkInputSource.MOUSE
    gdk_device_get_device_type := fun _ => GdkDeviceType.MASTER
    gdk_device_get_associated_device := fun _ => none
    _gdk_device_window_at_position := fun _ => (none, 0, 0, 0)
    _gdk_window_event_parent_of := fun _ _ => true }

/-- The grab of window 1 (`W1`) at serial 10 followed by the grab of window 2 (`W2`) at
serial 20, both with ownership `WINDOW`. -/
def scenario_calls : List GrabRequest :=
  [{ window := 1, native_window := 1, grab_ownership := GdkGrabOwnership.WINDOW,
     owner_events := false, event_mask := 0, serial_start := 10, time := 0, implicit := false },
   { window := 2, native_window := 2, grab_ownership := GdkGrabOwnership.WINDOW,
     owner_events := false, event_mask := 0, serial_start := 20, time := 0, implicit := false }]

/-- Device 0 after the two grabs of `scenario_calls`. -/
def scenario_two_grabs : GdkDisplay :=
  add_device_grabs scenario_empty 0 scenario_calls

/-- The record of `W1` in `scenario_two_grabs`. -/
def scenario_W1 : GdkDeviceGrabInfo :=
  { window := 1, native_window := 1, serial_start := 10, serial_end := 20,
    owner_events := false, event_mask := 0, time := 0, implicit := false,
    ownership := GdkGrabOwnership.WINDOW, activated := false, implicit_ungrab := false }

/-- The record of `W2` in `scenario_two_grabs`. -/
def scenario_W2 : GdkDeviceGrabInfo :=
  { window := 2, native_window := 2, serial_start := 20, serial_end := G_MAXULONG,
    owner_events := false, event_mask := 0, time := 0, implicit := false,
    ownership := GdkGrabOwnership.WINDOW, activated := false, implicit_ungrab := false }

/-- The grab of `W1` ended at serial 15 while `W2` is queued behind it. -/
def scenario_W1_ended : GdkDisplay :=
  (_gdk_display_end_device_grab scenario_backend scenario_two_grabs 0 15 none false).2

/-- Grabs added out of order (serial 20, then 10), the older one ended at 12 and the
engine advanced to 15. -/
def scenario_interleaved : GdkDisplay :=
  _gdk_display_device_grab_update scenario_backend
    (_gdk_display_end_device_grab scenario_backend
      (_gdk_display_add_device_grab
        (_gdk_display_add_device_grab scenario_empty 0 2 2 GdkGrabOwnership.WINDOW false 0 20 0
          false).2
        0 1 1 GdkGrabOwnership.WINDOW false 0 10 0 false).2
      0 12 none true).2
    0 0 15

/-- Grabs added out of order (serial 20, then 10) and the engine advanced to 15. -/
def scenario_added_then_advanced : GdkDisplay :=
  _gdk_display_device_grab_update scenario_backend
    (_gdk_display_add_device_grab
      (_gdk_display_add_device_grab scenario_empty 0 2 2 GdkGrabOwnership.WINDOW false 0 20 0
        false).2
      0 1 1 GdkGrabOwnership.WINDOW false 0 10 0 false).2
    0 0 15

/-- Device 0 after the single grab of `W1` at serial 10, never ended. -/
def scenario_one_grab : GdkDisplay :=
  (_gdk_display_add_device_grab scenario_empty 0 1 1 GdkGrabOwnership.WINDOW false 0 10 0
    false).2

/-- Device 0 after the single grab of `W2` at serial 20. -/
def scenario_late_grab : GdkDisplay :=
  (_gdk_display_add_device_grab scenario_empty 0 2 2 GdkGrabOwnership.WINDOW false 0 20 0
    false).2

/-! ## The update engine as the specification words it -/

/-- The record with its `activated` flag cleared: what is left of a record when the
flag is disregarded. -/
def erase_activated (r : GdkDeviceGrabInfo) : GdkDeviceGrabInfo :=
  { r with activated := false }

/-- The update engine at `current_serial` retires the record: it has started and it has
ended. -/
def retires (current_serial : Nat) (r : GdkDeviceGrabInfo) : Bool :=
  decide (r.serial_start ≤ current_serial) && decide (r.serial_end ≤ current_serial)

/-- The `next_grab` of a retiring record followed by `rest`: the following record if its
`serial_start` is at most `current_serial`, none otherwise. -/
def next_grab_at (current_serial : Nat) (rest : List GdkDeviceGrabInfo) :
    Option GdkDeviceGrabInfo :=
  match rest with
  | [] => none
  | next :: _ => if next.serial_start ≤ current_serial then some next else none

/-- The condition under which a grab-broken event is due for the retiring record `r`
with the given `next_grab`: its window is live, and either there is no `next_grab` and
`implicit_ungrab` is set, or `next_grab` is on a different window. -/
def grab_broken_due (env : Backend) (r : GdkDeviceGrabInfo)
    (next_grab : Option GdkDeviceGrabInfo) : Bool :=
  !env.GDK_WINDOW_DESTROYED r.window &&
    match next_grab with
    | none => r.implicit_ungrab
    | some next => decide (next.window ≠ r.window)

/-- The grab-broken event for the retiring record `r` of `device`: it names the window
of `r`, carries the `implicit` flag of `r`, and names the window of `next_grab`. -/
def grab_broken_event_of (env : Backend) (device : GdkDevice) (r : GdkDeviceGrabInfo)
    (next_grab : Option GdkDeviceGrabInfo) : GdkEventGrabBroken :=
  { window := r.window, send_event := false, device := device, implicit := r.implicit,
    grab_window := next_grab.map (fun next => next.window),
    keyboard := decide (env.gdk_device_get_source device = GdkInputSource.KEYBOARD) }

/-- The events due for the retiring record `r` followed by `rest`: one or none. -/
def grab_broken_for (env : Backend) (device : GdkDevice) (current_serial : Nat)
    (r : GdkDeviceGrabInfo) (rest : List GdkDeviceGrabInfo) : List GdkEventGrabBroken :=
  if grab_broken_due env r (next_grab_at current_serial rest) then
    [grab_broken_event_of env device r (next_grab_at current_serial rest)]
  else []

/-- For each record the engine retires at `current_serial`, in retirement order, the
events due for it. -/
def events_per_retired (env : Backend) (device : GdkDevice) (current_serial : Nat) :
    List GdkDeviceGrabInfo → List (List GdkEventGrabBroken)
  | [] => []
  | r :: rest =>
    if retires current_serial r then
      grab_broken_for env device current_serial r rest ::
        events_per_retired env device current_serial rest
    else []

/-! ## The window hierarchy -/

/-- Modelled from the spec: `_gdk_window_event_parent_of (parent, child)` of gdkwindow.c
(not among the sources at hand) is the window hierarchy's "is ancestor of" predicate:
`parent` is `child` itself or one of its ancestors. The hierarchy is given by
`ancestors`, the event parents of a window upwards. -/
def window_event_parent_of (ancestors : GdkWindow → List GdkWindow)
    (parent child : GdkWindow) : Bool :=
  decide (parent = child ∨ parent ∈ ancestors child)

/-- Window `w` is `of_window` itself or a descendant of it. -/
def descendant_or_self (ancestors : GdkWindow → List GdkWindow) (w of_window : GdkWindow) :
    Prop :=
  w = of_window ∨ of_window ∈ ancestors w

instance (ancestors : GdkWindow → List GdkWindow) (w of_window : GdkWindow) :
    Decidable (descendant_or_self ancestors w of_window) :=
  inferInstanceAs (Decidable (w = of_window ∨ of_window ∈ ancestors w))

/-- The grab found at `serial` on node `i` has been ended by a call that led to
`display`: its `serial_end` is now `serial`. -/
def grab_ended_at (display : GdkDisplay) (device : GdkDevice) (i serial : Nat) : Prop :=
  ((lookup_grabs display device)[i]?).map (fun r => r.serial_end) = some serial

instance (display : GdkDisplay) (device : GdkDevice) (i serial : Nat) :
    Decidable (grab_ended_at display device i serial) :=
  inferInstanceAs (Decidable
    (((lookup_grabs display device)[i]?).map (fun r => r.serial_end) = some serial))

/-! ## More scenarios -/

/-- A hierarchy in which window 2 is a child of window 1 and window 3 a child of
window 2. -/
def scenario_ancestors : GdkWindow → List GdkWindow
  | 2 => [1]
  | 3 => [2, 1]
  | _ => []

/-- The scenario backend with the hierarchy `scenario_ancestors`. -/
def scenario_hierarchy_backend : Backend :=
  { scenario_backend with
    _gdk_window_event_parent_of := window_event_parent_of scenario_ancestors }

/-- The scenario backend with keyboard devices only. -/
def scenario_keyboard_backend : Backend :=
  { scenario_backend with gdk_device_get_source := fun _ => GdkInputSource.KEYBOARD }

/-- The grab of `W1` from serial 10, ended at serial 15 with `implicit = true`. -/
def scenario_W1_implicitly_ended : GdkDisplay :=
  (_gdk_display_end_device_grab scenario_backend scenario_one_grab 0 15 none true).2

/-- Two grabs of the same window 1, from serials 10 and 20; the first one ended at
serial 15 with `implicit = true`. -/
def scenario_same_window_gap : GdkDisplay :=
  (_gdk_display_end_device_grab scenario_backend
    (_gdk_display_add_device_grab scenario_one_grab 0 1 1 GdkGrabOwnership.WINDOW false 0 20 0
      false).2
    0 15 none true).2

/-- The two grabs of the scenario, the grab of `W2` ended at serial 30 with
`implicit = false`. -/
def scenario_W2_ended : GdkDisplay :=
  (_gdk_display_end_device_grab scenario_backend scenario_two_grabs 0 30 none false).2

/-- One turn of the loop of `_gdk_display_device_grab_update` on an expired head
`current_grab` followed by `rest`: the event, the unlinking and the grab switch. -/
def retire_head (env : Backend) (device source_device : GdkDevice) (current_serial : Nat)
    (time : Nat) (display : GdkDisplay) (current_grab : GdkDeviceGrabInfo)
    (rest : List GdkDeviceGrabInfo) : GdkDisplay :=
  let next_grab : Option GdkDeviceGrabInfo :=
    match rest with
    | [] => none
    | next :: _ => if next.serial_start > current_serial then none else some next
  let broken : Bool :=
    match next_grab with
    | none => current_grab.implicit_ungrab
    | some next => decide (current_grab.window ≠ next.window)
  let display1 :=
    if broken then
      generate_grab_broken_event env display current_grab.window device
        current_grab.implicit (next_grab.map (fun next => next.window))
    else display
  let display2 :=
    { display1 with
      device_grabs := g_hash_table_insert display1.device_grabs device rest }
  if env.gdk_device_get_source device ≠ GdkInputSource.KEYBOARD then
    switch_to_pointer_grab env display2 device source_device
      (next_grab.map (fun _ => 0)) (some current_grab) time current_serial
  else display2

/-! ## `_gdk_display_check_grab_ownership` and the grab status queries -/

/-- One turn of the loop over `display->device_grabs` in
`_gdk_display_check_grab_ownership`; `acc` holds `higher_ownership` and
`device_ownership`, `entry` is the key and value the iterator yields. -/
def check_grab_ownership_step (env : Backend) (device : GdkDevice) (serial : Nat)
    (device_is_keyboard : Bool) (acc : GdkGrabOwnership × GdkGrabOwnership)
    (entry : GdkDevice × List GdkDeviceGrabInfo) : GdkGrabOwnership × GdkGrabOwnership :=
  let dev := entry.1
  match grab_list_find entry.2 serial with
  | none => acc
  | some i =>
    -- discard the device if it is not of the same type
    if (device_is_keyboard = true ∧
          env.gdk_device_get_source dev ≠ GdkInputSource.KEYBOARD) ∨
        (device_is_keyboard = false ∧
          env.gdk_device_get_source dev = GdkInputSource.KEYBOARD) then acc
    else
      match entry.2[i]? with
      | none => acc
      | some grab =>
        if dev = device then (acc.1, grab.ownership)
        else if grab.ownership.toNat > acc.1.toNat then (grab.ownership, acc.2)
        else acc

/-- Returns true if device events are not blocked by any grab. -/
def _gdk_display_check_grab_ownership (env : Backend) (display : GdkDisplay)
    (device : GdkDevice) (serial : Nat) : Bool :=
  let device_is_keyboard : Bool :=
    decide (env.gdk_device_get_source device = GdkInputSource.KEYBOARD)
  let r := display.device_grabs.foldl
    (check_grab_ownership_step env device serial device_is_keyboard)
    (GdkGrabOwnership.NONE, GdkGrabOwnership.NONE)
  if r.1.toNat > r.2.toNat then false else true

/-- The result and, when there is a grab, the values stored through `grab_window` and
`owner_events`. -/
def gdk_device_grab_info (display : GdkDisplay) (device : GdkDevice) :
    Bool × Option (GdkWindow × Bool) :=
  match _gdk_display_get_last_device_grab display device with
  | some info => (true, some (info.window, info.owner_events))
  | none => (false, none)

def gdk_display_device_is_grabbed (display : GdkDisplay) (device : GdkDevice) : Bool :=
  match _gdk_display_get_last_device_grab display device with
  | some info => !info.implicit
  | none => false

/-- The two devices are of the same broad class: both keyboards or both not. -/
def same_class (env : Backend) (a b : GdkDevice) : Prop :=
  env.gdk_device_get_source a = GdkInputSource.KEYBOARD ↔
    env.gdk_device_get_source b = GdkInputSource.KEYBOARD

instance (env : Backend) (a b : GdkDevice) : Decidable (same_class env a b) :=
  inferInstanceAs (Decidable (env.gdk_device_get_source a = GdkInputSource.KEYBOARD ↔
    env.gdk_device_get_source b = GdkInputSource.KEYBOARD))

/-- The ownership of the grab of `device` active at `serial`, `NONE` if there is none. -/
def active_ownership (display : GdkDisplay) (device : GdkDevice) (serial : Nat) :
    GdkGrabOwnership :=
  match _gdk_display_has_device_grab display device serial with
  | some grab => grab.ownership
  | none => GdkGrabOwnership.NONE

/-- The keys of `display->device_grabs` are distinct, as the keys of a hash table are. -/
def distinct_keys (display : GdkDisplay) : Prop :=
  (display.device_grabs.map Prod.fst).Nodup

instance (display : GdkDisplay) : Decidable (distinct_keys display) :=
  inferInstanceAs (Decidable ((display.device_grabs.map Prod.fst).Nodup))

/-- The window the backend reports under the device, unless it is absent, destroyed, a
root window or a foreign window. -/
def reported_toplevel (env : Backend) (device : GdkDevice) : Option GdkWindow :=
  match (env._gdk_device_window_at_position device).1 with
  | none => none
  | some w =>
    if env.GDK_WINDOW_DESTROYED w = true then none
    else if env.GDK_WINDOW_TYPE w = GdkWindowType.ROOT then none
    else if env.GDK_WINDOW_TYPE w = GdkWindowType.FOREIGN then none
    else some w

/-- The window under pointer right after the grab of a device was lifted: nothing for a
slave device, the reported toplevel otherwise. -/
def toplevel_after_ungrab (env : Backend) (device : GdkDevice) : Option GdkWindow :=
  if env.gdk_device_get_device_type device = GdkDeviceType.SLAVE then none
  else reported_toplevel env device

/-- The grab of `W1` from serial 10, ended at serial 15 with `implicit = false`. -/
def scenario_W1_explicitly_ended : GdkDisplay :=
  (_gdk_display_end_device_grab scenario_backend scenario_one_grab 0 15 none false).2

/-- A backend in which window 1 is destroyed. -/
def scenario_destroyed_backend : Backend :=
  { scenario_backend with GDK_WINDOW_DESTROYED := fun w => decide (w = 1) }

/-- A slave pointer device under which the backend reports window 7. -/
def scenario_slave_backend : Backend :=
  { scenario_backend with
    gdk_device_get_device_type := fun _ => GdkDeviceType.SLAVE
    _gdk_device_window_at_position := fun _ => (some 7, 3, 4, 0) }

/-- A master pointer device under which the backend reports window 7. -/
def scenario_pointer_backend : Backend :=
  { scenario_backend with _gdk_device_window_at_position := fun _ => (some 7, 3, 4, 0) }

/-- The scenario of the two grabs with the pointer tracked over window 5. -/
def scenario_pointer_over_5 : GdkDisplay :=
  { scenario_two_grabs with
    pointers_info :=
      [(0, { window_under_pointer := some 5, toplevel_x := 1, toplevel_y := 2, state := 0 })] }

/-- The record of `grabs` active at `serial`: the data of the node `grab_list_find`
returns. -/
def active_in (grabs : List GdkDeviceGrabInfo) (serial : Nat) : Option GdkDeviceGrabInfo :=
  match grab_list_find grabs serial with
  | some i => grabs[i]?
  | none => none

/-- Two keyboard devices (0 and 1) and a pointer device (2), told apart by the source. -/
def scenario_mixed_backend : Backend :=
  { scenario_backend with
    gdk_device_get_source := fun d =>
      if d = 2 then GdkInputSource.MOUSE else GdkInputSource.KEYBOARD }

/-- Device 0 grabs with ownership `WINDOW`, device 1 with ownership `APPLICATION`, both
from serial 10. -/
def scenario_two_devices : GdkDisplay :=
  (_gdk_display_add_device_grab
    (_gdk_display_add_device_grab scenario_empty 0 1 1 GdkGrabOwnership.WINDOW false 0 10 0
      false).2
    1 2 2 GdkGrabOwnership.APPLICATION false 0 10 0 false).2

/-- As `scenario_two_devices`, and the pointer device 2 grabs with ownership
`APPLICATION` from serial 10. -/
def scenario_three_devices : GdkDisplay :=
  (_gdk_display_add_device_grab scenario_two_devices 2 3 3 GdkGrabOwnership.APPLICATION false 0
    10 0 false).2

/-- The call `_gdk_display_end_device_grab (display, device, serial, if_child, _)` ends a
record that has a successor in the ledger: a grab is active at `serial`, it passes the
`if_child` test and it is not the last record (`l->next != NULL`; the call writes
`serial_end` and returns false). -/
def ends_grab_with_successor (env : Backend) (display : GdkDisplay) (device : GdkDevice)
    (serial : Nat) (if_child : Option GdkWindow) : Bool :=
  match find_device_grab display device serial with
  | none => false
  | some l =>
    match (lookup_grabs display device)[l]? with
    | none => false
    | some grab =>
      if_child_passes env if_child grab &&
        decide (l + 1 ≠ (lookup_grabs display device).length)

/-- The display states reachable as in `ReachableBy` by calls of
`_gdk_display_add_device_grab`, `_gdk_display_device_grab_update` and those calls of
`_gdk_display_end_device_grab` that do not end a record with a successor: the call ends
the last record of the ledger (it returns true) or it changes nothing. -/
inductive ReachableEndingLast : GdkDisplay → Prop
  | init (display : GdkDisplay) (h : display.device_grabs = []) : ReachableEndingLast display
  | add_grab (display : GdkDisplay) (device : GdkDevice) (window native_window : GdkWindow)
      (grab_ownership : GdkGrabOwnership) (owner_events : Bool) (event_mask : Nat)
      (serial_start : Nat) (time : Nat) (implicit : Bool)
      (hs : serial_start ≤ G_MAXULONG) (h : ReachableEndingLast display) :
      ReachableEndingLast
        (_gdk_display_add_device_grab display device window native_window grab_ownership
          owner_events event_mask serial_start time implicit).2
  | end_grab (env : Backend) (display : GdkDisplay) (device : GdkDevice) (serial : Nat)
      (if_child : Option GdkWindow) (implicit : Bool)
      (hlast : ends_grab_with_successor env display device serial if_child = false)
      (hs : serial ≤ G_MAXULONG) (h : ReachableEndingLast display) :
      ReachableEndingLast
        (_gdk_display_end_device_grab env display device serial if_child implicit).2
  | grab_update (env : Backend) (display : GdkDisplay) (device source_device : GdkDevice)
      (current_serial : Nat) (hs : current_serial ≤ G_MAXULONG)
      (h : ReachableEndingLast display) :
      ReachableEndingLast
        (_gdk_display_device_grab_update env display device source_device current_serial)
  | other (display : GdkDisplay) (pointers_info : List (GdkDevice × GdkPointerWindowInfo))
      (queued_events : List GdkEventGrabBroken) (last_event_time : Nat)
      (h : ReachableEndingLast display) :
      ReachableEndingLast
        { display with pointers_info := pointers_info, queued_events := queued_events,
                       last_event_time := last_event_time }

/-! ## Hash table facts -/

theorem lookup_insert_self {V : Type} (t : List (GdkDevice × V)) (k : GdkDevice) (v : V) :
    g_hash_table_lookup (g_hash_table_insert t k v) k = some v := by
  induction t with
  | nil => simp [g_hash_table_insert, g_hash_table_lookup]
  | cons hd tl ih =>
    obtain ⟨k0, v0⟩ := hd
    by_cases h : k0 = k
    · simp [g_hash_table_insert, g_hash_table_lookup, h]
    · simp [g_hash_table_insert, g_hash_table_lookup, h, ih]

theorem lookup_insert_other {V : Type} (t : List (GdkDevice × V)) (k k1 : GdkDevice) (v : V)
    (hk : k1 ≠ k) :
    g_hash_table_lookup (g_hash_table_insert t k v) k1 = g_hash_table_lookup t k1 := by
  induction t with
  | nil =>
    have : ¬ k = k1 := fun h => hk h.symm
    simp [g_hash_table_insert, g_hash_table_lookup, this]
  | cons hd tl ih =>
    obtain ⟨k0, v0⟩ := hd
    by_cases h : k0 = k
    · subst h
      have : ¬ k0 = k1 := fun h => hk h.symm
      simp [g_hash_table_insert, g_hash_table_lookup, this]
    · by_cases h1 : k0 = k1
      · subst h1
        simp [g_hash_table_insert, g_hash_table_lookup, h]
      · simp [g_hash_table_insert, g_hash_table_lookup, h, h1, ih]

theorem lookup_steal_other {V : Type} (t : List (GdkDevice × V)) (k k1 : GdkDevice)
    (hk : k1 ≠ k) :
    g_hash_table_lookup (g_hash_table_steal t k) k1 = g_hash_table_lookup t k1 := by
  induction t with
  | nil => simp [g_hash_table_steal, g_hash_table_lookup]
  | cons hd tl ih =>
    obtain ⟨k0, v0⟩ := hd
    by_cases h : k0 = k
    · subst h
      have : ¬ k0 = k1 := fun h => hk h.symm
      simp [g_hash_table_steal, g_hash_table_lookup, this, ih]
    · by_cases h1 : k0 = k1
      · subst h1
        simp [g_hash_table_steal, g_hash_table_lookup, h]
      · simp [g_hash_table_steal, g_hash_table_lookup, h, h1, ih]

/-! ## The insertion scan -/

theorem first_larger_start_eq (s : Nat) (grabs : List GdkDeviceGrabInfo) :
    first_larger_start s grabs =
      if records_from_first_larger s grabs = [] then none
      else some (records_before s grabs).length := by
  induction grabs with
  | nil => simp [first_larger_start, records_from_first_larger]
  | cons g rest ih =>
    by_cases h : s < g.serial_start
    · simp [first_larger_start, records_from_first_larger, records_before, h,
        List.takeWhile_cons, List.dropWhile_cons]
    · simp only [records_from_first_larger, records_before] at ih
      simp only [first_larger_start, records_from_first_larger, records_before, h,
        List.takeWhile_cons, List.dropWhile_cons, ih, if_false, decide_False, Bool.not_false,
        if_true, List.length_cons]
      split <;> simp

theorem before_append_after (s : Nat) (grabs : List GdkDeviceGrabInfo) :
    records_before s grabs ++ records_from_first_larger s grabs = grabs := by
  simp [records_before, records_from_first_larger]

theorem clamp_last_end_concat (s : Nat) (init : List GdkDeviceGrabInfo)
    (last : GdkDeviceGrabInfo) :
    clamp_last_end s (init ++ [last]) = init ++ [{ last with serial_end := s }] := by
  induction init with
  | nil => simp [clamp_last_end]
  | cons a t ih =>
    cases t with
    | nil => simp [clamp_last_end]
    | cons b t1 =>
      simp only [List.cons_append] at ih ⊢
      simp [clamp_last_end, ih]

theorem getElem_middle {α : Type} (init : List α) (a : α) (tail : List α) :
    (init ++ a :: tail)[init.length]? = some a := by
  rw [List.getElem?_append_right (Nat.le_refl _)]
  simp

theorem set_middle {α : Type} (init : List α) (a b : α) (tail : List α) :
    (init ++ a :: tail).set init.length b = init ++ b :: tail := by
  simp

/-- The list computed by the code from a ledger split at the insertion point. -/
theorem add_grab_list_split (before after : List GdkDeviceGrabInfo)
    (window native_window : GdkWindow) (grab_ownership : GdkGrabOwnership)
    (owner_events : Bool) (event_mask : Nat) (serial_start : Nat) (time : Nat)
    (implicit : Bool)
    (hl : first_larger_start serial_start (before ++ after) =
      if after = [] then none else some before.length) :
    add_grab_list (before ++ after) window native_window grab_ownership owner_events event_mask
        serial_start time implicit =
      (let new_record : GdkDeviceGrabInfo :=
        { window := window, native_window := native_window, serial_start := serial_start,
          serial_end := end_before after,
          owner_events := owner_events, event_mask := event_mask, time := time,
          implicit := implicit, ownership := grab_ownership,
          activated := false, implicit_ungrab := false }
       (new_record, clamp_last_end serial_start before ++ new_record :: after)) := by
  rcases List.eq_nil_or_concat before with hb | ⟨init, last, hb⟩
  · subst hb
    cases after with
    | nil =>
      simp [add_grab_list, first_larger_start, g_list_insert_before, clamp_last_end, end_before]
    | cons next rest =>
      simp only [List.nil_append, List.length_nil] at hl
      simp [add_grab_list, hl, g_list_insert_before, clamp_last_end, end_before]
  · rw [List.concat_eq_append] at hb
    subst hb
    have hb1 : init ++ [last] ++ after = init ++ last :: after := by simp
    rw [hb1] at hl ⊢
    cases after with
    | nil =>
      simp only [if_true] at hl
      simp only [add_grab_list, hl]
      simp only [g_list_insert_before, clamp_last_end_concat, List.length_append,
        List.length_singleton, List.append_assoc, List.singleton_append, List.cons_append,
        List.nil_append, getElem_middle, set_middle, end_before]
    | cons next rest =>
      simp only [if_false, List.length_append, List.length_singleton, reduceCtorEq] at hl
      have e1 : (init ++ last :: next :: rest)[init.length + 1]? = some next := by
        have := getElem_middle (init ++ [last]) next rest
        simp only [List.append_assoc, List.singleton_append, List.length_append,
          List.length_singleton] at this
        exact this
      have e2 : List.take (init.length + 1) (init ++ last :: next :: rest) = init ++ [last] := by
        have := List.take_left (init ++ [last]) (next :: rest)
        simp only [List.append_assoc, List.singleton_append, List.length_append,
          List.length_singleton] at this
        exact this
      have e3 : List.drop (init.length + 1) (init ++ last :: next :: rest) = next :: rest := by
        have := List.drop_left (init ++ [last]) (next :: rest)
        simp only [List.append_assoc, List.singleton_append, List.length_append,
          List.length_singleton] at this
        exact this
      simp only [add_grab_list, hl, e1]
      simp only [g_list_insert_before, e2, e3, clamp_last_end_concat,
        List.append_assoc, List.singleton_append, getElem_middle, set_middle, end_before]

theorem add_grab_list_eq_spec (grabs : List GdkDeviceGrabInfo)
    (window native_window : GdkWindow) (grab_ownership : GdkGrabOwnership)
    (owner_events : Bool) (event_mask : Nat) (serial_start : Nat) (time : Nat)
    (implicit : Bool) :
    add_grab_list grabs window native_window grab_ownership owner_events event_mask
        serial_start time implicit =
      add_grab_spec grabs window native_window grab_ownership owner_events event_mask
        serial_start time implicit := by
  have h := add_grab_list_split (records_before serial_start grabs)
    (records_from_first_larger serial_start grabs) window native_window grab_ownership
    owner_events event_mask serial_start time implicit
    (by rw [before_append_after]; exact first_larger_start_eq serial_start grabs)
  calc add_grab_list grabs window native_window grab_ownership owner_events event_mask
        serial_start time implicit
      = add_grab_list (records_before serial_start grabs ++
          records_from_first_larger serial_start grabs) window native_window grab_ownership
          owner_events event_mask serial_start time implicit := by
        rw [before_append_after]
    _ = add_grab_spec grabs window native_window grab_ownership owner_events event_mask
          serial_start time implicit := h

/-! ## Effect of the insertion on the display -/

theorem lookup_grabs_add_self (display : GdkDisplay) (device : GdkDevice)
    (window native_window : GdkWindow) (grab_ownership : GdkGrabOwnership)
    (owner_events : Bool) (event_mask : Nat) (serial_start : Nat) (time : Nat)
    (implicit : Bool) :
    lookup_grabs (_gdk_display_add_device_grab display device window native_window
        grab_ownership owner_events event_mask serial_start time implicit).2 device =
      (add_grab_list (lookup_grabs display device) window native_window grab_ownership
        owner_events event_mask serial_start time implicit).2 := by
  simp [_gdk_display_add_device_grab, lookup_grabs, lookup_insert_self]

theorem lookup_grabs_add_other (display : GdkDisplay) (device d : GdkDevice)
    (window native_window : GdkWindow) (grab_ownership : GdkGrabOwnership)
    (owner_events : Bool) (event_mask : Nat) (serial_start : Nat) (time : Nat)
    (implicit : Bool) (hd : d ≠ device) :
    lookup_grabs (_gdk_display_add_device_grab display device window native_window
        grab_ownership owner_events event_mask serial_start time implicit).2 d =
      lookup_grabs display d := by
  simp [_gdk_display_add_device_grab, lookup_grabs, lookup_insert_other _ _ _ _ hd]

/-! ## The split of a ledger at the insertion point -/

theorem records_before_le (s : Nat) (grabs : List GdkDeviceGrabInfo) :
    ∀ r ∈ records_before s grabs, r.serial_start ≤ s := by
  intro r hr
  have h := List.mem_takeWhile_imp hr
  simp only [Bool.not_eq_true', decide_eq_false_iff_not, Nat.not_lt] at h
  exact h

theorem records_from_first_larger_head (s : Nat) (grabs : List GdkDeviceGrabInfo)
    (next : GdkDeviceGrabInfo) (rest : List GdkDeviceGrabInfo)
    (h : records_from_first_larger s grabs = next :: rest) : s < next.serial_start := by
  induction grabs with
  | nil => simp [records_from_first_larger] at h
  | cons g t ih =>
    by_cases hg : s < g.serial_start
    · simp only [records_from_first_larger, List.dropWhile_cons, hg, decide_True, Bool.not_true,
        Bool.false_eq_true, if_false, List.cons.injEq] at h
      rw [← h.1]
      exact hg
    · simp only [records_from_first_larger, List.dropWhile_cons, hg, decide_False,
        Bool.not_false, if_true] at h
      exact ih h

theorem records_before_eq_self (s : Nat) (grabs : List GdkDeviceGrabInfo)
    (h : ∀ r ∈ grabs, r.serial_start ≤ s) :
    records_before s grabs = grabs ∧ records_from_first_larger s grabs = [] := by
  induction grabs with
  | nil => simp [records_before, records_from_first_larger]
  | cons g t ih =>
    have hg : ¬ s < g.serial_start := Nat.not_lt.mpr (h g (List.mem_cons_self _ _))
    have ht := ih (fun r hr => h r (List.mem_cons_of_mem _ hr))
    simp only [records_before, records_from_first_larger] at ht
    simp [records_before, records_from_first_larger, List.takeWhile_cons, List.dropWhile_cons,
      hg, ht.1, ht.2]

theorem clamp_last_end_map_start (s : Nat) (l : List GdkDeviceGrabInfo) :
    (clamp_last_end s l).map (fun r => r.serial_start) = l.map (fun r => r.serial_start) := by
  rcases List.eq_nil_or_concat l with h | ⟨init, last, h⟩
  · subst h
    simp [clamp_last_end]
  · rw [List.concat_eq_append] at h
    subst h
    simp [clamp_last_end_concat]

/-- The ledger after an insertion, in terms of the split of the old ledger. -/
theorem add_grab_list_shape (grabs : List GdkDeviceGrabInfo)
    (window native_window : GdkWindow) (grab_ownership : GdkGrabOwnership)
    (owner_events : Bool) (event_mask : Nat) (serial_start : Nat) (time : Nat)
    (implicit : Bool) :
    ∃ before after new_record,
      grabs = before ++ after ∧
      (∀ r ∈ before, r.serial_start ≤ serial_start) ∧
      (∀ next rest, after = next :: rest → serial_start < next.serial_start) ∧
      new_record.serial_start = serial_start ∧
      new_record.serial_end = end_before after ∧
      add_grab_list grabs window native_window grab_ownership owner_events event_mask
        serial_start time implicit =
        (new_record, clamp_last_end serial_start before ++ new_record :: after) := by
  refine ⟨records_before serial_start grabs, records_from_first_larger serial_start grabs, _,
    (before_append_after serial_start grabs).symm, records_before_le serial_start grabs,
    fun next rest h => records_from_first_larger_head serial_start grabs next rest h,
    ?_, ?_, add_grab_list_eq_spec grabs window native_window grab_ownership owner_events
      event_mask serial_start time implicit⟩
  · rfl
  · rfl

/-! ## Insertion keeps the ledger invariants -/

theorem after_facts (s : Nat) (before after : List GdkDeviceGrabInfo)
    (h : NonOverlap (before ++ after))
    (ha : ∀ next rest, after = next :: rest → s < next.serial_start) :
    ∀ b ∈ after, s < b.serial_start ∧ end_before after ≤ b.serial_start := by
  cases after with
  | nil => simp
  | cons next rest =>
    have hn := ha next rest rfl
    have hp := (List.pairwise_append.mp h.2).2.1
    rw [List.pairwise_cons] at hp
    intro b hb
    rcases List.mem_cons.mp hb with hb | hb
    · subst hb
      exact ⟨hn, Nat.le_refl _⟩
    · have := (hp.1 b hb).1
      simp only [end_before]
      omega

theorem le_end_before (s : Nat) (after : List GdkDeviceGrabInfo) (hmax : s ≤ G_MAXULONG)
    (ha : ∀ next rest, after = next :: rest → s < next.serial_start) :
    s ≤ end_before after := by
  cases after with
  | nil => exact hmax
  | cons next rest => exact Nat.le_of_lt (ha next rest rfl)

theorem nonOverlap_insert (s : Nat) (before after : List GdkDeviceGrabInfo)
    (new_record : GdkDeviceGrabInfo)
    (h : NonOverlap (before ++ after))
    (hb : ∀ r ∈ before, r.serial_start ≤ s)
    (ha : ∀ next rest, after = next :: rest → s < next.serial_start)
    (hs : new_record.serial_start = s) (he : new_record.serial_end = end_before after)
    (hmax : s ≤ G_MAXULONG) :
    NonOverlap (clamp_last_end s before ++ new_record :: after) := by
  have haft := after_facts s before after h ha
  have hend := le_end_before s after hmax ha
  rcases List.eq_nil_or_concat before with hnil | ⟨init, last, hcat⟩
  · subst hnil
    simp only [List.nil_append] at h
    obtain ⟨h1, h2⟩ := h
    refine ⟨?_, ?_⟩
    · intro r hr
      simp only [clamp_last_end, List.nil_append, List.mem_cons] at hr
      rcases hr with hr | hr
      · subst hr; omega
      · exact h1 r hr
    · simp only [clamp_last_end, List.nil_append, List.pairwise_cons]
      refine ⟨fun b hb => ?_, h2⟩
      have := haft b hb
      omega
  · rw [List.concat_eq_append] at hcat
    subst hcat
    obtain ⟨h1, h2⟩ := h
    have hlast := hb last (by simp)
    rw [clamp_last_end_concat]
    simp only [List.append_assoc, List.singleton_append] at h1 h2 ⊢
    rw [List.pairwise_append, List.pairwise_cons] at h2
    obtain ⟨hp_init, ⟨hlast_after, hp_after⟩, hcross⟩ := h2
    refine ⟨?_, ?_⟩
    · intro r hr
      simp only [List.mem_append, List.mem_cons] at hr
      rcases hr with hr | hr | hr | hr
      · exact h1 r (by simp [hr])
      · subst hr; exact hlast
      · subst hr; omega
      · exact h1 r (by simp [hr])
    · rw [List.pairwise_append, List.pairwise_cons, List.pairwise_cons]
      refine ⟨hp_init, ⟨?_, ?_, hp_after⟩, ?_⟩
      · intro b hb
        rcases List.mem_cons.mp hb with hb | hb
        · subst hb; simp only; omega
        · have := haft b hb
          have := hlast_after b hb
          simp only; omega
      · intro b hb
        have := haft b hb
        omega
      · intro a ha1 b hb1
        have hal := hcross a ha1 last (by simp)
        rcases List.mem_cons.mp hb1 with hb1 | hb1
        · subst hb1; simp only; omega
        · rcases List.mem_cons.mp hb1 with hb1 | hb1
          · subst hb1; omega
          · exact hcross a ha1 b (by simp [hb1])

theorem nonOverlap_add_grab_list (grabs : List GdkDeviceGrabInfo)
    (window native_window : GdkWindow) (grab_ownership : GdkGrabOwnership)
    (owner_events : Bool) (event_mask : Nat) (serial_start : Nat) (time : Nat)
    (implicit : Bool) (h : NonOverlap grabs) (hmax : serial_start ≤ G_MAXULONG) :
    NonOverlap (add_grab_list grabs window native_window grab_ownership owner_events event_mask
      serial_start time implicit).2 := by
  obtain ⟨before, after, new_record, hsplit, hb, ha, hs, he, heq⟩ :=
    add_grab_list_shape grabs window native_window grab_ownership owner_events event_mask
      serial_start time implicit
  rw [heq]
  subst hsplit
  exact nonOverlap_insert serial_start before after new_record h hb ha hs he hmax

theorem chain_concat_same_start (init : List GdkDeviceGrabInfo) (last last1 : GdkDeviceGrabInfo)
    (h : Contiguous (init ++ [last])) (hs : last1.serial_start = last.serial_start) :
    Contiguous (init ++ [last1]) := by
  unfold Contiguous at h ⊢
  induction init with
  | nil => simp
  | cons a t ih =>
    cases t with
    | nil =>
      simp only [List.cons_append, List.nil_append, List.chain'_cons] at h ⊢
      exact ⟨by rw [hs]; exact h.1, List.chain'_singleton _⟩
    | cons b t1 =>
      simp only [List.cons_append, List.chain'_cons] at h ih ⊢
      exact ⟨h.1, ih h.2⟩

theorem contiguous_insert (s : Nat) (before after : List GdkDeviceGrabInfo)
    (new_record : GdkDeviceGrabInfo)
    (h : Contiguous (before ++ after))
    (hs : new_record.serial_start = s) (he : new_record.serial_end = end_before after) :
    Contiguous (clamp_last_end s before ++ new_record :: after) := by
  have hnew : Contiguous (new_record :: after) := by
    unfold Contiguous at h ⊢
    rw [List.chain'_cons']
    refine ⟨?_, h.right_of_append⟩
    intro y hy
    cases after with
    | nil => simp at hy
    | cons next rest =>
      simp only [List.head?_cons, Option.mem_def, Option.some.injEq] at hy
      subst hy
      simp [he, end_before]
  rcases List.eq_nil_or_concat before with hnil | ⟨init, last, hcat⟩
  · subst hnil
    simpa [clamp_last_end] using hnew
  · rw [List.concat_eq_append] at hcat
    subst hcat
    rw [clamp_last_end_concat]
    have hinit : Contiguous (init ++ [{ last with serial_end := s }]) :=
      chain_concat_same_start init last _ (List.Chain'.left_of_append h) rfl
    unfold Contiguous at hinit hnew ⊢
    simp only [List.append_assoc, List.singleton_append]
    rw [List.chain'_append_cons_cons]
    exact ⟨hinit, by simp [hs], hnew⟩

theorem openEnded_insert (s : Nat) (before after : List GdkDeviceGrabInfo)
    (new_record : GdkDeviceGrabInfo)
    (h : OpenEnded (before ++ after))
    (he : new_record.serial_end = end_before after) :
    OpenEnded (clamp_last_end s before ++ new_record :: after) := by
  intro r hr
  cases after with
  | nil =>
    rw [List.getLast?_append_of_ne_nil _ (by simp)] at hr
    simp only [List.getLast?_singleton, Option.some.injEq] at hr
    subst hr
    simpa [end_before] using he
  | cons next rest =>
    rw [List.getLast?_append_of_ne_nil _ (by simp), List.getLast?_cons_cons] at hr
    apply h r
    rw [List.getLast?_append_of_ne_nil _ (by simp)]
    exact hr

theorem contiguous_add_grab_list (grabs : List GdkDeviceGrabInfo)
    (window native_window : GdkWindow) (grab_ownership : GdkGrabOwnership)
    (owner_events : Bool) (event_mask : Nat) (serial_start : Nat) (time : Nat)
    (implicit : Bool) (h : Contiguous grabs) :
    Contiguous (add_grab_list grabs window native_window grab_ownership owner_events event_mask
      serial_start time implicit).2 := by
  obtain ⟨before, after, new_record, hsplit, _, _, hs, he, heq⟩ :=
    add_grab_list_shape grabs window native_window grab_ownership owner_events event_mask
      serial_start time implicit
  rw [heq]
  subst hsplit
  exact contiguous_insert serial_start before after new_record h hs he

theorem openEnded_add_grab_list (grabs : List GdkDeviceGrabInfo)
    (window native_window : GdkWindow) (grab_ownership : GdkGrabOwnership)
    (owner_events : Bool) (event_mask : Nat) (serial_start : Nat) (time : Nat)
    (implicit : Bool) (h : OpenEnded grabs) :
    OpenEnded (add_grab_list grabs window native_window grab_ownership owner_events event_mask
      serial_start time implicit).2 := by
  obtain ⟨before, after, new_record, hsplit, _, _, _, he, heq⟩ :=
    add_grab_list_shape grabs window native_window grab_ownership owner_events event_mask
      serial_start time implicit
  rw [heq]
  subst hsplit
  exact openEnded_insert serial_start before after new_record h he

/-- When no record starts later than `s`, the new record goes to the end. -/
theorem add_grab_list_at_end (grabs : List GdkDeviceGrabInfo)
    (window native_window : GdkWindow) (grab_ownership : GdkGrabOwnership)
    (owner_events : Bool) (event_mask : Nat) (serial_start : Nat) (time : Nat)
    (implicit : Bool) (h : ∀ r ∈ grabs, r.serial_start ≤ serial_start) :
    (add_grab_list grabs window native_window grab_ownership owner_events event_mask
      serial_start time implicit).2 =
      clamp_last_end serial_start grabs ++
        [(add_grab_list grabs window native_window grab_ownership owner_events event_mask
          serial_start time implicit).1] := by
  have hb := records_before_eq_self serial_start grabs h
  rw [add_grab_list_eq_spec]
  simp only [add_grab_spec, hb.1, hb.2]

/-! ## A run of insertions with increasing serials -/

theorem add_grab_list_fst_start (grabs : List GdkDeviceGrabInfo)
    (window native_window : GdkWindow) (grab_ownership : GdkGrabOwnership)
    (owner_events : Bool) (event_mask : Nat) (serial_start : Nat) (time : Nat)
    (implicit : Bool) :
    (add_grab_list grabs window native_window grab_ownership owner_events event_mask
      serial_start time implicit).1.serial_start = serial_start := by
  rw [add_grab_list_eq_spec]
  rfl

theorem add_device_grabs_concat (display : GdkDisplay) (device : GdkDevice)
    (calls : List GrabRequest) (c : GrabRequest) :
    add_device_grabs display device (calls ++ [c]) =
      (_gdk_display_add_device_grab (add_device_grabs display device calls) device c.window
        c.native_window c.grab_ownership c.owner_events c.event_mask c.serial_start c.time
        c.implicit).2 := by
  simp [add_device_grabs, List.foldl_append]

theorem add_device_grabs_increasing (display : GdkDisplay) (device : GdkDevice)
    (calls : List GrabRequest) (h0 : lookup_grabs display device = [])
    (hinc : calls.Pairwise (fun a b => a.serial_start < b.serial_start))
    (hmax : ∀ c ∈ calls, c.serial_start ≤ G_MAXULONG) :
    (lookup_grabs (add_device_grabs display device calls) device).map (fun r => r.serial_start)
        = calls.map (fun c => c.serial_start) ∧
      NonOverlap (lookup_grabs (add_device_grabs display device calls) device) ∧
      Contiguous (lookup_grabs (add_device_grabs display device calls) device) ∧
      OpenEnded (lookup_grabs (add_device_grabs display device calls) device) := by
  induction calls using List.reverseRecOn with
  | nil =>
    simp only [add_device_grabs, List.foldl_nil, h0]
    refine ⟨rfl, ⟨by simp, List.Pairwise.nil⟩, List.chain'_nil, ?_⟩
    intro r hr
    simp at hr
  | append_singleton calls c ih =>
    rw [List.pairwise_append] at hinc
    obtain ⟨hinc1, _, hlt⟩ := hinc
    obtain ⟨hmap, hno, hco, hop⟩ := ih hinc1 (fun a ha => hmax a (by simp [ha]))
    have hle : ∀ r ∈ lookup_grabs (add_device_grabs display device calls) device,
        r.serial_start ≤ c.serial_start := by
      intro r hr
      have hmem : r.serial_start ∈
          (lookup_grabs (add_device_grabs display device calls) device).map
            (fun r => r.serial_start) := List.mem_map_of_mem _ hr
      rw [hmap, List.mem_map] at hmem
      obtain ⟨a, ha, hae⟩ := hmem
      have := hlt a ha c (by simp)
      omega
    rw [add_device_grabs_concat, lookup_grabs_add_self]
    refine ⟨?_, ?_, ?_, ?_⟩
    · rw [add_grab_list_at_end _ _ _ _ _ _ _ _ _ hle]
      simp [clamp_last_end_map_start, hmap, add_grab_list_fst_start]
    · exact nonOverlap_add_grab_list _ _ _ _ _ _ _ _ _ hno (hmax c (by simp))
    · exact contiguous_add_grab_list _ _ _ _ _ _ _ _ _ hco
    · exact openEnded_add_grab_list _ _ _ _ _ _ _ _ _ hop

/-! ## The interval search -/

theorem grab_list_find_some (l : List GdkDeviceGrabInfo) (s i : Nat)
    (h : grab_list_find l s = some i) :
    ∃ g, l[i]? = some g ∧ holds g s ∧ ∀ j g1, j < i → l[j]? = some g1 → ¬ holds g1 s := by
  induction l generalizing i with
  | nil => simp [grab_list_find] at h
  | cons a t ih =>
    by_cases ha : s ≥ a.serial_start ∧ s < a.serial_end
    · simp only [grab_list_find, ha, and_self, if_true, Option.some.injEq] at h
      subst h
      exact ⟨a, by simp, ⟨ha.1, ha.2⟩, fun j g1 hj => absurd hj (Nat.not_lt_zero _)⟩
    · simp only [grab_list_find, ha, if_false, Option.map_eq_some'] at h
      obtain ⟨k, hk, hki⟩ := h
      subst hki
      obtain ⟨g, hg, hgs, hbefore⟩ := ih k hk
      refine ⟨g, by simpa using hg, hgs, ?_⟩
      intro j g1 hj hj1
      cases j with
      | zero =>
        simp only [List.getElem?_cons_zero, Option.some.injEq] at hj1
        subst hj1
        exact fun hh => ha ⟨hh.1, hh.2⟩
      | succ j1 =>
        simp only [List.getElem?_cons_succ] at hj1
        exact hbefore j1 g1 (by omega) hj1

theorem grab_list_find_none (l : List GdkDeviceGrabInfo) (s : Nat) :
    grab_list_find l s = none ↔ ∀ r ∈ l, ¬ holds r s := by
  induction l with
  | nil => simp [grab_list_find]
  | cons a t ih =>
    by_cases ha : s ≥ a.serial_start ∧ s < a.serial_end
    · simp only [grab_list_find, ha, and_self, if_true, reduceCtorEq, false_iff]
      intro hall
      exact hall a (List.mem_cons_self _ _) ⟨ha.1, ha.2⟩
    · simp only [grab_list_find, ha, if_false, Option.map_eq_none', ih, List.mem_cons,
        forall_eq_or_imp]
      constructor
      · intro h
        exact ⟨fun hh => ha ⟨hh.1, hh.2⟩, h⟩
      · intro h
        exact h.2

theorem grab_list_find_lt (l : List GdkDeviceGrabInfo) (s i : Nat)
    (h : grab_list_find l s = some i) : i < l.length := by
  obtain ⟨g, hg, _⟩ := grab_list_find_some l s i h
  exact (List.getElem?_eq_some.mp hg).1

/-- In a ledger without overlaps at most one node holds a given serial. -/
theorem holds_unique (l : List GdkDeviceGrabInfo) (h : NonOverlap l) (s i j : Nat)
    (gi gj : GdkDeviceGrabInfo) (hi : l[i]? = some gi) (hj : l[j]? = some gj)
    (hgi : holds gi s) (hgj : holds gj s) : i = j := by
  obtain ⟨hi1, hi2⟩ := List.getElem?_eq_some.mp hi
  obtain ⟨hj1, hj2⟩ := List.getElem?_eq_some.mp hj
  have hp := List.pairwise_iff_getElem.mp h.2
  unfold holds at hgi hgj
  rcases Nat.lt_trichotomy i j with hlt | heq | hgt
  · have := hp i j hi1 hj1 hlt
    rw [hi2, hj2] at this
    omega
  · exact heq
  · have := hp j i hj1 hi1 hgt
    rw [hi2, hj2] at this
    omega

/-- The first node that holds `s` is found. -/
theorem grab_list_find_of_holds (l : List GdkDeviceGrabInfo) (h : NonOverlap l) (s i : Nat)
    (g : GdkDeviceGrabInfo) (hi : l[i]? = some g) (hg : holds g s) :
    grab_list_find l s = some i := by
  cases hf : grab_list_find l s with
  | none =>
    exact absurd hg ((grab_list_find_none l s).mp hf g (List.getElem?_mem hi))
  | some k =>
    obtain ⟨gk, hk, hgk, _⟩ := grab_list_find_some l s k hf
    rw [holds_unique l h s k i gk g hk hi hgk hg]

/-! ## Ending a grab -/

/-- The record as `_gdk_display_end_device_grab` leaves it. -/
theorem end_device_grab_found (env : Backend) (display : GdkDisplay) (device : GdkDevice)
    (serial : Nat) (if_child : Option GdkWindow) (implicit : Bool) (i : Nat)
    (grab : GdkDeviceGrabInfo)
    (hf : find_device_grab display device serial = some i)
    (hg : (lookup_grabs display device)[i]? = some grab)
    (hc : if_child_passes env if_child grab = true) :
    _gdk_display_end_device_grab env display device serial if_child implicit =
      (decide (i + 1 = (lookup_grabs display device).length),
       { display with
         device_grabs := g_hash_table_insert display.device_grabs device
           ((lookup_grabs display device).set i
             { grab with serial_end := serial, implicit_ungrab := implicit }) }) := by
  simp [_gdk_display_end_device_grab, hf, hg, hc]

theorem end_device_grab_cases (env : Backend) (display : GdkDisplay) (device : GdkDevice)
    (serial : Nat) (if_child : Option GdkWindow) (implicit : Bool) :
    _gdk_display_end_device_grab env display device serial if_child implicit = (false, display) ∨
    ∃ i grab, find_device_grab display device serial = some i ∧
      (lookup_grabs display device)[i]? = some grab ∧
      if_child_passes env if_child grab = true := by
  cases hf : find_device_grab display device serial with
  | none => left; simp [_gdk_display_end_device_grab, hf]
  | some i =>
    cases hg : (lookup_grabs display device)[i]? with
    | none => left; simp [_gdk_display_end_device_grab, hf, hg]
    | some grab =>
      cases hc : if_child_passes env if_child grab with
      | false => left; simp [_gdk_display_end_device_grab, hf, hg, hc]
      | true => right; exact ⟨i, grab, rfl, hg, hc⟩

theorem pairwise_set_of_rel {α : Type} {R : α → α → Prop} (l : List α) (i : Nat) (g g1 : α)
    (h : l.Pairwise R) (hi : l[i]? = some g) (h1 : ∀ a, R a g → R a g1)
    (h2 : ∀ b, R g b → R g1 b) : (l.set i g1).Pairwise R := by
  induction l generalizing i with
  | nil => simp
  | cons a t ih =>
    rw [List.pairwise_cons] at h
    cases i with
    | zero =>
      simp only [List.getElem?_cons_zero, Option.some.injEq] at hi
      subst hi
      simp only [List.set_cons_zero, List.pairwise_cons]
      exact ⟨fun b hb => h2 b (h.1 b hb), h.2⟩
    | succ k =>
      simp only [List.getElem?_cons_succ] at hi
      simp only [List.set_cons_succ, List.pairwise_cons]
      refine ⟨?_, ih k h.2 hi⟩
      intro b hb
      rcases List.mem_or_eq_of_mem_set hb with hb | hb
      · exact h.1 b hb
      · subst hb
        exact h1 a (h.1 g (List.getElem?_mem hi))

theorem nonOverlap_set (l : List GdkDeviceGrabInfo) (i : Nat) (g g1 : GdkDeviceGrabInfo)
    (h : NonOverlap l) (hi : l[i]? = some g) (hs : g1.serial_start = g.serial_start)
    (he : g1.serial_end ≤ g.serial_end) (hse : g1.serial_start ≤ g1.serial_end) :
    NonOverlap (l.set i g1) := by
  refine ⟨?_, ?_⟩
  · intro r hr
    rcases List.mem_or_eq_of_mem_set hr with hr | hr
    · exact h.1 r hr
    · subst hr; exact hse
  · apply pairwise_set_of_rel l i g g1 h.2 hi
    · intro a ha
      omega
    · intro b hb
      omega

theorem nonOverlap_end (l : List GdkDeviceGrabInfo) (i serial : Nat) (g : GdkDeviceGrabInfo)
    (implicit : Bool) (h : NonOverlap l) (hi : l[i]? = some g) (hg : holds g serial) :
    NonOverlap (l.set i { g with serial_end := serial, implicit_ungrab := implicit }) := by
  unfold holds at hg
  exact nonOverlap_set l i g _ h hi rfl (Nat.le_of_lt hg.2) hg.1

theorem nonOverlap_activate_at (l : List GdkDeviceGrabInfo) (grab : Option Nat)
    (h : NonOverlap l) : NonOverlap (activate_at l grab) := by
  cases grab with
  | none => exact h
  | some i =>
    cases hg : l[i]? with
    | none => simpa [activate_at, hg] using h
    | some g =>
      simp only [activate_at, hg]
      exact nonOverlap_set l i g _ h hg rfl (Nat.le_refl _) (h.1 g (List.getElem?_mem hg))

theorem nonOverlap_tail (g : GdkDeviceGrabInfo) (t : List GdkDeviceGrabInfo)
    (h : NonOverlap (g :: t)) : NonOverlap t :=
  ⟨fun r hr => h.1 r (List.mem_cons_of_mem _ hr), (List.pairwise_cons.mp h.2).2⟩

/-! ## The grab switch and the update loop leave the serials alone -/

theorem get_pointer_info_device_grabs (env : Backend) (display : GdkDisplay)
    (device : Option GdkDevice) :
    (_gdk_display_get_pointer_info env display device).2.device_grabs = display.device_grabs := by
  unfold _gdk_display_get_pointer_info
  simp only []
  split
  · rfl
  · split <;> rfl

theorem set_window_under_pointer_device_grabs (env : Backend) (display : GdkDisplay)
    (device : GdkDevice) (window : Option GdkWindow) :
    (_gdk_display_set_window_under_pointer env display device window).device_grabs =
      display.device_grabs := by
  unfold _gdk_display_set_window_under_pointer
  have h := get_pointer_info_device_grabs env display (some device)
  split
  · rename_i d1 heq
    rw [heq] at h
    exact h
  · rename_i key d1 heq
    rw [heq] at h
    exact h

theorem generate_grab_broken_event_device_grabs (env : Backend) (display : GdkDisplay)
    (window : GdkWindow) (device : GdkDevice) (implicit : Bool)
    (grab_window : Option GdkWindow) :
    (generate_grab_broken_event env display window device implicit grab_window).device_grabs =
      display.device_grabs := by
  unfold generate_grab_broken_event
  split <;> rfl

theorem switch_to_pointer_grab_device_grabs (env : Backend) (display : GdkDisplay)
    (device source_device : GdkDevice) (grab : Option Nat)
    (last_grab : Option GdkDeviceGrabInfo) (time serial : Nat) :
    (switch_to_pointer_grab env display device source_device grab last_grab time
        serial).device_grabs =
      g_hash_table_insert (g_hash_table_steal display.device_grabs device) device
        (activate_at (lookup_grabs display device) grab) := by
  unfold switch_to_pointer_grab
  simp only []
  congr 1
  repeat' split
  all_goals
    simp [set_window_under_pointer_device_grabs, get_pointer_info_device_grabs]

theorem lookup_grabs_switch_self (env : Backend) (display : GdkDisplay)
    (device source_device : GdkDevice) (grab : Option Nat)
    (last_grab : Option GdkDeviceGrabInfo) (time serial : Nat) :
    lookup_grabs (switch_to_pointer_grab env display device source_device grab last_grab time
        serial) device = activate_at (lookup_grabs display device) grab := by
  unfold lookup_grabs
  rw [switch_to_pointer_grab_device_grabs, lookup_insert_self]
  rfl

theorem lookup_grabs_switch_other (env : Backend) (display : GdkDisplay)
    (device source_device d : GdkDevice) (grab : Option Nat)
    (last_grab : Option GdkDeviceGrabInfo) (time serial : Nat) (hd : d ≠ device) :
    lookup_grabs (switch_to_pointer_grab env display device source_device grab last_grab time
        serial) d = lookup_grabs display d := by
  unfold lookup_grabs
  rw [switch_to_pointer_grab_device_grabs, lookup_insert_other _ _ _ _ hd,
    lookup_steal_other _ _ _ hd]

/-- A property of grab lists that survives unlinking the head and setting `activated`
survives the update loop. -/
theorem grab_update_loop_invariant (P : List GdkDeviceGrabInfo → Prop)
    (htail : ∀ g t, P (g :: t) → P t) (hact : ∀ l grab, P l → P (activate_at l grab))
    (env : Backend) (device source_device : GdkDevice) (current_serial time : Nat) :
    ∀ (fuel : Nat) (display : GdkDisplay), P (lookup_grabs display device) →
      P (lookup_grabs (grab_update_loop env device source_device current_serial time fuel
        display) device) := by
  intro fuel
  induction fuel with
  | zero => intro display h; exact h
  | succ n ih =>
    intro display h
    cases hl : lookup_grabs display device with
    | nil =>
      simp only [grab_update_loop, hl]
      rw [hl] at h
      exact h
    | cons current_grab rest =>
      simp only [grab_update_loop, hl]
      split
      · rw [hl]
        rw [hl] at h
        exact h
      · split
        · split
          · split
            · rw [lookup_grabs_switch_self]
              exact hact _ _ h
            · exact h
          · exact h
        · apply ih
          rw [hl] at h
          split
          · rw [lookup_grabs_switch_self]
            apply hact
            simp only [lookup_grabs, lookup_insert_self, Option.getD_some]
            exact htail _ _ h
          · simp only [lookup_grabs, lookup_insert_self, Option.getD_some]
            exact htail _ _ h

theorem grab_update_loop_other (env : Backend) (device source_device d : GdkDevice)
    (current_serial time : Nat) (hd : d ≠ device) :
    ∀ (fuel : Nat) (display : GdkDisplay),
      lookup_grabs (grab_update_loop env device source_device current_serial time fuel
        display) d = lookup_grabs display d := by
  intro fuel
  induction fuel with
  | zero => intro display; rfl
  | succ n ih =>
    intro display
    cases hl : lookup_grabs display device with
    | nil => simp only [grab_update_loop, hl]
    | cons current_grab rest =>
      simp only [grab_update_loop, hl]
      split
      · rfl
      · split
        · split
          · split
            · rw [lookup_grabs_switch_other _ _ _ _ _ _ _ _ _ hd]
            · rfl
          · rfl
        · rw [ih]
          split
          · rw [lookup_grabs_switch_other _ _ _ _ _ _ _ _ _ hd]
            simp only [lookup_grabs, lookup_insert_other _ _ _ _ hd]
            split <;> simp [generate_grab_broken_event_device_grabs]
          · simp only [lookup_grabs, lookup_insert_other _ _ _ _ hd]
            split <;> simp [generate_grab_broken_event_device_grabs]

theorem activate_at_length (l : List GdkDeviceGrabInfo) (grab : Option Nat) :
    (activate_at l grab).length = l.length := by
  cases grab with
  | none => rfl
  | some i =>
    cases hg : l[i]? with
    | none => simp [activate_at, hg]
    | some g => simp [activate_at, hg]

/-- The loop unlinks one record per turn, so fuel beyond the length of the grab list is
never used: the loop ends by itself. -/
theorem grab_update_loop_enough_fuel (env : Backend) (device source_device : GdkDevice)
    (current_serial time : Nat) :
    ∀ (fuel : Nat) (display : GdkDisplay), (lookup_grabs display device).length < fuel →
      ∀ extra, grab_update_loop env device source_device current_serial time (fuel + extra)
          display =
        grab_update_loop env device source_device current_serial time fuel display := by
  intro fuel
  induction fuel with
  | zero => intro display h; exact absurd h (Nat.not_lt_zero _)
  | succ n ih =>
    intro display h extra
    have hfuel : n + 1 + extra = (n + extra) + 1 := by omega
    rw [hfuel]
    cases hl : lookup_grabs display device with
    | nil => simp only [grab_update_loop, hl]
    | cons current_grab rest =>
      rw [hl] at h
      simp only [List.length_cons, Nat.add_lt_add_iff_right] at h
      simp only [grab_update_loop, hl]
      split
      · rfl
      · split
        · rfl
        · apply ih
          split
          · rw [lookup_grabs_switch_self, activate_at_length]
            simp only [lookup_grabs, lookup_insert_self, Option.getD_some]
            exact h
          · simp only [lookup_grabs, lookup_insert_self, Option.getD_some]
            exact h

/-- The update engine with any larger amount of fuel computes the same display. -/
theorem grab_update_total (env : Backend) (display : GdkDisplay)
    (device source_device : GdkDevice) (current_serial : Nat) (extra : Nat) :
    grab_update_loop env device source_device current_serial display.last_event_time
        ((lookup_grabs display device).length + 1 + extra) display =
      _gdk_display_device_grab_update env display device source_device current_serial := by
  unfold _gdk_display_device_grab_update
  exact grab_update_loop_enough_fuel env device source_device current_serial
    display.last_event_time _ display (Nat.lt_succ_self _) extra

/-! ## Invariants of the reachable states -/

theorem lookup_grabs_end_self (env : Backend) (display : GdkDisplay) (device : GdkDevice)
    (serial : Nat) (if_child : Option GdkWindow) (implicit : Bool) (i : Nat)
    (grab : GdkDeviceGrabInfo)
    (hf : find_device_grab display device serial = some i)
    (hg : (lookup_grabs display device)[i]? = some grab)
    (hc : if_child_passes env if_child grab = true) :
    lookup_grabs (_gdk_display_end_device_grab env display device serial if_child implicit).2
        device =
      (lookup_grabs display device).set i
        { grab with serial_end := serial, implicit_ungrab := implicit } := by
  rw [end_device_grab_found env display device serial if_child implicit i grab hf hg hc]
  simp only [lookup_grabs, lookup_insert_self, Option.getD_some]

theorem lookup_grabs_end_other (env : Backend) (display : GdkDisplay) (device d : GdkDevice)
    (serial : Nat) (if_child : Option GdkWindow) (implicit : Bool) (hd : d ≠ device) :
    lookup_grabs (_gdk_display_end_device_grab env display device serial if_child implicit).2 d =
      lookup_grabs display d := by
  rcases end_device_grab_cases env display device serial if_child implicit with h |
    ⟨i, grab, hf, hg, hc⟩
  · rw [h]
  · rw [end_device_grab_found env display device serial if_child implicit i grab hf hg hc]
    simp only [lookup_grabs, lookup_insert_other _ _ _ _ hd]

theorem find_device_grab_holds (display : GdkDisplay) (device : GdkDevice) (serial i : Nat)
    (grab : GdkDeviceGrabInfo) (hf : find_device_grab display device serial = some i)
    (hg : (lookup_grabs display device)[i]? = some grab) : holds grab serial := by
  obtain ⟨g, hg1, hh, _⟩ := grab_list_find_some _ _ _ hf
  rw [hg] at hg1
  cases hg1
  exact hh

theorem lookup_grabs_update_other (env : Backend) (display : GdkDisplay)
    (device source_device d : GdkDevice) (current_serial : Nat) (hd : d ≠ device) :
    lookup_grabs (_gdk_display_device_grab_update env display device source_device
      current_serial) d = lookup_grabs display d :=
  grab_update_loop_other env device source_device d current_serial _ hd _ display

/-- Shared by the invariant theorems: no reachable ledger has overlapping records. -/
theorem reachableBy_nonOverlap (b : Bool) (display : GdkDisplay) (h : ReachableBy b display) :
    ∀ device, NonOverlap (lookup_grabs display device) := by
  induction h with
  | init display h0 =>
    intro device
    simp only [lookup_grabs, h0, g_hash_table_lookup, Option.getD_none]
    exact ⟨by simp, List.Pairwise.nil⟩
  | add_grab display dev window native_window grab_ownership owner_events event_mask
      serial_start time implicit hs _ ih =>
    intro device
    by_cases hd : device = dev
    · subst hd
      rw [lookup_grabs_add_self]
      exact nonOverlap_add_grab_list _ _ _ _ _ _ _ _ _ (ih device) hs
    · rw [lookup_grabs_add_other _ _ _ _ _ _ _ _ _ _ _ hd]
      exact ih device
  | end_grab env display dev serial if_child implicit _ _ _ ih =>
    intro device
    by_cases hd : device = dev
    · subst hd
      rcases end_device_grab_cases env display device serial if_child implicit with h |
        ⟨i, grab, hf, hg, hc⟩
      · rw [h]
        exact ih device
      · rw [lookup_grabs_end_self env display device serial if_child implicit i grab hf hg hc]
        exact nonOverlap_end _ i serial grab implicit (ih device) hg
          (find_device_grab_holds display device serial i grab hf hg)
    · rw [lookup_grabs_end_other _ _ _ _ _ _ _ hd]
      exact ih device
  | grab_update env display dev source_device current_serial _ _ ih =>
    intro device
    by_cases hd : device = dev
    · subst hd
      exact grab_update_loop_invariant NonOverlap nonOverlap_tail
        (fun l grab hl => nonOverlap_activate_at l grab hl) env device source_device
        current_serial _ _ display (ih device)
    · rw [lookup_grabs_update_other _ _ _ _ _ _ hd]
      exact ih device
  | other display pointers_info queued_events last_event_time _ ih =>
    intro device
    exact ih device

theorem map_set_same {α β : Type} (f : α → β) (l : List α) (i : Nat) (g g1 : α)
    (hi : l[i]? = some g) (hf : f g1 = f g) : (l.set i g1).map f = l.map f := by
  induction l generalizing i with
  | nil => simp
  | cons a t ih =>
    cases i with
    | zero =>
      simp only [List.getElem?_cons_zero, Option.some.injEq] at hi
      subst hi
      simp [hf]
    | succ k =>
      simp only [List.getElem?_cons_succ] at hi
      simp [ih k hi]

theorem contiguous_iff_map (l : List GdkDeviceGrabInfo) :
    Contiguous l ↔
      List.Chain' (fun p q : Nat × Nat => p.2 = q.1)
        (l.map (fun r => (r.serial_start, r.serial_end))) := by
  unfold Contiguous
  rw [List.chain'_map]

theorem contiguous_activate_at (l : List GdkDeviceGrabInfo) (grab : Option Nat)
    (h : Contiguous l) : Contiguous (activate_at l grab) := by
  cases grab with
  | none => exact h
  | some i =>
    cases hg : l[i]? with
    | none => simpa [activate_at, hg] using h
    | some g =>
      simp only [activate_at, hg]
      rw [contiguous_iff_map] at h ⊢
      have e := map_set_same (fun r : GdkDeviceGrabInfo => (r.serial_start, r.serial_end)) l i g
        { g with activated := true } hg rfl
      rw [e]
      exact h

theorem contiguous_tail (g : GdkDeviceGrabInfo) (t : List GdkDeviceGrabInfo)
    (h : Contiguous (g :: t)) : Contiguous t :=
  List.Chain'.tail h

/-- Without `_gdk_display_end_device_grab` every reachable ledger is contiguous. -/
theorem reachableBy_false_contiguous (display : GdkDisplay) (h : ReachableBy false display) :
    ∀ device, Contiguous (lookup_grabs display device) := by
  induction h with
  | init display h0 =>
    intro device
    simp only [lookup_grabs, h0, g_hash_table_lookup, Option.getD_none]
    exact List.chain'_nil
  | add_grab display dev window native_window grab_ownership owner_events event_mask
      serial_start time implicit hs _ ih =>
    intro device
    by_cases hd : device = dev
    · subst hd
      rw [lookup_grabs_add_self]
      exact contiguous_add_grab_list _ _ _ _ _ _ _ _ _ (ih device)
    · rw [lookup_grabs_add_other _ _ _ _ _ _ _ _ _ _ _ hd]
      exact ih device
  | end_grab env display dev serial if_child implicit he _ _ ih =>
    exact absurd he (by simp)
  | grab_update env display dev source_device current_serial _ _ ih =>
    intro device
    by_cases hd : device = dev
    · subst hd
      exact grab_update_loop_invariant Contiguous contiguous_tail
        (fun l grab hl => contiguous_activate_at l grab hl) env device source_device
        current_serial _ _ display (ih device)
    · rw [lookup_grabs_update_other _ _ _ _ _ _ hd]
      exact ih device
  | other display pointers_info queued_events last_event_time _ ih =>
    intro device
    exact ih device

/-! ## Contiguity and `_gdk_display_end_device_grab` -/

/-- The states reached without `_gdk_display_end_device_grab` are among those reached
without ending a record that has a successor. -/
theorem reachableBy_false_ending_last (display : GdkDisplay) (h : ReachableBy false display) :
    ReachableEndingLast display := by
  induction h with
  | init display h0 => exact ReachableEndingLast.init display h0
  | add_grab display dev window native_window grab_ownership owner_events event_mask
      serial_start time implicit hs _ ih =>
    exact ReachableEndingLast.add_grab display dev window native_window grab_ownership
      owner_events event_mask serial_start time implicit hs ih
  | end_grab env display dev serial if_child implicit he _ _ ih =>
    exact absurd he (by simp)
  | grab_update env display dev source_device current_serial hs _ ih =>
    exact ReachableEndingLast.grab_update env display dev source_device current_serial hs ih
  | other display pointers_info queued_events last_event_time _ ih =>
    exact ReachableEndingLast.other display pointers_info queued_events last_event_time ih

/-- C1: starting from an empty ledger of the device, after each call of a sequence of
`_gdk_display_add_device_grab` calls with strictly increasing `serial_start` the ledger
is ordered by `serial_start` ascending (it lists the starts of the calls made so far),
its records do not overlap, every record ends where the next one starts, and the last
record ends at `G_MAXULONG`. -/
theorem add_grabs_increasing_ledger (display : GdkDisplay) (device : GdkDevice)
    (calls : List GrabRequest) (h0 : lookup_grabs display device = [])
    (hinc : calls.Pairwise (fun a b => a.serial_start < b.serial_start))
    (hmax : ∀ c ∈ calls, c.serial_start ≤ G_MAXULONG) (n : Nat) :
    (lookup_grabs (add_device_grabs display device (calls.take n)) device).map
        (fun r => r.serial_start) = (calls.take n).map (fun c => c.serial_start) ∧
      (lookup_grabs (add_device_grabs display device (calls.take n)) device).Pairwise
        (fun a b => a.serial_start < b.serial_start) ∧
      NonOverlap (lookup_grabs (add_device_grabs display device (calls.take n)) device) ∧
      Contiguous (lookup_grabs (add_device_grabs display device (calls.take n)) device) ∧
      OpenEnded (lookup_grabs (add_device_grabs display device (calls.take n)) device) := by
  have hinc1 : (calls.take n).Pairwise (fun a b => a.serial_start < b.serial_start) :=
    hinc.sublist (List.take_sublist n calls)
  have hmax1 : ∀ c ∈ calls.take n, c.serial_start ≤ G_MAXULONG :=
    fun c hc => hmax c (List.mem_of_mem_take hc)
  obtain ⟨hmap, hno, hco, hop⟩ :=
    add_device_grabs_increasing display device (calls.take n) h0 hinc1 hmax1
  refine ⟨hmap, ?_, hno, hco, hop⟩
  have h1 : ((calls.take n).map (fun c => c.serial_start)).Pairwise (· < ·) :=
    List.pairwise_map.mpr hinc1
  rw [← hmap] at h1
  exact List.pairwise_map.mp h1

/-- The scenario of the two grabs at serials 10 and 20: the ledger is contiguous and the
record of `W1` ends at 20. -/
theorem add_grabs_increasing_ledger_witness :
    lookup_grabs scenario_empty 0 = [] ∧
      Contiguous (lookup_grabs (add_device_grabs scenario_empty 0 (scenario_calls.take 2)) 0) ∧
      lookup_grabs (add_device_grabs scenario_empty 0 (scenario_calls.take 2)) 0 =
        [scenario_W1, scenario_W2] :=
  ⟨rfl,
   (add_grabs_increasing_ledger scenario_empty 0 scenario_calls rfl (by decide) (by decide)
      2).2.2.2.1,
   by decide⟩

/-- C2: `_gdk_display_add_device_grab` yields exactly the ledger the specification
describes: the new record sits immediately before the first record whose `serial_start`
strictly exceeds the new one (at the end if there is none), it ends at that record's
start or at `G_MAXULONG`, the record right before it now ends at the new start, every
other record and every other device's ledger is unchanged, and the new record has
`activated` and `implicit_ungrab` cleared. The rest of the display is untouched. -/
theorem add_device_grab_refines_spec (display : GdkDisplay) (device : GdkDevice)
    (window native_window : GdkWindow) (grab_ownership : GdkGrabOwnership)
    (owner_events : Bool) (event_mask : Nat) (serial_start : Nat) (time : Nat)
    (implicit : Bool) :
    ((_gdk_display_add_device_grab display device window native_window grab_ownership
        owner_events event_mask serial_start time implicit).1,
      lookup_grabs (_gdk_display_add_device_grab display device window native_window
        grab_ownership owner_events event_mask serial_start time implicit).2 device) =
        add_grab_spec (lookup_grabs display device) window native_window grab_ownership
          owner_events event_mask serial_start time implicit ∧
      (∀ d, d ≠ device →
        lookup_grabs (_gdk_display_add_device_grab display device window native_window
          grab_ownership owner_events event_mask serial_start time implicit).2 d =
          lookup_grabs display d) ∧
      (_gdk_display_add_device_grab display device window native_window grab_ownership
        owner_events event_mask serial_start time implicit).1.activated = false ∧
      (_gdk_display_add_device_grab display device window native_window grab_ownership
        owner_events event_mask serial_start time implicit).1.implicit_ungrab = false ∧
      (_gdk_display_add_device_grab display device window native_window grab_ownership
        owner_events event_mask serial_start time implicit).2.pointers_info =
          display.pointers_info ∧
      (_gdk_display_add_device_grab display device window native_window grab_ownership
        owner_events event_mask serial_start time implicit).2.queued_events =
          display.queued_events := by
  have hspec := add_grab_list_eq_spec (lookup_grabs display device) window native_window
    grab_ownership owner_events event_mask serial_start time implicit
  refine ⟨?_, ?_, ?_, ?_, rfl, rfl⟩
  · rw [lookup_grabs_add_self, ← hspec]
    rfl
  · intro d hd
    exact lookup_grabs_add_other _ _ _ _ _ _ _ _ _ _ _ hd
  · show (add_grab_list _ _ _ _ _ _ _ _ _).1.activated = false
    rw [hspec]
    rfl
  · show (add_grab_list _ _ _ _ _ _ _ _ _).1.implicit_ungrab = false
    rw [hspec]
    rfl

/-- C3: in every state reachable from a display without grabs by any interleaving of
`_gdk_display_add_device_grab` (with arbitrary serials), `_gdk_display_end_device_grab`
and `_gdk_display_device_grab_update`, the records of one device do not overlap: they
are ordered by `serial_start`, each record starts no later than it ends, each record
ends no later than every later record starts, and no serial lies in the intervals of
two different records. -/
theorem reachable_ledger_no_overlap (display : GdkDisplay) (h : Reachable display)
    (device : GdkDevice) :
    (lookup_grabs display device).Pairwise (fun a b => a.serial_start ≤ b.serial_start) ∧
      (∀ r ∈ lookup_grabs display device, r.serial_start ≤ r.serial_end) ∧
      (lookup_grabs display device).Pairwise (fun a b => a.serial_end ≤ b.serial_start) ∧
      (∀ (s i j : Nat) (gi gj : GdkDeviceGrabInfo),
        (lookup_grabs display device)[i]? = some gi →
        (lookup_grabs display device)[j]? = some gj → holds gi s → holds gj s → i = j) := by
  have hno := reachableBy_nonOverlap true display h device
  refine ⟨hno.2.imp (fun hab => hab.1), hno.1, hno.2.imp (fun hab => hab.2), ?_⟩
  intro s i j gi gj hi hj hgi hgj
  exact holds_unique _ hno s i j gi gj hi hj hgi hgj

/-- With the grab of `W1` ended at serial 15 while `W2` is queued from serial 20, the
two records of the ledger do not overlap: `[10, 15)` ends before `[20, G_MAXULONG)`
starts, and serial 12 lies in the first record only. -/
theorem reachable_ledger_no_overlap_witness :
    Reachable scenario_W1_ended ∧
      (lookup_grabs scenario_W1_ended 0).Pairwise
        (fun a b => a.serial_end ≤ b.serial_start) ∧
      (lookup_grabs scenario_W1_ended 0).map (fun r => (r.serial_start, r.serial_end)) =
        [(10, 15), (20, G_MAXULONG)] ∧
      (∀ j gj, (lookup_grabs scenario_W1_ended 0)[j]? = some gj → holds gj 12 → 0 = j) :=
  have hr : Reachable scenario_W1_ended :=
    ReachableBy.end_grab scenario_backend scenario_two_grabs 0 15 none false rfl (by decide)
      (ReachableBy.add_grab _ 0 2 2 GdkGrabOwnership.WINDOW false 0 20 0 false (by decide)
        (ReachableBy.add_grab _ 0 1 1 GdkGrabOwnership.WINDOW false 0 10 0 false (by decide)
          (ReachableBy.init scenario_empty rfl)))
  ⟨hr, (reachable_ledger_no_overlap scenario_W1_ended hr 0).2.2.1, by decide,
   fun j gj hj hgj =>
     (reachable_ledger_no_overlap scenario_W1_ended hr 0).2.2.2 12 0 j
       { scenario_W1 with serial_end := 15 } gj (by decide) hj (by decide) hgj⟩

theorem has_device_grab_eq_some (display : GdkDisplay) (device : GdkDevice) (s : Nat)
    (r : GdkDeviceGrabInfo) :
    _gdk_display_has_device_grab display device s = some r ↔
      ∃ i, grab_list_find (lookup_grabs display device) s = some i ∧
        (lookup_grabs display device)[i]? = some r := by
  unfold _gdk_display_has_device_grab find_device_grab
  cases hf : grab_list_find (lookup_grabs display device) s with
  | none => simp
  | some i => simp

theorem has_device_grab_eq_none (display : GdkDisplay) (device : GdkDevice) (s : Nat) :
    _gdk_display_has_device_grab display device s = none ↔
      grab_list_find (lookup_grabs display device) s = none := by
  unfold _gdk_display_has_device_grab find_device_grab
  cases hf : grab_list_find (lookup_grabs display device) s with
  | none => simp
  | some i =>
    have hlt := grab_list_find_lt _ _ _ hf
    simp only [reduceCtorEq, iff_false]
    intro hnone
    rw [List.getElem?_eq_none_iff] at hnone
    omega

/-- C5: on a ledger without overlaps, `_gdk_display_has_device_grab` returns a record
`r` exactly when `r` is in the ledger of the device and
`r.serial_start <= s < r.serial_end`; such a record is unique (at most one node of the
ledger has such an interval); and the result is none exactly when no record's interval
holds `s`. -/
theorem has_device_grab_iff (display : GdkDisplay) (device : GdkDevice) (s : Nat)
    (h : NonOverlap (lookup_grabs display device)) :
    (∀ r, _gdk_display_has_device_grab display device s = some r ↔
      (r ∈ lookup_grabs display device ∧ r.serial_start ≤ s ∧ s < r.serial_end)) ∧
    (∀ (i j : Nat) (gi gj : GdkDeviceGrabInfo),
      (lookup_grabs display device)[i]? = some gi →
      (lookup_grabs display device)[j]? = some gj →
      (gi.serial_start ≤ s ∧ s < gi.serial_end) →
      (gj.serial_start ≤ s ∧ s < gj.serial_end) → i = j) ∧
    (∀ r1 ∈ lookup_grabs display device, ∀ r2 ∈ lookup_grabs display device,
      (r1.serial_start ≤ s ∧ s < r1.serial_end) →
      (r2.serial_start ≤ s ∧ s < r2.serial_end) → r1 = r2) ∧
    (_gdk_display_has_device_grab display device s = none ↔
      ∀ r ∈ lookup_grabs display device, ¬ (r.serial_start ≤ s ∧ s < r.serial_end)) := by
  refine ⟨?_, ?_, ?_, ?_⟩
  · intro r
    rw [has_device_grab_eq_some]
    constructor
    · rintro ⟨i, hf, hi⟩
      obtain ⟨g, hg, hh, _⟩ := grab_list_find_some _ _ _ hf
      rw [hi] at hg
      cases hg
      exact ⟨List.getElem?_mem hi, hh⟩
    · rintro ⟨hmem, hh⟩
      obtain ⟨i, hi⟩ := List.mem_iff_getElem?.mp hmem
      exact ⟨i, grab_list_find_of_holds _ h s i r hi hh, hi⟩
  · intro i j gi gj hi hj hgi hgj
    exact holds_unique _ h s i j gi gj hi hj hgi hgj
  · intro r1 hr1 r2 hr2 h1 h2
    obtain ⟨i, hi⟩ := List.mem_iff_getElem?.mp hr1
    obtain ⟨j, hj⟩ := List.mem_iff_getElem?.mp hr2
    have hij := holds_unique _ h s i j r1 r2 hi hj h1 h2
    rw [hij, hj] at hi
    exact (Option.some.inj hi).symm
  · rw [has_device_grab_eq_none, grab_list_find_none]
    rfl

/-- In the scenario of the two grabs, serial 15 finds the record of `W1` and serial 25
the record of `W2`. -/
theorem has_device_grab_iff_witness :
    NonOverlap (lookup_grabs scenario_two_grabs 0) ∧
      _gdk_display_has_device_grab scenario_two_grabs 0 15 = some scenario_W1 ∧
      _gdk_display_has_device_grab scenario_two_grabs 0 25 = some scenario_W2 :=
  ⟨by decide,
   ((has_device_grab_iff scenario_two_grabs 0 15 (by decide)).1 scenario_W1).2 (by decide),
   ((has_device_grab_iff scenario_two_grabs 0 25 (by decide)).1 scenario_W2).2 (by decide)⟩

theorem last_device_grab_eq_getLast (display : GdkDisplay) (device : GdkDevice) :
    _gdk_display_get_last_device_grab display device =
      (lookup_grabs display device).getLast? := by
  have hl : ∀ l : List GdkDeviceGrabInfo, g_list_last l = l.getLast? := by
    intro l
    induction l with
    | nil => rfl
    | cons a t ih =>
      cases t with
      | nil => rfl
      | cons b t1 =>
        simp only [g_list_last, List.getLast?_cons_cons]
        exact ih
  unfold _gdk_display_get_last_device_grab
  cases hg : lookup_grabs display device with
  | nil => rfl
  | cons a t => exact hl _

/-- C6, as the code has it: the open end is `G_MAXULONG` itself, so the serial
`G_MAXULONG` is not matched. With the single, never ended grab from serial 10 the last
record is open ended and starts before `G_MAXULONG`, and still no grab is found at
serial `G_MAXULONG`. -/
theorem open_ended_grab_misses_max_serial :
    (∃ last, _gdk_display_get_last_device_grab scenario_one_grab 0 = some last ∧
      last.serial_end = G_MAXULONG ∧ last.serial_start ≤ G_MAXULONG) ∧
      _gdk_display_has_device_grab scenario_one_grab 0 G_MAXULONG = none :=
  ⟨⟨{ scenario_W1 with serial_end := G_MAXULONG }, by decide, rfl, by decide⟩, by decide⟩

/-- C6, amended: for every serial smaller than every record's `serial_start` no grab is
found; and on a ledger without overlaps whose last record is open ended
(`serial_end = G_MAXULONG`), every serial `s` with `last.serial_start <= s` that is
below `G_MAXULONG` finds that last record. -/
theorem has_device_grab_boundaries (display : GdkDisplay) (device : GdkDevice) (s : Nat) :
    ((∀ r ∈ lookup_grabs display device, s < r.serial_start) →
      _gdk_display_has_device_grab display device s = none) ∧
    (NonOverlap (lookup_grabs display device) →
      ∀ last, _gdk_display_get_last_device_grab display device = some last →
        last.serial_end = G_MAXULONG → last.serial_start ≤ s → s < G_MAXULONG →
        _gdk_display_has_device_grab display device s = some last) := by
  refine ⟨?_, ?_⟩
  · intro hall
    rw [has_device_grab_eq_none, grab_list_find_none]
    intro r hr hh
    have := hall r hr
    unfold holds at hh
    omega
  · intro hno last hlast hend hstart hs
    rw [last_device_grab_eq_getLast] at hlast
    have hmem : last ∈ lookup_grabs display device := List.mem_of_mem_getLast? hlast
    obtain ⟨i, hi⟩ := List.mem_iff_getElem?.mp hmem
    rw [has_device_grab_eq_some]
    exact ⟨i, grab_list_find_of_holds _ hno s i last hi ⟨hstart, by omega⟩, hi⟩

/-- In the scenario of the two grabs, serial 5 finds nothing and serial 25, past the
finite end of `W1`, finds the open-ended record of `W2`. -/
theorem has_device_grab_boundaries_witness :
    _gdk_display_has_device_grab scenario_two_grabs 0 5 = none ∧
      _gdk_display_has_device_grab scenario_two_grabs 0 25 = some scenario_W2 :=
  ⟨(has_device_grab_boundaries scenario_two_grabs 0 5).1 (by decide),
   (has_device_grab_boundaries scenario_two_grabs 0 25).2 (by decide) scenario_W2 (by decide)
     rfl (by decide) (by decide)⟩

/-- C7: `_gdk_display_get_last_device_grab` returns none exactly when the ledger of the
device is empty, and otherwise, in every reachable state, a record of the ledger whose
`serial_start` is at least that of every record of the ledger. -/
theorem last_device_grab_highest_start (display : GdkDisplay) (h : Reachable display)
    (device : GdkDevice) :
    (_gdk_display_get_last_device_grab display device = none ↔
      lookup_grabs display device = []) ∧
    (∀ last, _gdk_display_get_last_device_grab display device = some last →
      last ∈ lookup_grabs display device ∧
      ∀ r ∈ lookup_grabs display device, r.serial_start ≤ last.serial_start) := by
  have hno := reachableBy_nonOverlap true display h device
  rw [last_device_grab_eq_getLast]
  refine ⟨List.getLast?_eq_none_iff, ?_⟩
  intro last hlast
  refine ⟨List.mem_of_mem_getLast? hlast, ?_⟩
  obtain ⟨init, hinit⟩ := List.getLast?_eq_some_iff.mp hlast
  rw [hinit] at hno ⊢
  have hp := (List.pairwise_append.mp hno.2).2.2
  intro r hr
  rcases List.mem_append.mp hr with hr | hr
  · exact (hp r hr last (by simp)).1
  · simp only [List.mem_singleton] at hr
    rw [hr]

/-- After the grabs of `W2` at serial 20 and of `W1` at serial 10, added in this order,
and an engine run to serial 15, the ledger holds both records and the last grab is the
record of `W2`, whose start 20 is the highest of the two. -/
theorem last_device_grab_highest_start_witness :
    Reachable scenario_added_then_advanced ∧
      (lookup_grabs scenario_added_then_advanced 0).map (fun r => r.serial_start) =
        [10, 20] ∧
      _gdk_display_get_last_device_grab scenario_added_then_advanced 0 = some scenario_W2 ∧
      scenario_W2 ∈ lookup_grabs scenario_added_then_advanced 0 ∧
      ∀ r ∈ lookup_grabs scenario_added_then_advanced 0, r.serial_start ≤ 20 :=
  have hr : Reachable scenario_added_then_advanced :=
    ReachableBy.grab_update scenario_backend _ 0 0 15 (by decide)
      (ReachableBy.add_grab _ 0 1 1 GdkGrabOwnership.WINDOW false 0 10 0 false (by decide)
        (ReachableBy.add_grab _ 0 2 2 GdkGrabOwnership.WINDOW false 0 20 0 false (by decide)
          (ReachableBy.init scenario_empty rfl)))
  ⟨hr, by decide, by decide,
   ((last_device_grab_highest_start scenario_added_then_advanced hr 0).2
      scenario_W2 (by decide)).1,
   ((last_device_grab_highest_start scenario_added_then_advanced hr 0).2
      scenario_W2 (by decide)).2⟩

/-- C8, as the code has it: the ledger is kept in serial order, so a grab added with a
smaller serial than an existing one is not the last grab. After the grab of `W2` at
serial 20, adding the grab of `W1` at serial 10 returns the record of `W1`, while the
last grab of the device is still the record of `W2`. -/
theorem last_device_grab_not_most_recent_insert :
    (_gdk_display_add_device_grab scenario_late_grab 0 1 1 GdkGrabOwnership.WINDOW false 0 10 0
        false).1 = scenario_W1 ∧
      _gdk_display_get_last_device_grab
        (_gdk_display_add_device_grab scenario_late_grab 0 1 1 GdkGrabOwnership.WINDOW false 0
          10 0 false).2 0 = some scenario_W2 ∧
      _gdk_display_get_last_device_grab
        (_gdk_display_add_device_grab scenario_late_grab 0 1 1 GdkGrabOwnership.WINDOW false 0
          10 0 false).2 0 ≠
        some (_gdk_display_add_device_grab scenario_late_grab 0 1 1 GdkGrabOwnership.WINDOW
          false 0 10 0 false).1 := by
  decide

/-- C8, amended: when no record of the device starts later than the new `serial_start`,
the last grab right after `_gdk_display_add_device_grab` is the record it returned; when
some record starts later, the last grab is the same as before the call. -/
theorem last_device_grab_after_add (display : GdkDisplay) (device : GdkDevice)
    (window native_window : GdkWindow) (grab_ownership : GdkGrabOwnership)
    (owner_events : Bool) (event_mask : Nat) (serial_start : Nat) (time : Nat)
    (implicit : Bool) :
    ((∀ r ∈ lookup_grabs display device, r.serial_start ≤ serial_start) →
      _gdk_display_get_last_device_grab
        (_gdk_display_add_device_grab display device window native_window grab_ownership
          owner_events event_mask serial_start time implicit).2 device =
        some (_gdk_display_add_device_grab display device window native_window grab_ownership
          owner_events event_mask serial_start time implicit).1) ∧
    ((∃ r ∈ lookup_grabs display device, serial_start < r.serial_start) →
      _gdk_display_get_last_device_grab
        (_gdk_display_add_device_grab display device window native_window grab_ownership
          owner_events event_mask serial_start time implicit).2 device =
        _gdk_display_get_last_device_grab display device) := by
  refine ⟨?_, ?_⟩
  · intro hle
    rw [last_device_grab_eq_getLast, lookup_grabs_add_self,
      add_grab_list_at_end _ _ _ _ _ _ _ _ _ hle, List.getLast?_concat]
    rfl
  · rintro ⟨r, hr, hlt⟩
    rw [last_device_grab_eq_getLast, last_device_grab_eq_getLast, lookup_grabs_add_self]
    obtain ⟨before, after, new_record, hsplit, hb, _, _, _, heq⟩ :=
      add_grab_list_shape (lookup_grabs display device) window native_window grab_ownership
        owner_events event_mask serial_start time implicit
    rw [heq, hsplit]
    have hafter : after ≠ [] := by
      intro hnil
      rw [hsplit, hnil, List.append_nil] at hr
      have := hb r hr
      omega
    obtain ⟨next, rest, hcons⟩ := List.exists_cons_of_ne_nil hafter
    rw [hcons, List.getLast?_append_of_ne_nil _ (by simp),
      List.getLast?_append_of_ne_nil _ (by simp), List.getLast?_cons_cons]

/-- In the scenario, the grab of `W2` added at serial 20 after `W1` at 10 is the last
grab, and a grab added at serial 15 afterwards leaves `W2` the last grab. -/
theorem last_device_grab_after_add_witness :
    _gdk_display_get_last_device_grab
        (_gdk_display_add_device_grab scenario_one_grab 0 2 2 GdkGrabOwnership.WINDOW false 0 20
          0 false).2 0 =
      some (_gdk_display_add_device_grab scenario_one_grab 0 2 2 GdkGrabOwnership.WINDOW false
          0 20 0 false).1 ∧
    _gdk_display_get_last_device_grab
        (_gdk_display_add_device_grab scenario_two_grabs 0 3 3 GdkGrabOwnership.WINDOW false 0
          15 0 false).2 0 =
      _gdk_display_get_last_device_grab scenario_two_grabs 0 :=
  ⟨(last_device_grab_after_add scenario_one_grab 0 2 2 GdkGrabOwnership.WINDOW false 0 20 0
      false).1 (by decide),
   (last_device_grab_after_add scenario_two_grabs 0 3 3 GdkGrabOwnership.WINDOW false 0 15 0
      false).2 (by decide)⟩

/-! ## The claims about ending a grab -/

theorem end_device_grab_fst (env : Backend) (display : GdkDisplay) (device : GdkDevice)
    (serial : Nat) (if_child : Option GdkWindow) (implicit : Bool) :
    (_gdk_display_end_device_grab env display device serial if_child implicit).1 = true ↔
      ∃ i grab, find_device_grab display device serial = some i ∧
        (lookup_grabs display device)[i]? = some grab ∧
        if_child_passes env if_child grab = true ∧
        i + 1 = (lookup_grabs display device).length := by
  cases hf : find_device_grab display device serial with
  | none => simp [_gdk_display_end_device_grab, hf]
  | some i =>
    cases hg : (lookup_grabs display device)[i]? with
    | none => simp [_gdk_display_end_device_grab, hf, hg]
    | some grab =>
      cases hc : if_child_passes env if_child grab with
      | false => simp [_gdk_display_end_device_grab, hf, hg, hc]
      | true => simp [_gdk_display_end_device_grab, hf, hg, hc]

/-- C9: `_gdk_display_end_device_grab` returns true exactly when a grab is active at
`serial`, the `if_child` test passes for it (always, when `if_child` is `NULL`), and the
node found is the last one of the device's ledger. On a ledger without overlaps this is:
the grab found at `serial` is the last grab of the device. In particular, ending a grab
that is not the last one returns false, and ending the last one with no `if_child`
returns true. -/
theorem end_device_grab_returns (env : Backend) (display : GdkDisplay) (device : GdkDevice)
    (serial : Nat) (if_child : Option GdkWindow) (implicit : Bool) :
    ((_gdk_display_end_device_grab env display device serial if_child implicit).1 = true ↔
      ∃ i grab, find_device_grab display device serial = some i ∧
        (lookup_grabs display device)[i]? = some grab ∧
        if_child_passes env if_child grab = true ∧
        i + 1 = (lookup_grabs display device).length) ∧
    (NonOverlap (lookup_grabs display device) →
      ((_gdk_display_end_device_grab env display device serial if_child implicit).1 = true ↔
        ∃ grab, _gdk_display_has_device_grab display device serial = some grab ∧
          if_child_passes env if_child grab = true ∧
          _gdk_display_get_last_device_grab display device = some grab)) ∧
    (∀ i, find_device_grab display device serial = some i →
      i + 1 < (lookup_grabs display device).length →
      (_gdk_display_end_device_grab env display device serial if_child implicit).1 = false) ∧
    (∀ i, find_device_grab display device serial = some i →
      i + 1 = (lookup_grabs display device).length → if_child = none →
      (_gdk_display_end_device_grab env display device serial if_child implicit).1 = true) := by
  have hmain := end_device_grab_fst env display device serial if_child implicit
  refine ⟨hmain, ?_, ?_, ?_⟩
  · intro hno
    rw [hmain, last_device_grab_eq_getLast, List.getLast?_eq_getElem?]
    constructor
    · rintro ⟨i, grab, hf, hg, hc, hlast⟩
      refine ⟨grab, (has_device_grab_eq_some display device serial grab).mpr ⟨i, hf, hg⟩, hc, ?_⟩
      have hi : (lookup_grabs display device).length - 1 = i := by omega
      rw [hi]
      exact hg
    · rintro ⟨grab, hhas, hc, hlast⟩
      obtain ⟨i, hf, hg⟩ := (has_device_grab_eq_some display device serial grab).mp hhas
      have hh := find_device_grab_holds display device serial i grab hf hg
      have hij := holds_unique _ hno serial i _ grab grab hg hlast hh hh
      have hlt := grab_list_find_lt _ _ _ hf
      exact ⟨i, grab, hf, hg, hc, by omega⟩
  · intro i hf hlt
    cases hres : (_gdk_display_end_device_grab env display device serial if_child implicit).1 with
    | false => rfl
    | true =>
      obtain ⟨j, grab, hf1, _, _, hlast⟩ := hmain.mp hres
      rw [hf] at hf1
      cases hf1
      omega
  · intro i hf hlast hnone
    rw [hmain]
    have hlt : i < (lookup_grabs display device).length := by omega
    refine ⟨i, (lookup_grabs display device)[i], hf, List.getElem?_eq_getElem hlt, ?_, hlast⟩
    rw [hnone]
    rfl

/-- In the scenario of the two grabs, ending at serial 30 ends the last grab (`W2`) and
returns true, while ending at serial 15 ends `W1`, which is not the last, and returns
false. -/
theorem end_device_grab_returns_witness :
    NonOverlap (lookup_grabs scenario_two_grabs 0) ∧
      (_gdk_display_end_device_grab scenario_backend scenario_two_grabs 0 30 none false).1 =
        true ∧
      (_gdk_display_end_device_grab scenario_backend scenario_two_grabs 0 15 none false).1 =
        false :=
  ⟨by decide,
   ((end_device_grab_returns scenario_backend scenario_two_grabs 0 30 none false).2.1
      (by decide)).mpr ⟨scenario_W2, by decide, rfl, by decide⟩,
   (end_device_grab_returns scenario_backend scenario_two_grabs 0 15 none false).2.2.1 0
      (by decide) (by decide)⟩

/-- C10: when `_gdk_display_end_device_grab` finds a grab active at `serial` and the
`if_child` test passes, the ledger of the device afterwards is the old one with that one
record's `serial_end` set to `serial` and `implicit_ungrab` set to `implicit`: the record
stays in the ledger, the ledger keeps its length and order, all other records and all
other fields of the record are unchanged, and so are the ledgers of the other devices,
the event queue, the pointer infos and the last event time. -/
theorem end_device_grab_frame (env : Backend) (display : GdkDisplay) (device : GdkDevice)
    (serial : Nat) (if_child : Option GdkWindow) (implicit : Bool) (i : Nat)
    (grab : GdkDeviceGrabInfo)
    (hf : find_device_grab display device serial = some i)
    (hg : (lookup_grabs display device)[i]? = some grab)
    (hc : if_child_passes env if_child grab = true) :
    lookup_grabs (_gdk_display_end_device_grab env display device serial if_child implicit).2
        device =
      (lookup_grabs display device).set i
        { grab with serial_end := serial, implicit_ungrab := implicit } ∧
    (lookup_grabs (_gdk_display_end_device_grab env display device serial if_child
      implicit).2 device).length = (lookup_grabs display device).length ∧
    (lookup_grabs (_gdk_display_end_device_grab env display device serial if_child
      implicit).2 device)[i]? =
        some { grab with serial_end := serial, implicit_ungrab := implicit } ∧
    (∀ j, j ≠ i →
      (lookup_grabs (_gdk_display_end_device_grab env display device serial if_child
        implicit).2 device)[j]? = (lookup_grabs display device)[j]?) ∧
    (∀ d, d ≠ device →
      lookup_grabs (_gdk_display_end_device_grab env display device serial if_child
        implicit).2 d = lookup_grabs display d) ∧
    (_gdk_display_end_device_grab env display device serial if_child implicit).2.queued_events =
      display.queued_events ∧
    (_gdk_display_end_device_grab env display device serial if_child implicit).2.pointers_info =
      display.pointers_info ∧
    (_gdk_display_end_device_grab env display device serial if_child
      implicit).2.last_event_time = display.last_event_time := by
  have hself := lookup_grabs_end_self env display device serial if_child implicit i grab hf hg hc
  have hlt : i < (lookup_grabs display device).length := (List.getElem?_eq_some.mp hg).1
  refine ⟨hself, ?_, ?_, ?_, ?_, ?_, ?_, ?_⟩
  · rw [hself, List.length_set]
  · rw [hself, List.getElem?_set_self hlt]
  · intro j hj
    rw [hself, List.getElem?_set_ne (Ne.symm hj)]
  · intro d hd
    exact lookup_grabs_end_other env display device d serial if_child implicit hd
  · rw [end_device_grab_found env display device serial if_child implicit i grab hf hg hc]
  · rw [end_device_grab_found env display device serial if_child implicit i grab hf hg hc]
  · rw [end_device_grab_found env display device serial if_child implicit i grab hf hg hc]

/-- In the scenario, ending at serial 30 with no `if_child` and `implicit = false` sets
the end of the record of `W2` to 30 and leaves both records in the ledger. -/
theorem end_device_grab_frame_witness :
    lookup_grabs
        (_gdk_display_end_device_grab scenario_backend scenario_two_grabs 0 30 none false).2 0 =
      [scenario_W1, { scenario_W2 with serial_end := 30 }] ∧
    (_gdk_display_end_device_grab scenario_backend scenario_two_grabs 0 30 none
      false).2.queued_events = [] :=
  ⟨(end_device_grab_frame scenario_backend scenario_two_grabs 0 30 none false 1 scenario_W2
      (by decide) (by decide) rfl).1.trans (by decide),
   (end_device_grab_frame scenario_backend scenario_two_grabs 0 30 none false 1 scenario_W2
      (by decide) (by decide) rfl).2.2.2.2.2.1.trans (by decide)⟩

/-! ## The turns of the update loop -/

theorem grab_update_loop_nil (env : Backend) (device source_device : GdkDevice)
    (current_serial time fuel : Nat) (display : GdkDisplay)
    (hl : lookup_grabs display device = []) :
    grab_update_loop env device source_device current_serial time fuel display = display := by
  cases fuel with
  | zero => rfl
  | succ n => simp only [grab_update_loop, hl]

theorem grab_update_loop_not_started (env : Backend) (device source_device : GdkDevice)
    (current_serial time fuel : Nat) (display : GdkDisplay) (g : GdkDeviceGrabInfo)
    (rest : List GdkDeviceGrabInfo) (hl : lookup_grabs display device = g :: rest)
    (hs : current_serial < g.serial_start) :
    grab_update_loop env device source_device current_serial time fuel display = display := by
  cases fuel with
  | zero => rfl
  | succ n => simp [grab_update_loop, hl, hs]

theorem grab_update_loop_current (env : Backend) (device source_device : GdkDevice)
    (current_serial time fuel : Nat) (display : GdkDisplay) (g : GdkDeviceGrabInfo)
    (rest : List GdkDeviceGrabInfo) (hl : lookup_grabs display device = g :: rest)
    (hs : g.serial_start ≤ current_serial) (he : current_serial < g.serial_end) :
    grab_update_loop env device source_device current_serial time (fuel + 1) display =
      if g.activated = false ∧ env.gdk_device_get_source device ≠ GdkInputSource.KEYBOARD then
        switch_to_pointer_grab env display device source_device (some 0) none time
          current_serial
      else display := by
  have hs1 : ¬ current_serial < g.serial_start := Nat.not_lt.mpr hs
  simp only [grab_update_loop, hl, gt_iff_lt, hs1, he, if_false, if_true]
  cases hact : g.activated <;>
    by_cases hk : env.gdk_device_get_source device = GdkInputSource.KEYBOARD <;> simp [hk]

theorem grab_update_loop_retire (env : Backend) (device source_device : GdkDevice)
    (current_serial time fuel : Nat) (display : GdkDisplay) (g : GdkDeviceGrabInfo)
    (rest : List GdkDeviceGrabInfo) (hl : lookup_grabs display device = g :: rest)
    (hr : retires current_serial g = true) :
    grab_update_loop env device source_device current_serial time (fuel + 1) display =
      grab_update_loop env device source_device current_serial time fuel
        (retire_head env device source_device current_serial time display g rest) := by
  simp only [retires, Bool.and_eq_true, decide_eq_true_eq] at hr
  have hs1 : ¬ current_serial < g.serial_start := Nat.not_lt.mpr hr.1
  have he1 : ¬ current_serial < g.serial_end := Nat.not_lt.mpr hr.2
  simp only [grab_update_loop, hl, gt_iff_lt, hs1, he1, if_false]
  rfl

theorem get_pointer_info_queued_events (env : Backend) (display : GdkDisplay)
    (device : Option GdkDevice) :
    (_gdk_display_get_pointer_info env display device).2.queued_events =
      display.queued_events := by
  unfold _gdk_display_get_pointer_info
  simp only []
  split
  · rfl
  · split <;> rfl

theorem set_window_under_pointer_queued_events (env : Backend) (display : GdkDisplay)
    (device : GdkDevice) (window : Option GdkWindow) :
    (_gdk_display_set_window_under_pointer env display device window).queued_events =
      display.queued_events := by
  unfold _gdk_display_set_window_under_pointer
  have h := get_pointer_info_queued_events env display (some device)
  split
  · rename_i d1 heq
    rw [heq] at h
    exact h
  · rename_i key d1 heq
    rw [heq] at h
    exact h

theorem switch_to_pointer_grab_queued_events (env : Backend) (display : GdkDisplay)
    (device source_device : GdkDevice) (grab : Option Nat)
    (last_grab : Option GdkDeviceGrabInfo) (time serial : Nat) :
    (switch_to_pointer_grab env display device source_device grab last_grab time
        serial).queued_events = display.queued_events := by
  unfold switch_to_pointer_grab
  simp only []
  repeat' split
  all_goals
    simp [set_window_under_pointer_queued_events, get_pointer_info_queued_events]

theorem next_grab_eq (current_serial : Nat) (rest : List GdkDeviceGrabInfo) :
    (match rest with
      | [] => none
      | next :: _ => if next.serial_start > current_serial then none else some next) =
      next_grab_at current_serial rest := by
  cases rest with
  | nil => rfl
  | cons next t =>
    by_cases h : next.serial_start ≤ current_serial
    · have h1 : ¬ next.serial_start > current_serial := Nat.not_lt.mpr h
      simp [next_grab_at, h, h1]
    · have h1 : next.serial_start > current_serial := Nat.lt_of_not_le h
      simp [next_grab_at, h, h1]

theorem activate_at_head (n : GdkDeviceGrabInfo) (t : List GdkDeviceGrabInfo) :
    activate_at (n :: t) (some 0) = { n with activated := true } :: t := by
  simp [activate_at]

theorem next_grab_at_some (current_serial : Nat) (rest : List GdkDeviceGrabInfo)
    (next : GdkDeviceGrabInfo) (h : next_grab_at current_serial rest = some next) :
    ∃ t, rest = next :: t ∧ next.serial_start ≤ current_serial := by
  cases rest with
  | nil => simp [next_grab_at] at h
  | cons a t =>
    by_cases ha : a.serial_start ≤ current_serial
    · simp only [next_grab_at, ha, if_true, Option.some.injEq] at h
      subst h
      exact ⟨t, rfl, ha⟩
    · simp [next_grab_at, ha] at h

/-- The ledger of the device after a retiring turn: the rest of the list, its head
marked `activated` when it has started and the device is not a keyboard. -/
theorem lookup_grabs_retire_head (env : Backend) (device source_device : GdkDevice)
    (current_serial time : Nat) (display : GdkDisplay) (g : GdkDeviceGrabInfo)
    (rest : List GdkDeviceGrabInfo) :
    lookup_grabs (retire_head env device source_device current_serial time display g rest)
        device =
      if env.gdk_device_get_source device ≠ GdkInputSource.KEYBOARD then
        activate_at rest ((next_grab_at current_serial rest).map (fun _ => 0))
      else rest := by
  unfold retire_head
  simp only [next_grab_eq]
  split
  · rw [lookup_grabs_switch_self]
    simp only [lookup_grabs, lookup_insert_self, Option.getD_some]
  · simp only [lookup_grabs, lookup_insert_self, Option.getD_some]

theorem retire_head_queued_events (env : Backend) (device source_device : GdkDevice)
    (current_serial time : Nat) (display : GdkDisplay) (g : GdkDeviceGrabInfo)
    (rest : List GdkDeviceGrabInfo) :
    (retire_head env device source_device current_serial time display g rest).queued_events =
      display.queued_events ++ grab_broken_for env device current_serial g rest := by
  unfold retire_head
  simp only [next_grab_eq]
  have hq : (if (match next_grab_at current_serial rest with
        | none => g.implicit_ungrab
        | some next => decide (g.window ≠ next.window)) = true then
        generate_grab_broken_event env display g.window device g.implicit
          ((next_grab_at current_serial rest).map (fun next => next.window))
      else display).queued_events =
      display.queued_events ++ grab_broken_for env device current_serial g rest := by
    cases hn : next_grab_at current_serial rest with
    | none =>
      cases hi : g.implicit_ungrab <;> cases hd : env.GDK_WINDOW_DESTROYED g.window <;>
        simp [grab_broken_for, grab_broken_due, grab_broken_event_of,
          generate_grab_broken_event, gdk_display_put_event_nocopy, _gdk_event_queue_append,
          hn, hi, hd]
    | some next =>
      by_cases hw : g.window = next.window <;>
        cases hd : env.GDK_WINDOW_DESTROYED g.window <;>
        simp [grab_broken_for, grab_broken_due, grab_broken_event_of,
          generate_grab_broken_event, gdk_display_put_event_nocopy, _gdk_event_queue_append,
          hn, hd, hw, eq_comm]
  split
  · rw [switch_to_pointer_grab_queued_events]
    exact hq
  · exact hq

/-! ## What the update engine leaves behind -/

theorem retires_erase_activated (current_serial : Nat) :
    retires current_serial ∘ erase_activated = retires current_serial := by
  funext r
  rfl

theorem dropWhile_retires_map_erase (current_serial : Nat) (l : List GdkDeviceGrabInfo) :
    (l.map erase_activated).dropWhile (retires current_serial) =
      (l.dropWhile (retires current_serial)).map erase_activated := by
  rw [List.dropWhile_map, retires_erase_activated]

theorem activate_at_map_erase (l : List GdkDeviceGrabInfo) (grab : Option Nat) :
    (activate_at l grab).map erase_activated = l.map erase_activated := by
  cases grab with
  | none => rfl
  | some i =>
    cases hg : l[i]? with
    | none => simp [activate_at, hg]
    | some g =>
      simp only [activate_at, hg]
      exact map_set_same erase_activated l i g { g with activated := true } hg rfl

theorem lookup_grabs_retire_head_erase (env : Backend) (device source_device : GdkDevice)
    (current_serial time : Nat) (display : GdkDisplay) (g : GdkDeviceGrabInfo)
    (rest : List GdkDeviceGrabInfo) :
    (lookup_grabs (retire_head env device source_device current_serial time display g rest)
        device).map erase_activated = rest.map erase_activated := by
  rw [lookup_grabs_retire_head]
  split
  · exact activate_at_map_erase _ _
  · rfl

theorem lookup_grabs_retire_head_length (env : Backend) (device source_device : GdkDevice)
    (current_serial time : Nat) (display : GdkDisplay) (g : GdkDeviceGrabInfo)
    (rest : List GdkDeviceGrabInfo) :
    (lookup_grabs (retire_head env device source_device current_serial time display g rest)
        device).length = rest.length := by
  have h := congrArg List.length
    (lookup_grabs_retire_head_erase env device source_device current_serial time display g rest)
  simpa using h

/-- Up to the `activated` flags, the loop leaves the ledger without its longest prefix
of records that have started and ended. -/
theorem grab_update_loop_ledger (env : Backend) (device source_device : GdkDevice)
    (current_serial time : Nat) :
    ∀ (fuel : Nat) (display : GdkDisplay), (lookup_grabs display device).length < fuel →
      (lookup_grabs (grab_update_loop env device source_device current_serial time fuel
        display) device).map erase_activated =
      ((lookup_grabs display device).dropWhile (retires current_serial)).map
        erase_activated := by
  intro fuel
  induction fuel with
  | zero => intro display h; exact absurd h (Nat.not_lt_zero _)
  | succ n ih =>
    intro display h
    cases hl : lookup_grabs display device with
    | nil =>
      rw [grab_update_loop_nil _ _ _ _ _ _ _ hl, hl]
      rfl
    | cons g rest =>
      by_cases hs : g.serial_start ≤ current_serial
      · by_cases he : g.serial_end ≤ current_serial
        · have hr : retires current_serial g = true := by simp [retires, hs, he]
          rw [grab_update_loop_retire _ _ _ _ _ _ _ g rest hl hr, List.dropWhile_cons_of_pos hr]
          rw [hl] at h
          have hlen := lookup_grabs_retire_head_length env device source_device current_serial
            time display g rest
          rw [ih _ (by rw [hlen]; simpa using h), ← dropWhile_retires_map_erase,
            lookup_grabs_retire_head_erase, dropWhile_retires_map_erase]
        · have hr : ¬ retires current_serial g = true := by simp [retires, hs, he]
          rw [grab_update_loop_current _ _ _ _ _ _ _ g rest hl hs (Nat.lt_of_not_le he),
            List.dropWhile_cons_of_neg hr]
          split
          · rw [lookup_grabs_switch_self, activate_at_map_erase, hl]
          · rw [hl]
      · have hr : ¬ retires current_serial g = true := by simp [retires, hs]
        rw [grab_update_loop_not_started _ _ _ _ _ _ _ g rest hl (Nat.lt_of_not_le hs), hl,
          List.dropWhile_cons_of_neg hr]

theorem grab_broken_for_activated (env : Backend) (device : GdkDevice) (current_serial : Nat)
    (r n : GdkDeviceGrabInfo) (t : List GdkDeviceGrabInfo) :
    grab_broken_for env device current_serial r ({ n with activated := true } :: t) =
      grab_broken_for env device current_serial r (n :: t) := by
  by_cases h : n.serial_start ≤ current_serial <;>
    simp [grab_broken_for, grab_broken_due, grab_broken_event_of, next_grab_at, h]

theorem events_per_retired_activate (env : Backend) (device : GdkDevice)
    (current_serial : Nat) (rest : List GdkDeviceGrabInfo) (grab : Option Nat)
    (hg : grab = none ∨ grab = some 0) :
    events_per_retired env device current_serial (activate_at rest grab) =
      events_per_retired env device current_serial rest := by
  rcases hg with hg | hg
  · subst hg; rfl
  · subst hg
    cases rest with
    | nil => rfl
    | cons n t =>
      rw [activate_at_head]
      cases t with
      | nil =>
        simp [events_per_retired, retires, grab_broken_for, grab_broken_due,
          grab_broken_event_of, next_grab_at]
      | cons m t1 =>
        simp [events_per_retired, retires, grab_broken_for, grab_broken_due,
          grab_broken_event_of, next_grab_at]

theorem events_per_retired_retire_head (env : Backend) (device source_device : GdkDevice)
    (current_serial time : Nat) (display : GdkDisplay) (g : GdkDeviceGrabInfo)
    (rest : List GdkDeviceGrabInfo) :
    events_per_retired env device current_serial
        (lookup_grabs (retire_head env device source_device current_serial time display g rest)
          device) =
      events_per_retired env device current_serial rest := by
  rw [lookup_grabs_retire_head]
  split
  · apply events_per_retired_activate
    cases next_grab_at current_serial rest with
    | none => left; rfl
    | some n => right; rfl
  · rfl

/-- The loop appends to the event queue, in retirement order, the events due for the
records it retires. -/
theorem grab_update_loop_queued_events (env : Backend) (device source_device : GdkDevice)
    (current_serial time : Nat) :
    ∀ (fuel : Nat) (display : GdkDisplay), (lookup_grabs display device).length < fuel →
      (grab_update_loop env device source_device current_serial time fuel
        display).queued_events =
      display.queued_events ++
        (events_per_retired env device current_serial (lookup_grabs display device)).flatten := by
  intro fuel
  induction fuel with
  | zero => intro display h; exact absurd h (Nat.not_lt_zero _)
  | succ n ih =>
    intro display h
    cases hl : lookup_grabs display device with
    | nil =>
      rw [grab_update_loop_nil _ _ _ _ _ _ _ hl]
      simp [events_per_retired]
    | cons g rest =>
      by_cases hs : g.serial_start ≤ current_serial
      · by_cases he : g.serial_end ≤ current_serial
        · have hr : retires current_serial g = true := by simp [retires, hs, he]
          rw [grab_update_loop_retire _ _ _ _ _ _ _ g rest hl hr]
          rw [hl] at h
          have hlen := lookup_grabs_retire_head_length env device source_device current_serial
            time display g rest
          rw [ih _ (by rw [hlen]; simpa using h), events_per_retired_retire_head,
            retire_head_queued_events]
          simp [events_per_retired, hr]
        · have hr : retires current_serial g = false := by simp [retires, hs, he]
          rw [grab_update_loop_current _ _ _ _ _ _ _ g rest hl hs (Nat.lt_of_not_le he)]
          split
          · rw [switch_to_pointer_grab_queued_events]
            simp [events_per_retired, hr]
          · simp [events_per_retired, hr]
      · have hr : retires current_serial g = false := by simp [retires, hs]
        rw [grab_update_loop_not_started _ _ _ _ _ _ _ g rest hl (Nat.lt_of_not_le hs)]
        simp [events_per_retired, hr]

/-- On a device that is not a keyboard, a head record that is current when the loop ends
is marked `activated`. -/
theorem grab_update_loop_head_activated (env : Backend) (device source_device : GdkDevice)
    (current_serial time : Nat)
    (hk : env.gdk_device_get_source device ≠ GdkInputSource.KEYBOARD) :
    ∀ (fuel : Nat) (display : GdkDisplay), (lookup_grabs display device).length < fuel →
      ∀ head rest1,
        lookup_grabs (grab_update_loop env device source_device current_serial time fuel
          display) device = head :: rest1 →
        head.serial_start ≤ current_serial → current_serial < head.serial_end →
        head.activated = true := by
  intro fuel
  induction fuel with
  | zero => intro display h; exact absurd h (Nat.not_lt_zero _)
  | succ n ih =>
    intro display h head rest1 hfin hhs hhe
    cases hl : lookup_grabs display device with
    | nil =>
      rw [grab_update_loop_nil _ _ _ _ _ _ _ hl, hl] at hfin
      cases hfin
    | cons g rest =>
      by_cases hs : g.serial_start ≤ current_serial
      · by_cases he : g.serial_end ≤ current_serial
        · have hr : retires current_serial g = true := by simp [retires, hs, he]
          rw [grab_update_loop_retire _ _ _ _ _ _ _ g rest hl hr] at hfin
          rw [hl] at h
          have hlen := lookup_grabs_retire_head_length env device source_device current_serial
            time display g rest
          exact ih _ (by rw [hlen]; simpa using h) head rest1 hfin hhs hhe
        · rw [grab_update_loop_current _ _ _ _ _ _ _ g rest hl hs (Nat.lt_of_not_le he)] at hfin
          by_cases hact : g.activated = false
          · rw [if_pos ⟨hact, hk⟩, lookup_grabs_switch_self, hl, activate_at_head] at hfin
            cases hfin
            rfl
          · rw [if_neg (fun hh => hact hh.1), hl] at hfin
            cases hfin
            simpa using hact
      · rw [grab_update_loop_not_started _ _ _ _ _ _ _ g rest hl (Nat.lt_of_not_le hs), hl]
          at hfin
        cases hfin
        omega

theorem retire_head_keyboard (env : Backend) (device source_device : GdkDevice)
    (current_serial time : Nat) (display : GdkDisplay) (g : GdkDeviceGrabInfo)
    (rest : List GdkDeviceGrabInfo)
    (hk : env.gdk_device_get_source device = GdkInputSource.KEYBOARD) :
    (retire_head env device source_device current_serial time display g rest).pointers_info =
      display.pointers_info := by
  unfold retire_head
  simp only [hk, ne_eq, not_true_eq_false, if_false]
  split
  · unfold generate_grab_broken_event
    split <;> rfl
  · rfl

/-- On a keyboard device the loop only unlinks records: what stays is untouched, and so
are the pointer infos. -/
theorem grab_update_loop_keyboard (env : Backend) (device source_device : GdkDevice)
    (current_serial time : Nat)
    (hk : env.gdk_device_get_source device = GdkInputSource.KEYBOARD) :
    ∀ (fuel : Nat) (display : GdkDisplay), (lookup_grabs display device).length < fuel →
      lookup_grabs (grab_update_loop env device source_device current_serial time fuel
        display) device = (lookup_grabs display device).dropWhile (retires current_serial) ∧
      (grab_update_loop env device source_device current_serial time fuel
        display).pointers_info = display.pointers_info := by
  intro fuel
  induction fuel with
  | zero => intro display h; exact absurd h (Nat.not_lt_zero _)
  | succ n ih =>
    intro display h
    cases hl : lookup_grabs display device with
    | nil =>
      rw [grab_update_loop_nil _ _ _ _ _ _ _ hl, hl]
      exact ⟨rfl, rfl⟩
    | cons g rest =>
      by_cases hs : g.serial_start ≤ current_serial
      · by_cases he : g.serial_end ≤ current_serial
        · have hr : retires current_serial g = true := by simp [retires, hs, he]
          rw [grab_update_loop_retire _ _ _ _ _ _ _ g rest hl hr, List.dropWhile_cons_of_pos hr]
          rw [hl] at h
          have hlen := lookup_grabs_retire_head_length env device source_device current_serial
            time display g rest
          have hih := ih _ (show (lookup_grabs (retire_head env device source_device
            current_serial time display g rest) device).length < n by
              rw [hlen]; simpa using h)
          rw [lookup_grabs_retire_head, retire_head_keyboard _ _ _ _ _ _ _ _ hk] at hih
          simpa [hk] using hih
        · have hr : ¬ retires current_serial g = true := by simp [retires, hs, he]
          rw [grab_update_loop_current _ _ _ _ _ _ _ g rest hl hs (Nat.lt_of_not_le he),
            List.dropWhile_cons_of_neg hr, if_neg (fun hh => hh.2 hk), hl]
          exact ⟨rfl, rfl⟩
      · have hr : ¬ retires current_serial g = true := by simp [retires, hs]
        rw [grab_update_loop_not_started _ _ _ _ _ _ _ g rest hl (Nat.lt_of_not_le hs), hl,
          List.dropWhile_cons_of_neg hr]
        exact ⟨rfl, rfl⟩

/-- In a ledger without overlaps the records the engine retires are exactly those with
`serial_end <= current_serial`. -/
theorem dropWhile_retires_eq_filter (current_serial : Nat) (l : List GdkDeviceGrabInfo)
    (h : NonOverlap l) :
    l.dropWhile (retires current_serial) =
      l.filter (fun r => decide (current_serial < r.serial_end)) := by
  induction l with
  | nil => rfl
  | cons g rest ih =>
    have hge := h.1 g (List.mem_cons_self _ _)
    by_cases hr : retires current_serial g = true
    · rw [List.dropWhile_cons_of_pos hr, ih (nonOverlap_tail g rest h)]
      simp only [retires, Bool.and_eq_true, decide_eq_true_eq] at hr
      rw [List.filter_cons_of_neg (by simp; omega)]
    · rw [List.dropWhile_cons_of_neg hr]
      simp only [retires, Bool.and_eq_true, decide_eq_true_eq, not_and, Nat.not_le] at hr
      have hg : current_serial < g.serial_end := by
        by_cases hs : g.serial_start ≤ current_serial
        · exact hr hs
        · omega
      symm
      rw [List.filter_eq_self]
      intro r hrm
      rcases List.mem_cons.mp hrm with hrm | hrm
      · subst hrm
        simpa using hg
      · have hp := (List.pairwise_cons.mp h.2).1 r hrm
        have hre := h.1 r (List.mem_cons_of_mem _ hrm)
        simp only [decide_eq_true_eq]
        omega

/-! ## The claims about failed and conditional ends -/

theorem end_device_grab_not_passing (env : Backend) (display : GdkDisplay) (device : GdkDevice)
    (serial : Nat) (if_child : Option GdkWindow) (implicit : Bool) (i : Nat)
    (grab : GdkDeviceGrabInfo)
    (hf : find_device_grab display device serial = some i)
    (hg : (lookup_grabs display device)[i]? = some grab)
    (hc : if_child_passes env if_child grab = false) :
    _gdk_display_end_device_grab env display device serial if_child implicit =
      (false, display) := by
  simp [_gdk_display_end_device_grab, hf, hg, hc]

/-- The grab found at `serial` is ended by the call exactly when the `if_child` test
passes. -/
theorem grab_ended_iff_passes (env : Backend) (display : GdkDisplay) (device : GdkDevice)
    (serial : Nat) (if_child : Option GdkWindow) (implicit : Bool) (i : Nat)
    (grab : GdkDeviceGrabInfo)
    (hf : find_device_grab display device serial = some i)
    (hg : (lookup_grabs display device)[i]? = some grab) :
    grab_ended_at (_gdk_display_end_device_grab env display device serial if_child implicit).2
        device i serial ↔ if_child_passes env if_child grab = true := by
  have hh := find_device_grab_holds display device serial i grab hf hg
  have hlt : i < (lookup_grabs display device).length := (List.getElem?_eq_some.mp hg).1
  unfold grab_ended_at
  cases hc : if_child_passes env if_child grab with
  | true =>
    rw [lookup_grabs_end_self env display device serial if_child implicit i grab hf hg hc,
      List.getElem?_set_self hlt]
    simp
  | false =>
    rw [end_device_grab_not_passing env display device serial if_child implicit i grab hf hg hc,
      hg]
    unfold holds at hh
    simp only [Option.map_some', Option.some.injEq, Bool.false_eq_true, iff_false]
    omega

/-- C11: `_gdk_display_end_device_grab` is atomic on failure. When no record of the
device holds `serial`, or when `if_child` is given and
`_gdk_window_event_parent_of (if_child, grab->window)` fails for the grab found, the
call returns false and the display, with every ledger and every record's `serial_end`
and `implicit_ungrab`, is exactly as before. -/
theorem end_device_grab_atomic_on_failure (env : Backend) (display : GdkDisplay)
    (device : GdkDevice) (serial : Nat) (if_child : Option GdkWindow) (implicit : Bool) :
    ((∀ r ∈ lookup_grabs display device,
        ¬ (r.serial_start ≤ serial ∧ serial < r.serial_end)) →
      _gdk_display_end_device_grab env display device serial if_child implicit =
        (false, display)) ∧
    (∀ grab w, _gdk_display_has_device_grab display device serial = some grab →
      if_child = some w → env._gdk_window_event_parent_of w grab.window = false →
      _gdk_display_end_device_grab env display device serial if_child implicit =
        (false, display)) := by
  refine ⟨?_, ?_⟩
  · intro hall
    have hnone : find_device_grab display device serial = none :=
      (grab_list_find_none _ _).mpr hall
    simp [_gdk_display_end_device_grab, hnone]
  · intro grab w hhas hw hparent
    obtain ⟨i, hf, hg⟩ := (has_device_grab_eq_some display device serial grab).mp hhas
    apply end_device_grab_not_passing env display device serial if_child implicit i grab hf hg
    rw [hw]
    exact hparent

/-- In the scenario of the two grabs nothing is active at serial 5, and with window 2 a
child of window 1 the test for `if_child = 2` fails on the grab of window 1: both calls
return false and change nothing. -/
theorem end_device_grab_atomic_on_failure_witness :
    _gdk_display_end_device_grab scenario_hierarchy_backend scenario_two_grabs 0 5 none true =
        (false, scenario_two_grabs) ∧
      _gdk_display_end_device_grab scenario_hierarchy_backend scenario_two_grabs 0 15 (some 2)
        true = (false, scenario_two_grabs) :=
  ⟨(end_device_grab_atomic_on_failure scenario_hierarchy_backend scenario_two_grabs 0 5 none
      true).1 (by decide),
   (end_device_grab_atomic_on_failure scenario_hierarchy_backend scenario_two_grabs 0 15
      (some 2) true).2 scenario_W1 2 (by decide) rfl (by decide)⟩

/-- C12, as the code has it: the hierarchy test runs the other way round. Window 2 is a
child of window 1, hence a descendant-or-self of the grab window 1, and the grab of
window 1 is active at serial 15; still the call with `if_child = 2` does not end the
grab. Conversely the grab of window 2, active at serial 25, is ended by the call with
`if_child = 1`, although window 1 is not a descendant-or-self of window 2. -/
theorem end_device_grab_descendant_of_grab_window_not_ended :
    descendant_or_self scenario_ancestors 2 1 ∧
      _gdk_display_has_device_grab scenario_two_grabs 0 15 = some scenario_W1 ∧
      _gdk_display_end_device_grab scenario_hierarchy_backend scenario_two_grabs 0 15 (some 2)
        false = (false, scenario_two_grabs) ∧
      ¬ grab_ended_at
        (_gdk_display_end_device_grab scenario_hierarchy_backend scenario_two_grabs 0 15
          (some 2) false).2 0 0 15 ∧
      ¬ descendant_or_self scenario_ancestors 1 2 ∧
      _gdk_display_has_device_grab scenario_two_grabs 0 25 = some scenario_W2 ∧
      grab_ended_at
        (_gdk_display_end_device_grab scenario_hierarchy_backend scenario_two_grabs 0 25
          (some 1) false).2 0 1 25 := by
  decide

/-- C12, amended: with a window argument given and a grab active at `serial`, the grab
is ended (its `serial_end` set to `serial`) exactly when the grab's window is a
descendant-or-self of the given window; otherwise the call returns false and changes
nothing. -/
theorem end_device_grab_if_grab_window_descendant (env : Backend) (display : GdkDisplay)
    (device : GdkDevice) (serial : Nat) (w : GdkWindow) (implicit : Bool)
    (ancestors : GdkWindow → List GdkWindow) (i : Nat) (grab : GdkDeviceGrabInfo)
    (henv : env._gdk_window_event_parent_of = window_event_parent_of ancestors)
    (hf : find_device_grab display device serial = some i)
    (hg : (lookup_grabs display device)[i]? = some grab) :
    (grab_ended_at (_gdk_display_end_device_grab env display device serial (some w)
        implicit).2 device i serial ↔ descendant_or_self ancestors grab.window w) ∧
    (¬ descendant_or_self ancestors grab.window w →
      _gdk_display_end_device_grab env display device serial (some w) implicit =
        (false, display)) := by
  have hpass : if_child_passes env (some w) grab = true ↔
      descendant_or_self ancestors grab.window w := by
    simp only [if_child_passes, henv, window_event_parent_of, descendant_or_self,
      decide_eq_true_eq]
    constructor
    · rintro (h | h)
      · exact Or.inl h.symm
      · exact Or.inr h
    · rintro (h | h)
      · exact Or.inl h.symm
      · exact Or.inr h
  refine ⟨(grab_ended_iff_passes env display device serial (some w) implicit i grab hf
    hg).trans hpass, ?_⟩
  intro hnot
  apply end_device_grab_not_passing env display device serial (some w) implicit i grab hf hg
  cases hc : if_child_passes env (some w) grab with
  | false => rfl
  | true => exact absurd (hpass.mp hc) hnot

/-- With window 3 a grandchild of window 1: the grab of window 2 is ended through
`if_child = 1`, its ancestor, and not through `if_child = 3`, its child. -/
theorem end_device_grab_if_grab_window_descendant_witness :
    grab_ended_at
        (_gdk_display_end_device_grab scenario_hierarchy_backend scenario_two_grabs 0 25
          (some 1) false).2 0 1 25 ∧
      _gdk_display_end_device_grab scenario_hierarchy_backend scenario_two_grabs 0 25 (some 3)
        false = (false, scenario_two_grabs) :=
  ⟨(end_device_grab_if_grab_window_descendant scenario_hierarchy_backend scenario_two_grabs 0
      25 1 false scenario_ancestors 1 scenario_W2 rfl (by decide) (by decide)).1.mpr
      (by decide),
   (end_device_grab_if_grab_window_descendant scenario_hierarchy_backend scenario_two_grabs 0
      25 3 false scenario_ancestors 1 scenario_W2 rfl (by decide) (by decide)).2
      (by decide)⟩

/-- C13: with `if_child` not `NULL` and a grab active at `serial`, the grab is ended
exactly when `_gdk_window_event_parent_of (if_child, grab->window)` holds, that is,
when `if_child` is the grabbed window or an ancestor of it. -/
theorem end_device_grab_if_child_ancestor (env : Backend) (display : GdkDisplay)
    (device : GdkDevice) (serial : Nat) (if_child : GdkWindow) (implicit : Bool) (i : Nat)
    (grab : GdkDeviceGrabInfo)
    (hf : find_device_grab display device serial = some i)
    (hg : (lookup_grabs display device)[i]? = some grab) :
    (grab_ended_at (_gdk_display_end_device_grab env display device serial (some if_child)
        implicit).2 device i serial ↔
      env._gdk_window_event_parent_of if_child grab.window = true) ∧
    (∀ ancestors, env._gdk_window_event_parent_of = window_event_parent_of ancestors →
      (grab_ended_at (_gdk_display_end_device_grab env display device serial (some if_child)
          implicit).2 device i serial ↔
        (if_child = grab.window ∨ if_child ∈ ancestors grab.window))) := by
  have h1 := grab_ended_iff_passes env display device serial (some if_child) implicit i grab
    hf hg
  refine ⟨h1, ?_⟩
  intro ancestors henv
  rw [h1]
  simp [if_child_passes, henv, window_event_parent_of]

/-- The grab of window 2 is ended through `if_child = 2` (the window itself) and through
`if_child = 1` (its parent). -/
theorem end_device_grab_if_child_ancestor_witness :
    grab_ended_at
        (_gdk_display_end_device_grab scenario_hierarchy_backend scenario_two_grabs 0 25
          (some 2) false).2 0 1 25 ∧
      grab_ended_at
        (_gdk_display_end_device_grab scenario_hierarchy_backend scenario_two_grabs 0 25
          (some 1) false).2 0 1 25 :=
  ⟨(end_device_grab_if_child_ancestor scenario_hierarchy_backend scenario_two_grabs 0 25 2
      false 1 scenario_W2 (by decide) (by decide)).1.mpr (by decide),
   ((end_device_grab_if_child_ancestor scenario_hierarchy_backend scenario_two_grabs 0 25 1
      false 1 scenario_W2 (by decide) (by decide)).2 scenario_ancestors rfl).mpr (by decide)⟩

/-! ## The claims about the update engine -/

/-- C14: when the ledger of the device is empty, or its oldest record starts after
`current_serial`, `_gdk_display_device_grab_update` returns the display as it was:
ledgers, records, pointer infos and event queue are all unchanged. -/
theorem grab_update_nothing_to_do (env : Backend) (display : GdkDisplay)
    (device source_device : GdkDevice) (current_serial : Nat)
    (h : lookup_grabs display device = [] ∨
      ∃ g rest, lookup_grabs display device = g :: rest ∧ current_serial < g.serial_start) :
    _gdk_display_device_grab_update env display device source_device current_serial =
      display := by
  unfold _gdk_display_device_grab_update
  rcases h with h | ⟨g, rest, hl, hs⟩
  · exact grab_update_loop_nil _ _ _ _ _ _ _ h
  · exact grab_update_loop_not_started _ _ _ _ _ _ _ g rest hl hs

/-- Before serial 10 the engine leaves the scenario of the two grabs alone, and it
leaves a display without grabs alone. -/
theorem grab_update_nothing_to_do_witness :
    _gdk_display_device_grab_update scenario_backend scenario_two_grabs 0 0 5 =
        scenario_two_grabs ∧
      _gdk_display_device_grab_update scenario_backend scenario_empty 0 0 5 = scenario_empty :=
  ⟨grab_update_nothing_to_do scenario_backend scenario_two_grabs 0 0 5
      (Or.inr ⟨scenario_W1, [scenario_W2], by decide, by decide⟩),
   grab_update_nothing_to_do scenario_backend scenario_empty 0 0 5 (Or.inl rfl)⟩

/-- C15, as the code has it: the flag is written by the grab switch, which is skipped
for keyboards. On a keyboard device with the single grab from serial 10, after the
engine has run at serial 15 the head record is current and still not `activated`. -/
theorem keyboard_grab_not_marked_activated :
    scenario_keyboard_backend.gdk_device_get_source 0 = GdkInputSource.KEYBOARD ∧
      ∃ head, lookup_grabs
          (_gdk_display_device_grab_update scenario_keyboard_backend scenario_one_grab 0 0 15)
          0 = [head] ∧
        head.serial_start ≤ 15 ∧ 15 < head.serial_end ∧ head.activated = false :=
  ⟨rfl, { scenario_W1 with serial_end := G_MAXULONG }, by decide, by decide, by decide, rfl⟩

/-- C15, amended: on every device that is not a keyboard, a head record that is current
(`serial_start <= current_serial < serial_end`) when the update engine finishes at
`current_serial` is marked `activated`; on a keyboard device the engine only unlinks
the expired records and leaves the remaining records, their `activated` flags
included, and the pointer infos untouched. -/
theorem grab_update_activates_current_pointer_grab (env : Backend) (display : GdkDisplay)
    (device source_device : GdkDevice) (current_serial : Nat) :
    (env.gdk_device_get_source device ≠ GdkInputSource.KEYBOARD →
      ∀ head rest,
        lookup_grabs (_gdk_display_device_grab_update env display device source_device
          current_serial) device = head :: rest →
        head.serial_start ≤ current_serial → current_serial < head.serial_end →
        head.activated = true) ∧
    (env.gdk_device_get_source device = GdkInputSource.KEYBOARD →
      lookup_grabs (_gdk_display_device_grab_update env display device source_device
          current_serial) device =
        (lookup_grabs display device).dropWhile (retires current_serial) ∧
      (_gdk_display_device_grab_update env display device source_device
        current_serial).pointers_info = display.pointers_info) := by
  refine ⟨?_, ?_⟩
  · intro hk
    exact grab_update_loop_head_activated env device source_device current_serial _ hk _
      display (Nat.lt_succ_self _)
  · intro hk
    exact grab_update_loop_keyboard env device source_device current_serial _ hk _ display
      (Nat.lt_succ_self _)

/-- On the pointer device of the scenario the grab of `W1` is marked `activated` by the
engine at serial 15; on a keyboard device the ledger stays as it was. -/
theorem grab_update_activates_current_pointer_grab_witness :
    lookup_grabs (_gdk_display_device_grab_update scenario_backend scenario_two_grabs 0 0 15)
        0 = [{ scenario_W1 with activated := true }, scenario_W2] ∧
      ({ scenario_W1 with activated := true } : GdkDeviceGrabInfo).activated = true ∧
      lookup_grabs
        (_gdk_display_device_grab_update scenario_keyboard_backend scenario_two_grabs 0 0 15)
        0 = [scenario_W1, scenario_W2] :=
  ⟨by decide,
   (grab_update_activates_current_pointer_grab scenario_backend scenario_two_grabs 0 0 15).1
      (by decide) { scenario_W1 with activated := true } [scenario_W2] (by decide) (by decide)
      (by decide),
   ((grab_update_activates_current_pointer_grab scenario_keyboard_backend scenario_two_grabs 0
      0 15).2 rfl).1.trans (by decide)⟩

/-- C16: on a ledger without overlaps, after `_gdk_display_device_grab_update` the
ledger of the device consists of exactly the original records with
`serial_end > current_serial`, in their original order and equal to the originals in
every field but `activated`; the ledgers of the other devices are unchanged. -/
theorem grab_update_keeps_unexpired (env : Backend) (display : GdkDisplay)
    (device source_device : GdkDevice) (current_serial : Nat)
    (h : NonOverlap (lookup_grabs display device)) :
    (lookup_grabs (_gdk_display_device_grab_update env display device source_device
        current_serial) device).map erase_activated =
      ((lookup_grabs display device).filter
        (fun r => decide (current_serial < r.serial_end))).map erase_activated ∧
    (∀ d, d ≠ device →
      lookup_grabs (_gdk_display_device_grab_update env display device source_device
        current_serial) d = lookup_grabs display d) := by
  refine ⟨?_, fun d hd => lookup_grabs_update_other _ _ _ _ _ _ hd⟩
  unfold _gdk_display_device_grab_update
  rw [grab_update_loop_ledger env device source_device current_serial _ _ display
    (Nat.lt_succ_self _), dropWhile_retires_eq_filter current_serial _ h]

/-- In the scenario of the two grabs, advancing to serial 25 retires the record of `W1`
(ended at 20) and keeps the record of `W2`. -/
theorem grab_update_keeps_unexpired_witness :
    NonOverlap (lookup_grabs scenario_two_grabs 0) ∧
      (lookup_grabs (_gdk_display_device_grab_update scenario_backend scenario_two_grabs 0 0
        25) 0).map erase_activated = [scenario_W2] :=
  ⟨by decide,
   (grab_update_keeps_unexpired scenario_backend scenario_two_grabs 0 0 25 (by decide)).1.trans
     (by decide)⟩

/-! ## The events of one engine run, record by record -/

theorem grab_update_queued_events (env : Backend) (display : GdkDisplay)
    (device source_device : GdkDevice) (current_serial : Nat) :
    (_gdk_display_device_grab_update env display device source_device
        current_serial).queued_events =
      display.queued_events ++
        (events_per_retired env device current_serial (lookup_grabs display device)).flatten :=
  grab_update_loop_queued_events env device source_device current_serial _ _ display
    (Nat.lt_succ_self _)

theorem events_per_retired_length (env : Backend) (device : GdkDevice) (current_serial : Nat)
    (l : List GdkDeviceGrabInfo) :
    (events_per_retired env device current_serial l).length =
      (l.takeWhile (retires current_serial)).length := by
  induction l with
  | nil => rfl
  | cons g rest ih =>
    cases hr : retires current_serial g with
    | true => simp [events_per_retired, List.takeWhile_cons, hr, ih]
    | false => simp [events_per_retired, List.takeWhile_cons, hr]

theorem events_per_retired_getElem (env : Backend) (device : GdkDevice)
    (current_serial : Nat) :
    ∀ (l : List GdkDeviceGrabInfo) (i : Nat) (r : GdkDeviceGrabInfo), l[i]? = some r →
      (∀ j g, j ≤ i → l[j]? = some g → retires current_serial g = true) →
      (events_per_retired env device current_serial l)[i]? =
        some (grab_broken_for env device current_serial r (l.drop (i + 1))) := by
  intro l
  induction l with
  | nil => intro i r hi; simp at hi
  | cons g rest ih =>
    intro i r hi hall
    have hg : retires current_serial g = true := hall 0 g (Nat.zero_le _) (by simp)
    cases i with
    | zero =>
      simp only [List.getElem?_cons_zero, Option.some.injEq] at hi
      subst hi
      simp [events_per_retired, hg]
    | succ k =>
      simp only [List.getElem?_cons_succ] at hi
      have hrec := ih k r hi (fun j g1 hj hj1 =>
        hall (j + 1) g1 (by omega) (by simpa using hj1))
      simpa [events_per_retired, hg] using hrec

theorem next_grab_at_drop (current_serial : Nat) (l : List GdkDeviceGrabInfo) (i : Nat) :
    next_grab_at current_serial (l.drop (i + 1)) =
      (l[i + 1]?).bind
        (fun n => if n.serial_start ≤ current_serial then some n else none) := by
  have hd : (l.drop (i + 1))[0]? = l[i + 1]? := by
    rw [List.getElem?_drop]
  cases hl : l.drop (i + 1) with
  | nil =>
    rw [hl] at hd
    simp only [List.getElem?_nil] at hd
    rw [← hd]
    rfl
  | cons n t =>
    rw [hl] at hd
    simp only [List.getElem?_cons_zero] at hd
    rw [← hd]
    rfl

/-- In a ledger without overlaps, a record that has ended by `current_serial` is
retired at `current_serial`, and so is every record before it. -/
theorem retires_upto (current_serial : Nat) (l : List GdkDeviceGrabInfo) (h : NonOverlap l)
    (i : Nat) (r : GdkDeviceGrabInfo) (hi : l[i]? = some r)
    (he : r.serial_end ≤ current_serial) :
    ∀ j g, j ≤ i → l[j]? = some g → retires current_serial g = true := by
  intro j g hj hg
  have hr := h.1 r (List.getElem?_mem hi)
  have hgg := h.1 g (List.getElem?_mem hg)
  rcases Nat.lt_or_eq_of_le hj with hlt | heq
  · obtain ⟨hi1, hi2⟩ := List.getElem?_eq_some.mp hi
    obtain ⟨hj1, hj2⟩ := List.getElem?_eq_some.mp hg
    have hp := List.pairwise_iff_getElem.mp h.2 j i hj1 hi1 hlt
    rw [hi2, hj2] at hp
    simp only [retires, Bool.and_eq_true, decide_eq_true_eq]
    omega
  · subst heq
    rw [hi] at hg
    cases hg
    simp only [retires, Bool.and_eq_true, decide_eq_true_eq]
    omega

theorem grab_broken_for_due (env : Backend) (device : GdkDevice) (current_serial : Nat)
    (r : GdkDeviceGrabInfo) (rest : List GdkDeviceGrabInfo)
    (h : grab_broken_due env r (next_grab_at current_serial rest) = true) :
    grab_broken_for env device current_serial r rest =
      [grab_broken_event_of env device r (next_grab_at current_serial rest)] := by
  simp [grab_broken_for, h]

theorem grab_broken_for_not_due (env : Backend) (device : GdkDevice) (current_serial : Nat)
    (r : GdkDeviceGrabInfo) (rest : List GdkDeviceGrabInfo)
    (h : grab_broken_due env r (next_grab_at current_serial rest) = false) :
    grab_broken_for env device current_serial r rest = [] := by
  simp [grab_broken_for, h]

theorem grab_broken_due_iff (env : Backend) (r : GdkDeviceGrabInfo)
    (next_grab : Option GdkDeviceGrabInfo) :
    grab_broken_due env r next_grab = true ↔
      (env.GDK_WINDOW_DESTROYED r.window = false ∧
        ((next_grab = none ∧ r.implicit_ungrab = true) ∨
          (∃ n, next_grab = some n ∧ n.window ≠ r.window))) := by
  cases next_grab with
  | none => simp [grab_broken_due]
  | some n => simp [grab_broken_due]

/-! ## The claims about grab-broken events -/

/-- C17: `_gdk_display_device_grab_update` appends to the event queue, in retirement
order, the events due for the records it retires, which are the records of the longest
prefix of started and ended records. For a retired record `r` with `next_grab` the
following record if that has started by `current_serial` and none otherwise, exactly
one event is queued if the window of `r` is live and either there is no `next_grab` and
`implicit_ungrab` is set, or `next_grab` is on a different window, and none is queued
otherwise; the event names the window of `r`, carries the `implicit` flag of `r` and
names the window of `next_grab`, if any. -/
theorem grab_update_queues_broken_events (env : Backend) (display : GdkDisplay)
    (device source_device : GdkDevice) (current_serial : Nat) :
    (_gdk_display_device_grab_update env display device source_device
        current_serial).queued_events =
      display.queued_events ++
        (events_per_retired env device current_serial (lookup_grabs display device)).flatten ∧
    (events_per_retired env device current_serial (lookup_grabs display device)).length =
      ((lookup_grabs display device).takeWhile (retires current_serial)).length ∧
    (lookup_grabs (_gdk_display_device_grab_update env display device source_device
        current_serial) device).map erase_activated =
      ((lookup_grabs display device).dropWhile (retires current_serial)).map erase_activated ∧
    (∀ i r, (lookup_grabs display device)[i]? = some r →
      (∀ j g, j ≤ i → (lookup_grabs display device)[j]? = some g →
        retires current_serial g = true) →
      (events_per_retired env device current_serial (lookup_grabs display device))[i]? =
        some (grab_broken_for env device current_serial r
          ((lookup_grabs display device).drop (i + 1))) ∧
      next_grab_at current_serial ((lookup_grabs display device).drop (i + 1)) =
        ((lookup_grabs display device)[i + 1]?).bind
          (fun n => if n.serial_start ≤ current_serial then some n else none)) ∧
    (∀ r rest,
      ((env.GDK_WINDOW_DESTROYED r.window = false ∧
          ((next_grab_at current_serial rest = none ∧ r.implicit_ungrab = true) ∨
            (∃ n, next_grab_at current_serial rest = some n ∧ n.window ≠ r.window))) →
        grab_broken_for env device current_serial r rest =
          [{ window := r.window, send_event := false, device := device,
             implicit := r.implicit,
             grab_window := (next_grab_at current_serial rest).map (fun n => n.window),
             keyboard :=
               decide (env.gdk_device_get_source device = GdkInputSource.KEYBOARD) }]) ∧
      (¬ (env.GDK_WINDOW_DESTROYED r.window = false ∧
          ((next_grab_at current_serial rest = none ∧ r.implicit_ungrab = true) ∨
            (∃ n, next_grab_at current_serial rest = some n ∧ n.window ≠ r.window))) →
        grab_broken_for env device current_serial r rest = [])) := by
  refine ⟨grab_update_queued_events env display device source_device current_serial,
    events_per_retired_length env device current_serial _,
    grab_update_loop_ledger env device source_device current_serial _ _ display
      (Nat.lt_succ_self _), ?_, ?_⟩
  · intro i r hi hall
    exact ⟨events_per_retired_getElem env device current_serial _ i r hi hall,
      next_grab_at_drop current_serial _ i⟩
  · intro r rest
    refine ⟨?_, ?_⟩
    · intro hdue
      rw [grab_broken_for_due env device current_serial r rest
        ((grab_broken_due_iff env r _).mpr hdue)]
      rfl
    · intro hnot
      apply grab_broken_for_not_due
      cases hd : grab_broken_due env r (next_grab_at current_serial rest) with
      | false => rfl
      | true => exact absurd ((grab_broken_due_iff env r _).mp hd) hnot

/-- In the scenario with the grab of `W2` ended at 30, advancing to serial 30 retires
both records and queues one event: the grab of window 1 was broken by the grab of
window 2. -/
theorem grab_update_queues_broken_events_witness :
    (_gdk_display_device_grab_update scenario_backend scenario_W2_ended 0 0 30).queued_events =
      [{ window := 1, send_event := false, device := 0, implicit := false,
         grab_window := some 2, keyboard := false }] ∧
    (events_per_retired scenario_backend 0 30 (lookup_grabs scenario_W2_ended 0))[0]? =
      some (grab_broken_for scenario_backend 0 30 scenario_W1
        ((lookup_grabs scenario_W2_ended 0).drop 1)) :=
  ⟨(grab_update_queues_broken_events scenario_backend scenario_W2_ended 0 0 30).1.trans
      (by decide),
   ((grab_update_queues_broken_events scenario_backend scenario_W2_ended 0 0 30).2.2.2.1 0
      scenario_W1 (by decide) (by
        intro j g hj hg
        have hj0 : j = 0 := Nat.le_zero.mp hj
        subst hj0
        have hW : lookup_grabs scenario_W2_ended 0 =
            [scenario_W1, { scenario_W2 with serial_end := 30 }] := by decide
        rw [hW] at hg
        simp only [List.getElem?_cons_zero, Option.some.injEq] at hg
        subst hg
        decide)).1⟩

/-- C18, as the code has it: the event carries the record's `implicit` flag (whether
the grab itself was implicit), not its `implicit_ungrab` flag. The grab of `W1` from
serial 10 was asked for explicitly and ended at 15 with `implicit = true`; its record
has `implicit_ungrab` set, a live window and no successor, and advancing to serial 15
queues exactly one event, naming window 1, whose `implicit` field is false. -/
theorem implicit_ungrab_event_carries_grab_flag :
    lookup_grabs scenario_W1_implicitly_ended 0 =
        [{ scenario_W1 with serial_end := 15, implicit_ungrab := true }] ∧
      scenario_backend.GDK_WINDOW_DESTROYED 1 = false ∧
      (_gdk_display_device_grab_update scenario_backend scenario_W1_implicitly_ended 0 0
        15).queued_events =
        [{ window := 1, send_event := false, device := 0, implicit := false,
           grab_window := none, keyboard := false }] := by
  decide

/-- C18, amended: on a ledger without overlaps, for a record with `implicit_ungrab`
set, a live window and no following record on the same window, advancing the update
engine to a serial at or past the record's `serial_end` queues exactly one grab-broken
event for that record; the event names the record's window and its `implicit` field is
the record's `implicit` flag. -/
theorem grab_update_implicit_ungrab_event (env : Backend) (display : GdkDisplay)
    (device source_device : GdkDevice) (current_serial : Nat) (i : Nat)
    (r : GdkDeviceGrabInfo)
    (hno : NonOverlap (lookup_grabs display device))
    (hi : (lookup_grabs display device)[i]? = some r)
    (hend : r.serial_end ≤ current_serial)
    (himp : r.implicit_ungrab = true)
    (hlive : env.GDK_WINDOW_DESTROYED r.window = false)
    (hsucc : ∀ n, (lookup_grabs display device)[i + 1]? = some n → n.window ≠ r.window) :
    (_gdk_display_device_grab_update env display device source_device
        current_serial).queued_events =
      display.queued_events ++
        (events_per_retired env device current_serial (lookup_grabs display device)).flatten ∧
    (events_per_retired env device current_serial (lookup_grabs display device))[i]? =
      some [grab_broken_event_of env device r
        (next_grab_at current_serial ((lookup_grabs display device).drop (i + 1)))] ∧
    (grab_broken_event_of env device r
      (next_grab_at current_serial ((lookup_grabs display device).drop (i + 1)))).window =
        r.window ∧
    (grab_broken_event_of env device r
      (next_grab_at current_serial ((lookup_grabs display device).drop (i + 1)))).implicit =
        r.implicit := by
  refine ⟨grab_update_queued_events env display device source_device current_serial, ?_,
    rfl, rfl⟩
  rw [events_per_retired_getElem env device current_serial _ i r hi
    (retires_upto current_serial _ hno i r hi hend)]
  congr 1
  apply grab_broken_for_due
  rw [grab_broken_due_iff]
  refine ⟨hlive, ?_⟩
  cases hn : next_grab_at current_serial ((lookup_grabs display device).drop (i + 1)) with
  | none => exact Or.inl ⟨rfl, himp⟩
  | some n =>
    right
    refine ⟨n, rfl, ?_⟩
    apply hsucc
    rw [next_grab_at_drop] at hn
    cases hl : (lookup_grabs display device)[i + 1]? with
    | none => rw [hl] at hn; simp at hn
    | some m =>
      rw [hl] at hn
      simp only [Option.some_bind] at hn
      split at hn
      · cases hn; rfl
      · cases hn

/-- An implicit grab of window 1 from serial 10, ended implicitly at 15, gives one event
naming window 1 with `implicit` true when the engine reaches serial 15. -/
theorem grab_update_implicit_ungrab_event_witness :
    (events_per_retired scenario_backend 0 15
        (lookup_grabs
          (_gdk_display_end_device_grab scenario_backend
            (_gdk_display_add_device_grab scenario_empty 0 1 1 GdkGrabOwnership.WINDOW false 0
              10 0 true).2 0 15 none true).2 0))[0]? =
      some [{ window := 1, send_event := false, device := 0, implicit := true,
              grab_window := none, keyboard := false }] :=
  (grab_update_implicit_ungrab_event scenario_backend
    (_gdk_display_end_device_grab scenario_backend
      (_gdk_display_add_device_grab scenario_empty 0 1 1 GdkGrabOwnership.WINDOW false 0 10 0
        true).2 0 15 none true).2
    0 0 15 0
    { scenario_W1 with serial_end := 15, implicit := true, implicit_ungrab := true }
    (by decide) (by decide) (by decide) rfl rfl (by decide)).2.1.trans (by decide)

/-- C19, as the code has it: a successor that has not started yet is not taken as
`next_grab`. Two grabs of window 1 from serials 10 and 20, the first ended at 15 with
`implicit = true`: when the engine reaches serial 17 the successor on the same window
has not started, and one event naming window 1 is queued for the first record. -/
theorem same_window_successor_not_started_event :
    (lookup_grabs scenario_same_window_gap 0).map
        (fun r => (r.window, r.serial_start, r.serial_end, r.implicit_ungrab)) =
        [(1, 10, 15, true), (1, 20, G_MAXULONG, false)] ∧
      (_gdk_display_device_grab_update scenario_backend scenario_same_window_gap 0 0
        17).queued_events =
        [{ window := 1, send_event := false, device := 0, implicit := false,
           grab_window := none, keyboard := false }] := by
  decide

/-- C19, amended: on a ledger without overlaps, for a record whose following record is
on the same window, advancing the update engine to a serial at or past the record's
`serial_end` queues no grab-broken event for that record, provided the following record
has started by then (`serial_start <= current_serial`), or the record's
`implicit_ungrab` is not set, or its window is destroyed. -/
theorem grab_update_same_window_successor_no_event (env : Backend) (display : GdkDisplay)
    (device source_device : GdkDevice) (current_serial : Nat) (i : Nat)
    (r n : GdkDeviceGrabInfo)
    (hno : NonOverlap (lookup_grabs display device))
    (hi : (lookup_grabs display device)[i]? = some r)
    (hend : r.serial_end ≤ current_serial)
    (hn : (lookup_grabs display device)[i + 1]? = some n)
    (hsame : n.window = r.window)
    (hstarted : n.serial_start ≤ current_serial ∨ r.implicit_ungrab = false ∨
      env.GDK_WINDOW_DESTROYED r.window = true) :
    (_gdk_display_device_grab_update env display device source_device
        current_serial).queued_events =
      display.queued_events ++
        (events_per_retired env device current_serial (lookup_grabs display device)).flatten ∧
    (events_per_retired env device current_serial (lookup_grabs display device))[i]? =
      some [] := by
  refine ⟨grab_update_queued_events env display device source_device current_serial, ?_⟩
  rw [events_per_retired_getElem env device current_serial _ i r hi
    (retires_upto current_serial _ hno i r hi hend)]
  congr 1
  apply grab_broken_for_not_due
  rw [next_grab_at_drop, hn]
  by_cases hs : n.serial_start ≤ current_serial
  · simp [grab_broken_due, hs, hsame]
  · rcases hstarted with h | h | h
    · exact absurd h hs
    · simp [grab_broken_due, hs, h]
    · simp [grab_broken_due, h]

/-- With the two grabs of window 1, once the engine reaches serial 25 the successor has
started and no event is queued for the first record. -/
theorem grab_update_same_window_successor_no_event_witness :
    (events_per_retired scenario_backend 0 25 (lookup_grabs scenario_same_window_gap 0))[0]? =
        some [] ∧
      (_gdk_display_device_grab_update scenario_backend scenario_same_window_gap 0 0
        25).queued_events = [] :=
  ⟨(grab_update_same_window_successor_no_event scenario_backend scenario_same_window_gap 0 0
      25 0 { scenario_W1 with serial_end := 15, implicit_ungrab := true }
      { scenario_W1 with serial_start := 20, serial_end := G_MAXULONG }
      (by decide) (by decide) (by decide) (by decide) rfl (Or.inl (by decide))).2,
   (grab_update_same_window_successor_no_event scenario_backend scenario_same_window_gap 0 0
      25 0 { scenario_W1 with serial_end := 15, implicit_ungrab := true }
      { scenario_W1 with serial_start := 20, serial_end := G_MAXULONG }
      (by decide) (by decide) (by decide) (by decide) rfl (Or.inl (by decide))).1.trans
      (by decide)⟩

/-- C20, as the code has it: the run that retires the explicitly ended grab can still
queue events for older records. In the scenario (`W1` from 10, `W2` from 20, the grab of
`W2` ended at 30 with `implicit = false`, which returns true), advancing to serial 30
empties the ledger and queues one event: the grab of window 1 was broken by the grab of
window 2. -/
theorem explicit_ungrab_run_reports_superseded_grab :
    (_gdk_display_end_device_grab scenario_backend scenario_two_grabs 0 30 none false).1 =
        true ∧
      lookup_grabs scenario_W2_ended 0 =
        [scenario_W1, { scenario_W2 with serial_end := 30 }] ∧
      lookup_grabs (_gdk_display_device_grab_update scenario_backend scenario_W2_ended 0 0 30)
        0 = [] ∧
      (_gdk_display_device_grab_update scenario_backend scenario_W2_ended 0 0
        30).queued_events =
        [{ window := 1, send_event := false, device := 0, implicit := false,
           grab_window := some 2, keyboard := false }] := by
  decide

/-- C20, amended: an explicit ungrab is not reported as broken. On a ledger without
overlaps, when `_gdk_display_end_device_grab` with `implicit = false` ends the last
record of the ledger at `serial`, advancing the update engine to `serial` retires that
record (the ledger becomes empty) and queues no grab-broken event for it; the events of
that run are those due for the older records, and none at all when the ended record is
the only one. -/
theorem explicit_ungrab_not_reported (env : Backend) (display : GdkDisplay)
    (device source_device : GdkDevice) (serial : Nat) (if_child : Option GdkWindow) (i : Nat)
    (grab : GdkDeviceGrabInfo)
    (hno : NonOverlap (lookup_grabs display device))
    (hf : find_device_grab display device serial = some i)
    (hg : (lookup_grabs display device)[i]? = some grab)
    (hc : if_child_passes env if_child grab = true)
    (hlast : i + 1 = (lookup_grabs display device).length) :
    lookup_grabs (_gdk_display_device_grab_update env
        (_gdk_display_end_device_grab env display device serial if_child false).2
        device source_device serial) device = [] ∧
    (events_per_retired env device serial
      (lookup_grabs (_gdk_display_end_device_grab env display device serial if_child false).2
        device))[i]? = some [] ∧
    (_gdk_display_device_grab_update env
        (_gdk_display_end_device_grab env display device serial if_child false).2
        device source_device serial).queued_events =
      (_gdk_display_end_device_grab env display device serial if_child false).2.queued_events ++
        (events_per_retired env device serial
          (lookup_grabs
            (_gdk_display_end_device_grab env display device serial if_child false).2
            device)).flatten ∧
    (i = 0 →
      (_gdk_display_device_grab_update env
          (_gdk_display_end_device_grab env display device serial if_child false).2
          device source_device serial).queued_events =
        (_gdk_display_end_device_grab env display device serial if_child false).2.queued_events)
    := by
  have hself := lookup_grabs_end_self env display device serial if_child false i grab hf hg hc
  have hholds := find_device_grab_holds display device serial i grab hf hg
  have hlt : i < (lookup_grabs display device).length := by omega
  have hno1 := nonOverlap_end _ i serial grab false hno hg hholds
  rw [← hself] at hno1
  have hi1 : (lookup_grabs (_gdk_display_end_device_grab env display device serial if_child
      false).2 device)[i]? =
      some { grab with serial_end := serial, implicit_ungrab := false } := by
    rw [hself, List.getElem?_set_self hlt]
  have hlen1 : (lookup_grabs (_gdk_display_end_device_grab env display device serial if_child
      false).2 device).length = i + 1 := by
    rw [hself, List.length_set, hlast]
  have hup := retires_upto serial _ hno1 i _ hi1 (Nat.le_refl _)
  have hall : ∀ x ∈ lookup_grabs (_gdk_display_end_device_grab env display device serial
      if_child false).2 device, retires serial x = true := by
    intro x hx
    obtain ⟨j, hj⟩ := List.mem_iff_getElem?.mp hx
    have hjlt := (List.getElem?_eq_some.mp hj).1
    exact hup j x (by omega) hj
  have hq := grab_update_queued_events env
    (_gdk_display_end_device_grab env display device serial if_child false).2 device
    source_device serial
  have hev : (events_per_retired env device serial
      (lookup_grabs (_gdk_display_end_device_grab env display device serial if_child false).2
        device))[i]? = some [] := by
    rw [events_per_retired_getElem env device serial _ i _ hi1 hup]
    congr 1
    apply grab_broken_for_not_due
    rw [List.drop_of_length_le (by omega)]
    simp [grab_broken_due, next_grab_at]
  refine ⟨?_, hev, hq, ?_⟩
  · have hled := grab_update_loop_ledger env device source_device serial
      (_gdk_display_end_device_grab env display device serial if_child false).2.last_event_time
      _ (_gdk_display_end_device_grab env display device serial if_child false).2
      (Nat.lt_succ_self _)
    have hdrop : (lookup_grabs (_gdk_display_end_device_grab env display device serial
        if_child false).2 device).dropWhile (retires serial) = [] := by
      rw [List.dropWhile_eq_nil_iff]
      exact hall
    rw [hdrop, List.map_nil, List.map_eq_nil_iff] at hled
    exact hled
  · intro hi0
    subst hi0
    rw [hq]
    have hone : events_per_retired env device serial
        (lookup_grabs (_gdk_display_end_device_grab env display device serial if_child
          false).2 device) = [[]] := by
      have hl := events_per_retired_length env device serial
        (lookup_grabs (_gdk_display_end_device_grab env display device serial if_child
          false).2 device)
      have hle : ((lookup_grabs (_gdk_display_end_device_grab env display device serial
          if_child false).2 device).takeWhile (retires serial)).length ≤
          (lookup_grabs (_gdk_display_end_device_grab env display device serial if_child
            false).2 device).length :=
        (List.takeWhile_prefix (retires serial)).length_le
      rw [hlen1] at hle
      generalize events_per_retired env device serial
        (lookup_grabs (_gdk_display_end_device_grab env display device serial if_child
          false).2 device) = ev at hev hl
      cases ev with
      | nil => simp at hev
      | cons a t =>
        simp only [List.getElem?_cons_zero, Option.some.injEq] at hev
        subst hev
        cases t with
        | nil => rfl
        | cons b t1 =>
          simp only [List.length_cons] at hl
          omega
    rw [hone]
    simp

/-- The single grab of `W1`, ended explicitly at serial 15: advancing to 15 empties the
ledger and queues nothing. -/
theorem explicit_ungrab_not_reported_witness :
    lookup_grabs (_gdk_display_device_grab_update scenario_backend
        (_gdk_display_end_device_grab scenario_backend scenario_one_grab 0 15 none false).2
        0 0 15) 0 = [] ∧
      (_gdk_display_device_grab_update scenario_backend
        (_gdk_display_end_device_grab scenario_backend scenario_one_grab 0 15 none false).2
        0 0 15).queued_events = [] :=
  ⟨(explicit_ungrab_not_reported scenario_backend scenario_one_grab 0 0 15 none 0
      { scenario_W1 with serial_end := G_MAXULONG } (by decide) (by decide) (by decide) rfl
      (by decide)).1,
   ((explicit_ungrab_not_reported scenario_backend scenario_one_grab 0 0 15 none 0
      { scenario_W1 with serial_end := G_MAXULONG } (by decide) (by decide) (by decide) rfl
      (by decide)).2.2.2 rfl).trans (by decide)⟩

/-! ## The claims about the event, the status queries and fresh grabs -/

/-- C21: `generate_grab_broken_event` does nothing for a destroyed window; for a live
window the new queue is the old queue followed by exactly one event carrying the window,
the device, the given `implicit` flag, the window of the new grab holder (or none) and
`keyboard` set exactly when the source of the device is the keyboard; nothing else of
the display changes. -/
theorem generate_grab_broken_event_appends (env : Backend) (display : GdkDisplay)
    (window : GdkWindow) (device : GdkDevice) (implicit : Bool)
    (grab_window : Option GdkWindow) :
    (env.GDK_WINDOW_DESTROYED window = true →
      generate_grab_broken_event env display window device implicit grab_window = display) ∧
    (env.GDK_WINDOW_DESTROYED window = false →
      generate_grab_broken_event env display window device implicit grab_window =
        { display with
          queued_events := display.queued_events ++
            [{ window := window, send_event := false, device := device, implicit := implicit,
               grab_window := grab_window,
               keyboard :=
                 decide (env.gdk_device_get_source device = GdkInputSource.KEYBOARD) }] }) := by
  refine ⟨?_, ?_⟩
  · intro h
    simp [generate_grab_broken_event, h]
  · intro h
    simp [generate_grab_broken_event, h, gdk_display_put_event_nocopy,
      _gdk_event_queue_append]

/-- With window 1 destroyed nothing is queued for it; for the live window 2 one event
goes to the tail of the queue. -/
theorem generate_grab_broken_event_appends_witness :
    generate_grab_broken_event scenario_destroyed_backend scenario_two_grabs 1 0 true none =
        scenario_two_grabs ∧
      (generate_grab_broken_event scenario_destroyed_backend scenario_two_grabs 2 0 true
        (some 1)).queued_events =
        [{ window := 2, send_event := false, device := 0, implicit := true,
           grab_window := some 1, keyboard := false }] :=
  ⟨(generate_grab_broken_event_appends scenario_destroyed_backend scenario_two_grabs 1 0 true
      none).1 (by decide),
   (congrArg GdkDisplay.queued_events
      ((generate_grab_broken_event_appends scenario_destroyed_backend scenario_two_grabs 2 0
        true (some 1)).2 (by decide))).trans (by decide)⟩

theorem getLast?_set_same {β : Type} (f : GdkDeviceGrabInfo → β) (l : List GdkDeviceGrabInfo)
    (i : Nat) (g g1 : GdkDeviceGrabInfo) (hi : l[i]? = some g) (hf : f g1 = f g) :
    ((l.set i g1).getLast?).map f = (l.getLast?).map f := by
  have h := congrArg List.getLast? (map_set_same f l i g g1 hi hf)
  rw [List.getLast?_map, List.getLast?_map] at h
  exact h

theorem last_device_grab_after_end (env : Backend) (display : GdkDisplay) (dev device : GdkDevice)
    (serial : Nat) (if_child : Option GdkWindow) (implicit : Bool) :
    (_gdk_display_get_last_device_grab
        (_gdk_display_end_device_grab env display dev serial if_child implicit).2 device).map
        (fun r => (r.window, r.owner_events, r.implicit)) =
      (_gdk_display_get_last_device_grab display device).map
        (fun r => (r.window, r.owner_events, r.implicit)) := by
  rw [last_device_grab_eq_getLast, last_device_grab_eq_getLast]
  by_cases hd : device = dev
  · subst hd
    rcases end_device_grab_cases env display device serial if_child implicit with h |
      ⟨i, grab, hf, hg, hc⟩
    · rw [h]
    · rw [lookup_grabs_end_self env display device serial if_child implicit i grab hf hg hc]
      exact getLast?_set_same _ _ i grab _ hg rfl
  · rw [lookup_grabs_end_other env display dev device serial if_child implicit hd]

/-- C24: `gdk_display_device_is_grabbed` is true exactly when the ledger of the device
is not empty and its last record is not implicit; no serial enters the answer, and in
particular the answer is the same before and after any `_gdk_display_end_device_grab`
call. `gdk_device_grab_info` reports the window and `owner_events` of the same last
record, and false when there is none. -/
theorem device_is_grabbed_iff (display : GdkDisplay) (device : GdkDevice) :
    (gdk_display_device_is_grabbed display device = true ↔
      lookup_grabs display device ≠ [] ∧
        ∀ last, (lookup_grabs display device).getLast? = some last → last.implicit = false) ∧
    (∀ (env : Backend) (dev : GdkDevice) (serial : Nat) (if_child : Option GdkWindow)
        (implicit : Bool),
      gdk_display_device_is_grabbed
          (_gdk_display_end_device_grab env display dev serial if_child implicit).2 device =
        gdk_display_device_is_grabbed display device ∧
      gdk_device_grab_info
          (_gdk_display_end_device_grab env display dev serial if_child implicit).2 device =
        gdk_device_grab_info display device) ∧
    (gdk_device_grab_info display device =
      ((lookup_grabs display device).getLast?.map
        (fun last => (true, some (last.window, last.owner_events)))).getD (false, none)) := by
  refine ⟨?_, ?_, ?_⟩
  · unfold gdk_display_device_is_grabbed
    rw [last_device_grab_eq_getLast]
    cases hl : (lookup_grabs display device).getLast? with
    | none =>
      have := List.getLast?_eq_none_iff.mp hl
      simp [this]
    | some last =>
      have hne : lookup_grabs display device ≠ [] := by
        intro hnil
        rw [hnil] at hl
        simp at hl
      simp [hne]
  · intro env dev serial if_child implicit
    have h := last_device_grab_after_end env display dev device serial if_child implicit
    unfold gdk_display_device_is_grabbed gdk_device_grab_info
    cases h1 : _gdk_display_get_last_device_grab
        (_gdk_display_end_device_grab env display dev serial if_child implicit).2 device <;>
      cases h2 : _gdk_display_get_last_device_grab display device <;>
      rw [h1, h2] at h <;> simp at h
    · exact ⟨rfl, rfl⟩
    · simp [h.1, h.2.1, h.2.2]
  · unfold gdk_device_grab_info
    rw [last_device_grab_eq_getLast]
    cases (lookup_grabs display device).getLast? <;> rfl

/-- In the scenario the device counts as grabbed once `W2` is queued, before any serial
is reached, and still after the grab of `W2` was given the end serial 30; a display
without grabs is not grabbed. -/
theorem device_is_grabbed_iff_witness :
    gdk_display_device_is_grabbed scenario_two_grabs 0 = true ∧
      gdk_display_device_is_grabbed scenario_W2_ended 0 = true ∧
      gdk_device_grab_info scenario_W2_ended 0 = (true, some (2, false)) ∧
      gdk_display_device_is_grabbed scenario_empty 0 = false :=
  ⟨(device_is_grabbed_iff scenario_two_grabs 0).1.mpr ⟨by decide, by decide⟩,
   by decide, by decide, by decide⟩

theorem clamp_last_end_length (s : Nat) (l : List GdkDeviceGrabInfo) :
    (clamp_last_end s l).length = l.length := by
  have h := congrArg List.length (clamp_last_end_map_start s l)
  simpa using h

/-- C25: on a ledger without overlaps and for a `serial_start` below `G_MAXULONG`, the
record `_gdk_display_add_device_grab` returns is the grab active at its own
`serial_start` right after the call, also when records with the same `serial_start`
exist already. -/
theorem added_grab_active_at_its_start (display : GdkDisplay) (device : GdkDevice)
    (window native_window : GdkWindow) (grab_ownership : GdkGrabOwnership)
    (owner_events : Bool) (event_mask : Nat) (serial_start : Nat) (time : Nat)
    (implicit : Bool) (h : NonOverlap (lookup_grabs display device))
    (hs : serial_start < G_MAXULONG) :
    _gdk_display_has_device_grab
        (_gdk_display_add_device_grab display device window native_window grab_ownership
          owner_events event_mask serial_start time implicit).2 device serial_start =
      some (_gdk_display_add_device_grab display device window native_window grab_ownership
        owner_events event_mask serial_start time implicit).1 := by
  have hno := nonOverlap_add_grab_list (lookup_grabs display device) window native_window
    grab_ownership owner_events event_mask serial_start time implicit h (Nat.le_of_lt hs)
  obtain ⟨before, after, new_record, hsplit, hb, ha, hst, he, heq⟩ :=
    add_grab_list_shape (lookup_grabs display device) window native_window grab_ownership
      owner_events event_mask serial_start time implicit
  have hret : (_gdk_display_add_device_grab display device window native_window
      grab_ownership owner_events event_mask serial_start time implicit).1 = new_record := by
    show (add_grab_list _ _ _ _ _ _ _ _ _).1 = new_record
    rw [heq]
  rw [has_device_grab_eq_some, lookup_grabs_add_self, hret]
  rw [heq] at hno ⊢
  have hidx : (clamp_last_end serial_start before ++ new_record :: after)[before.length]? =
      some new_record := by
    have := getElem_middle (clamp_last_end serial_start before) new_record after
    rw [clamp_last_end_length] at this
    exact this
  have hholds : holds new_record serial_start := by
    refine ⟨by rw [hst], ?_⟩
    rw [he]
    cases after with
    | nil => exact hs
    | cons next rest => exact ha next rest rfl
  exact ⟨before.length, grab_list_find_of_holds _ hno serial_start _ new_record hidx hholds,
    hidx⟩

/-- In the scenario a third grab added at serial 20, where the grab of `W2` starts, is
the one found at serial 20. -/
theorem added_grab_active_at_its_start_witness :
    NonOverlap (lookup_grabs scenario_two_grabs 0) ∧
      (_gdk_display_has_device_grab
        (_gdk_display_add_device_grab scenario_two_grabs 0 3 3 GdkGrabOwnership.WINDOW false 0
          20 0 false).2 0 20).map (fun r => (r.window, r.serial_start, r.serial_end)) =
        some (3, 20, G_MAXULONG) :=
  ⟨by decide,
   (congrArg (Option.map (fun r => (r.window, r.serial_start, r.serial_end)))
      (added_grab_active_at_its_start scenario_two_grabs 0 3 3 GdkGrabOwnership.WINDOW false 0
        20 0 false (by decide) (by decide))).trans (by decide)⟩

/-- C26, as the code has it: the end of the preceding record is overwritten, not
clamped. The grab of `W1` from serial 10 is ended at serial 15; adding the grab of `W2`
at serial 20 then sets the end of the record of `W1` to 20, beyond the serial at which
it was ended. -/
theorem add_grab_extends_ended_grab :
    Reachable scenario_W1_explicitly_ended ∧
      (lookup_grabs scenario_W1_explicitly_ended 0).map
        (fun r => (r.window, r.serial_start, r.serial_end)) = [(1, 10, 15)] ∧
      (lookup_grabs
        (_gdk_display_add_device_grab scenario_W1_explicitly_ended 0 2 2
          GdkGrabOwnership.WINDOW false 0 20 0 false).2 0).map
        (fun r => (r.window, r.serial_start, r.serial_end)) =
        [(1, 10, 20), (2, 20, G_MAXULONG)] ∧
      (20 : Nat) ≠ min 15 20 :=
  ⟨ReachableBy.end_grab scenario_backend _ 0 15 none false rfl (by decide)
      (ReachableBy.add_grab _ 0 1 1 GdkGrabOwnership.WINDOW false 0 10 0 false (by decide)
        (ReachableBy.init scenario_empty rfl)),
   by decide, by decide, by decide⟩

/-- C26, amended: after `_gdk_display_add_device_grab` with start `s`, the record right
before the new one is the old record with `serial_end` set to `s`, whatever its
`serial_end` was; this is the smaller of the two exactly when the old end was not below
`s`. -/
theorem add_grab_sets_previous_end (display : GdkDisplay) (device : GdkDevice)
    (window native_window : GdkWindow) (grab_ownership : GdkGrabOwnership)
    (owner_events : Bool) (event_mask : Nat) (serial_start : Nat) (time : Nat)
    (implicit : Bool) (old : GdkDeviceGrabInfo)
    (hold : (records_before serial_start (lookup_grabs display device)).getLast? = some old) :
    (lookup_grabs (_gdk_display_add_device_grab display device window native_window
        grab_ownership owner_events event_mask serial_start time implicit).2 device)[
        (records_before serial_start (lookup_grabs display device)).length - 1]? =
      some { old with serial_end := serial_start } ∧
    (lookup_grabs (_gdk_display_add_device_grab display device window native_window
        grab_ownership owner_events event_mask serial_start time implicit).2 device)[
        (records_before serial_start (lookup_grabs display device)).length]? =
      some (_gdk_display_add_device_grab display device window native_window grab_ownership
        owner_events event_mask serial_start time implicit).1 ∧
    (serial_start = min old.serial_end serial_start ↔ serial_start ≤ old.serial_end) := by
  obtain ⟨init, hinit⟩ := List.getLast?_eq_some_iff.mp hold
  have hspec := add_grab_list_eq_spec (lookup_grabs display device) window native_window
    grab_ownership owner_events event_mask serial_start time implicit
  have hret : (_gdk_display_add_device_grab display device window native_window
      grab_ownership owner_events event_mask serial_start time implicit).1 =
      (add_grab_spec (lookup_grabs display device) window native_window grab_ownership
        owner_events event_mask serial_start time implicit).1 := by
    show (add_grab_list _ _ _ _ _ _ _ _ _).1 = _
    rw [hspec]
  rw [lookup_grabs_add_self, hret, hspec]
  simp only [add_grab_spec, hinit, clamp_last_end_concat, List.length_append,
    List.length_singleton, Nat.add_sub_cancel, List.append_assoc, List.singleton_append]
  refine ⟨getElem_middle init _ _, ?_, ?_⟩
  · have := getElem_middle (init ++ [{ old with serial_end := serial_start }])
      (add_grab_spec (lookup_grabs display device) window native_window grab_ownership
        owner_events event_mask serial_start time implicit).1
      (records_from_first_larger serial_start (lookup_grabs display device))
    simp only [List.append_assoc, List.singleton_append, List.length_append,
      List.length_singleton] at this
    simp only [add_grab_spec, hinit] at this
    exact this
  · omega

/-- In the scenario, adding the grab of `W2` at serial 20 sets the end of the record of
`W1` to 20. -/
theorem add_grab_sets_previous_end_witness :
    (lookup_grabs (_gdk_display_add_device_grab scenario_one_grab 0 2 2
        GdkGrabOwnership.WINDOW false 0 20 0 false).2 0)[0]? = some scenario_W1 :=
  (add_grab_sets_previous_end scenario_one_grab 0 2 2 GdkGrabOwnership.WINDOW false 0 20 0
    false { scenario_W1 with serial_end := G_MAXULONG } (by decide)).1

/-- C29: after `_gdk_display_end_device_grab` has ended a grab at serial `e` on a ledger
without overlaps, no grab of the device is active at `e`, the ended record is still the
one found at every serial `s` with `serial_start <= s < e`, and a repeated call at `e`
returns false and changes nothing. -/
theorem end_device_grab_then_inactive (env : Backend) (display : GdkDisplay)
    (device : GdkDevice) (e : Nat) (if_child : Option GdkWindow) (implicit : Bool) (i : Nat)
    (grab : GdkDeviceGrabInfo)
    (hno : NonOverlap (lookup_grabs display device))
    (hf : find_device_grab display device e = some i)
    (hg : (lookup_grabs display device)[i]? = some grab)
    (hc : if_child_passes env if_child grab = true) :
    _gdk_display_has_device_grab
        (_gdk_display_end_device_grab env display device e if_child implicit).2 device e =
      none ∧
    (∀ s, grab.serial_start ≤ s → s < e →
      _gdk_display_has_device_grab
          (_gdk_display_end_device_grab env display device e if_child implicit).2 device s =
        some { grab with serial_end := e, implicit_ungrab := implicit }) ∧
    (∀ (env2 : Backend) (if_child2 : Option GdkWindow) (implicit2 : Bool),
      _gdk_display_end_device_grab env2
          (_gdk_display_end_device_grab env display device e if_child implicit).2 device e
          if_child2 implicit2 =
        (false, (_gdk_display_end_device_grab env display device e if_child implicit).2)) := by
  have hself := lookup_grabs_end_self env display device e if_child implicit i grab hf hg hc
  have hholds := find_device_grab_holds display device e i grab hf hg
  have hlt : i < (lookup_grabs display device).length := (List.getElem?_eq_some.mp hg).1
  have hno1 := nonOverlap_end _ i e grab implicit hno hg hholds
  have hi1 : ((lookup_grabs display device).set i
      { grab with serial_end := e, implicit_ungrab := implicit })[i]? =
      some { grab with serial_end := e, implicit_ungrab := implicit } :=
    List.getElem?_set_self hlt
  have hnone : grab_list_find (lookup_grabs
      (_gdk_display_end_device_grab env display device e if_child implicit).2 device) e =
      none := by
    rw [hself, grab_list_find_none]
    intro r hr hrh
    obtain ⟨k, hk⟩ := List.mem_iff_getElem?.mp hr
    by_cases hki : k = i
    · subst hki
      rw [hi1] at hk
      cases hk
      exact Nat.lt_irrefl _ hrh.2
    · rw [List.getElem?_set_ne (Ne.symm hki)] at hk
      exact hki (holds_unique _ hno e k i r grab hk hg hrh hholds)
  refine ⟨(has_device_grab_eq_none _ _ _).mpr hnone, ?_, ?_⟩
  · intro s hs1 hs2
    rw [has_device_grab_eq_some, hself]
    exact ⟨i, grab_list_find_of_holds _ hno1 s i _ hi1 ⟨hs1, hs2⟩, hi1⟩
  · intro env2 if_child2 implicit2
    have hfn : find_device_grab
        (_gdk_display_end_device_grab env display device e if_child implicit).2 device e =
        none := hnone
    generalize (_gdk_display_end_device_grab env display device e if_child implicit).2 = d1
      at hfn ⊢
    simp [_gdk_display_end_device_grab, hfn]

/-- In the scenario, once the grab of `W2` is ended at serial 30 nothing is active at
30, the record of `W2` is still found at serial 25, and ending at 30 again fails. -/
theorem end_device_grab_then_inactive_witness :
    _gdk_display_has_device_grab scenario_W2_ended 0 30 = none ∧
      _gdk_display_has_device_grab scenario_W2_ended 0 25 =
        some { scenario_W2 with serial_end := 30 } ∧
      _gdk_display_end_device_grab scenario_backend scenario_W2_ended 0 30 none false =
        (false, scenario_W2_ended) :=
  ⟨(end_device_grab_then_inactive scenario_backend scenario_two_grabs 0 30 none false 1
      scenario_W2 (by decide) (by decide) (by decide) rfl).1,
   (end_device_grab_then_inactive scenario_backend scenario_two_grabs 0 30 none false 1
      scenario_W2 (by decide) (by decide) (by decide) rfl).2.1 25 (by decide) (by decide),
   (end_device_grab_then_inactive scenario_backend scenario_two_grabs 0 30 none false 1
      scenario_W2 (by decide) (by decide) (by decide) rfl).2.2 scenario_backend none false⟩

/-! ## Pointer infos through the grab switch -/

theorem get_pointer_info_fst (env : Backend) (display : GdkDisplay) (device : GdkDevice)
    (hk : env.gdk_device_get_source device ≠ GdkInputSource.KEYBOARD) :
    (_gdk_display_get_pointer_info env display (some device)).1 = some device := by
  unfold _gdk_display_get_pointer_info
  simp only [hk, if_false]
  split <;> rfl

theorem get_pointer_info_at (env : Backend) (display : GdkDisplay) (device : Option GdkDevice)
    (k : GdkDevice) :
    pointer_info_at (_gdk_display_get_pointer_info env display device).2 k =
      pointer_info_at display k := by
  unfold _gdk_display_get_pointer_info
  simp only []
  split
  · rfl
  · rename_i d hd
    split
    · rfl
    · rename_i hnone
      unfold pointer_info_at
      by_cases hkd : k = d
      · subst hkd
        simp only [lookup_insert_self, hnone, Option.getD_some, Option.getD_none]
      · simp only [lookup_insert_other _ _ _ _ hkd]

theorem set_window_under_pointer_at_self (env : Backend) (display : GdkDisplay)
    (device : GdkDevice) (window : Option GdkWindow)
    (hk : env.gdk_device_get_source device ≠ GdkInputSource.KEYBOARD) :
    pointer_info_at (_gdk_display_set_window_under_pointer env display device window) device =
      { pointer_info_at display device with window_under_pointer := window } := by
  unfold _gdk_display_set_window_under_pointer
  have h1 := get_pointer_info_fst env display device hk
  have h2 := get_pointer_info_at env display (some device) device
  split
  · rename_i d1 heq
    rw [heq] at h1
    cases h1
  · rename_i key d1 heq
    rw [heq] at h1 h2
    simp only [Option.some.injEq] at h1
    subst h1
    simp only at h2
    unfold pointer_info_at at h2 ⊢
    simp only [lookup_insert_self, Option.getD_some]
    rw [h2]

theorem set_window_under_pointer_at_other (env : Backend) (display : GdkDisplay)
    (device k : GdkDevice) (window : Option GdkWindow)
    (hk : env.gdk_device_get_source device ≠ GdkInputSource.KEYBOARD) (hkd : k ≠ device) :
    pointer_info_at (_gdk_display_set_window_under_pointer env display device window) k =
      pointer_info_at display k := by
  unfold _gdk_display_set_window_under_pointer
  have h1 := get_pointer_info_fst env display device hk
  have h2 := get_pointer_info_at env display (some device) k
  split
  · rename_i d1 heq
    rw [heq] at h1
    cases h1
  · rename_i key d1 heq
    rw [heq] at h1 h2
    simp only [Option.some.injEq] at h1
    subst h1
    simp only at h2
    unfold pointer_info_at at h2 ⊢
    simp only [lookup_insert_other _ _ _ _ hkd]
    rw [h2]

theorem pointer_info_at_device_grabs (display : GdkDisplay)
    (grabs : List (GdkDevice × List GdkDeviceGrabInfo)) (k : GdkDevice) :
    pointer_info_at { display with device_grabs := grabs } k = pointer_info_at display k :=
  rfl

theorem get_current_toplevel_fst (env : Backend) (device : GdkDevice) :
    (get_current_toplevel env device).1 = reported_toplevel env device := by
  unfold get_current_toplevel reported_toplevel
  simp only []
  cases (env._gdk_device_window_at_position device).1 with
  | none => rfl
  | some w =>
    cases hd : env.GDK_WINDOW_DESTROYED w <;>
      by_cases hr : env.GDK_WINDOW_TYPE w = GdkWindowType.ROOT <;>
      by_cases hf : env.GDK_WINDOW_TYPE w = GdkWindowType.FOREIGN <;> simp [hd, hr, hf]

/-- The pointer info of the device after the grab switch into a grab, with no previous
grab. -/
theorem switch_into_grab_pointer_info (env : Backend) (display : GdkDisplay)
    (device source_device : GdkDevice) (time serial : Nat) (g : GdkDeviceGrabInfo)
    (rest : List GdkDeviceGrabInfo)
    (hk : env.gdk_device_get_source device ≠ GdkInputSource.KEYBOARD)
    (hl : lookup_grabs display device = g :: rest) :
    pointer_info_at (switch_to_pointer_grab env display device source_device (some 0) none
        time serial) device =
      (if g.implicit = false ∧ g.owner_events = false ∧
          (pointer_info_at display device).window_under_pointer ≠ some g.window then
        { pointer_info_at display device with window_under_pointer := none }
      else pointer_info_at display device) ∧
    (∀ k, k ≠ device →
      pointer_info_at (switch_to_pointer_grab env display device source_device (some 0) none
        time serial) k = pointer_info_at display k) := by
  have hfst := get_pointer_info_fst env
    { display with device_grabs := g_hash_table_steal display.device_grabs device } device hk
  have hat := fun k => get_pointer_info_at env
    { display with device_grabs := g_hash_table_steal display.device_grabs device }
    (some device) k
  unfold switch_to_pointer_grab
  simp only [hl, hfst, Option.bind_some, List.getElem?_cons_zero, pointer_info_at_device_grabs]
  refine ⟨?_, fun k hkd => ?_⟩
  · cases hi : g.implicit <;> cases ho : g.owner_events <;>
      by_cases hw : (pointer_info_at display device).window_under_pointer = some g.window <;>
      simp [hi, ho, hat, hw, set_window_under_pointer_at_self _ _ _ _ hk,
        pointer_info_at_device_grabs]
  · cases hi : g.implicit <;> cases ho : g.owner_events <;>
      by_cases hw : (pointer_info_at display device).window_under_pointer = some g.window <;>
      simp [hi, ho, hat, hw, set_window_under_pointer_at_other _ _ _ _ _ hk hkd,
        pointer_info_at_device_grabs]

/-- The window under pointer of the device after the grab switch out of the last grab. -/
theorem switch_out_of_grab_window (env : Backend) (display : GdkDisplay)
    (device source_device : GdkDevice) (time serial : Nat) (last : GdkDeviceGrabInfo)
    (hk : env.gdk_device_get_source device ≠ GdkInputSource.KEYBOARD) :
    (pointer_info_at (switch_to_pointer_grab env display device source_device none (some last)
        time serial) device).window_under_pointer = toplevel_after_ungrab env device := by
  unfold switch_to_pointer_grab
  simp only [Option.none_bind, Option.isNone_none, Bool.true_or, if_true,
    pointer_info_at_device_grabs]
  rw [set_window_under_pointer_at_self _ _ _ _ hk]
  unfold toplevel_after_ungrab
  by_cases ht : env.gdk_device_get_device_type device = GdkDeviceType.SLAVE
  · simp [ht]
  · simp [ht, get_current_toplevel_fst]

theorem retire_head_lifted_window (env : Backend) (device source_device : GdkDevice)
    (current_serial time : Nat) (display : GdkDisplay) (g : GdkDeviceGrabInfo)
    (rest : List GdkDeviceGrabInfo)
    (hk : env.gdk_device_get_source device ≠ GdkInputSource.KEYBOARD)
    (hn : next_grab_at current_serial rest = none) :
    (pointer_info_at (retire_head env device source_device current_serial time display g rest)
        device).window_under_pointer = toplevel_after_ungrab env device := by
  unfold retire_head
  simp only [next_grab_eq, hn, Option.map_none', if_pos hk]
  exact switch_out_of_grab_window env _ device source_device time current_serial g hk

theorem next_grab_at_none_loop_ends (env : Backend) (device source_device : GdkDevice)
    (current_serial time fuel : Nat) (display : GdkDisplay)
    (hn : next_grab_at current_serial (lookup_grabs display device) = none) :
    grab_update_loop env device source_device current_serial time fuel display = display := by
  cases hl : lookup_grabs display device with
  | nil => exact grab_update_loop_nil _ _ _ _ _ _ _ hl
  | cons h t =>
    rw [hl] at hn
    apply grab_update_loop_not_started _ _ _ _ _ _ _ h t hl
    by_cases hs : h.serial_start ≤ current_serial
    · simp [next_grab_at, hs] at hn
    · omega

theorem next_grab_at_none_dropWhile (current_serial : Nat) (l : List GdkDeviceGrabInfo)
    (hn : next_grab_at current_serial l = none) :
    l.dropWhile (retires current_serial) = l := by
  cases l with
  | nil => rfl
  | cons h t =>
    apply List.dropWhile_cons_of_neg
    by_cases hs : h.serial_start ≤ current_serial
    · simp [next_grab_at, hs] at hn
    · simp [retires, hs]

/-- When the run retires at least one record and the record left at the head, if any,
has not started, the grab of a pointer device is lifted: the tracked window becomes the
freshly computed toplevel and the rest of the ledger is left as it was. -/
theorem grab_update_loop_lifted (env : Backend) (device source_device : GdkDevice)
    (current_serial time : Nat)
    (hk : env.gdk_device_get_source device ≠ GdkInputSource.KEYBOARD) :
    ∀ (fuel : Nat) (display : GdkDisplay) (g : GdkDeviceGrabInfo)
      (rest : List GdkDeviceGrabInfo),
      lookup_grabs display device = g :: rest → rest.length < fuel →
      retires current_serial g = true →
      next_grab_at current_serial (rest.dropWhile (retires current_serial)) = none →
      (pointer_info_at (grab_update_loop env device source_device current_serial time
          (fuel + 1) display) device).window_under_pointer =
        toplevel_after_ungrab env device ∧
      lookup_grabs (grab_update_loop env device source_device current_serial time (fuel + 1)
          display) device = rest.dropWhile (retires current_serial) := by
  intro fuel
  induction fuel with
  | zero => intro display g rest _ h; exact absurd h (Nat.not_lt_zero _)
  | succ n ih =>
    intro display g rest hl hlen hg hlift
    rw [grab_update_loop_retire _ _ _ _ _ _ _ g rest hl hg]
    have hled := lookup_grabs_retire_head env device source_device current_serial time display
      g rest
    rw [if_pos hk] at hled
    cases hn : next_grab_at current_serial rest with
    | none =>
      rw [hn] at hled
      simp only [Option.map_none', activate_at] at hled
      have hend := next_grab_at_none_loop_ends env device source_device current_serial time
        (n + 1) (retire_head env device source_device current_serial time display g rest)
        (by rw [hled]; exact hn)
      rw [hend, hled, next_grab_at_none_dropWhile current_serial rest hn]
      exact ⟨retire_head_lifted_window env device source_device current_serial time display g
        rest hk hn, rfl⟩
    | some next =>
      obtain ⟨t, ht, hns⟩ := next_grab_at_some current_serial rest next hn
      subst ht
      rw [hn] at hled
      simp only [Option.map_some', activate_at_head] at hled
      by_cases hr : retires current_serial next = true
      · rw [List.dropWhile_cons_of_pos hr] at hlift ⊢
        have hr1 : retires current_serial { next with activated := true } = true := hr
        simp only [List.length_cons] at hlen
        exact ih _ _ t hled (by omega) hr1 hlift
      · rw [List.dropWhile_cons_of_neg hr, hn] at hlift
        cases hlift

/-! ## The claims about the pointer window and about repeated runs -/

/-- C27: when the update engine activates a current grab that was not yet `activated`
on a device that is not a keyboard, the tracked window under pointer becomes none if
the grab is neither implicit nor owner-events and the tracked window is not the grab
window; in every other case the pointer info of the device (window, position, state)
is unchanged. The pointer infos of the other devices are unchanged, and the grab is
now `activated`. -/
theorem grab_update_activation_pointer_window (env : Backend) (display : GdkDisplay)
    (device source_device : GdkDevice) (current_serial : Nat) (g : GdkDeviceGrabInfo)
    (rest : List GdkDeviceGrabInfo)
    (hk : env.gdk_device_get_source device ≠ GdkInputSource.KEYBOARD)
    (hl : lookup_grabs display device = g :: rest)
    (hs : g.serial_start ≤ current_serial) (he : current_serial < g.serial_end)
    (hact : g.activated = false) :
    ((g.implicit = false ∧ g.owner_events = false ∧
        (pointer_info_at display device).window_under_pointer ≠ some g.window) →
      pointer_info_at (_gdk_display_device_grab_update env display device source_device
          current_serial) device =
        { pointer_info_at display device with window_under_pointer := none }) ∧
    (¬ (g.implicit = false ∧ g.owner_events = false ∧
        (pointer_info_at display device).window_under_pointer ≠ some g.window) →
      pointer_info_at (_gdk_display_device_grab_update env display device source_device
          current_serial) device = pointer_info_at display device) ∧
    (∀ k, k ≠ device →
      pointer_info_at (_gdk_display_device_grab_update env display device source_device
          current_serial) k = pointer_info_at display k) ∧
    lookup_grabs (_gdk_display_device_grab_update env display device source_device
        current_serial) device = { g with activated := true } :: rest := by
  have hrun : _gdk_display_device_grab_update env display device source_device
      current_serial =
      switch_to_pointer_grab env display device source_device (some 0) none
        display.last_event_time current_serial := by
    unfold _gdk_display_device_grab_update
    simp only []
    rw [grab_update_loop_current _ _ _ _ _ _ _ g rest hl hs he, if_pos ⟨hact, hk⟩]
  have hinfo := switch_into_grab_pointer_info env display device source_device
    display.last_event_time current_serial g rest hk hl
  rw [hrun]
  refine ⟨?_, ?_, hinfo.2, ?_⟩
  · intro hc
    rw [hinfo.1, if_pos hc]
  · intro hc
    rw [hinfo.1, if_neg hc]
  · rw [lookup_grabs_switch_self, hl, activate_at_head]

/-- With the pointer tracked over window 5, activating the grab of `W1` (explicit, not
owner-events, on window 1) at serial 15 clears the tracked window and keeps the
position. -/
theorem grab_update_activation_pointer_window_witness :
    pointer_info_at (_gdk_display_device_grab_update scenario_backend scenario_pointer_over_5
        0 0 15) 0 =
      { window_under_pointer := none, toplevel_x := 1, toplevel_y := 2, state := 0 } :=
  (grab_update_activation_pointer_window scenario_backend scenario_pointer_over_5 0 0 15
    scenario_W1 [scenario_W2] (by decide) (by decide) (by decide) (by decide) rfl).1
    (by decide)

/-- C28: when the update engine retires records of a device that is not a keyboard and
the record then at the head, if any, has not started (the grab is lifted entirely), the
tracked window under pointer afterwards is the freshly computed toplevel: nothing for a
slave device, and otherwise the window the backend reports under the device unless
that is absent, destroyed, a root window or a foreign window. The ledger of the device
holds the remaining records unchanged. -/
theorem grab_update_lifted_grab_window (env : Backend) (display : GdkDisplay)
    (device source_device : GdkDevice) (current_serial : Nat) (g : GdkDeviceGrabInfo)
    (rest : List GdkDeviceGrabInfo)
    (hk : env.gdk_device_get_source device ≠ GdkInputSource.KEYBOARD)
    (hl : lookup_grabs display device = g :: rest)
    (hg : retires current_serial g = true)
    (hlift : next_grab_at current_serial (rest.dropWhile (retires current_serial)) = none) :
    (pointer_info_at (_gdk_display_device_grab_update env display device source_device
        current_serial) device).window_under_pointer = toplevel_after_ungrab env device ∧
    lookup_grabs (_gdk_display_device_grab_update env display device source_device
        current_serial) device = rest.dropWhile (retires current_serial) ∧
    (env.gdk_device_get_device_type device = GdkDeviceType.SLAVE →
      toplevel_after_ungrab env device = none) ∧
    (env.gdk_device_get_device_type device ≠ GdkDeviceType.SLAVE →
      toplevel_after_ungrab env device = reported_toplevel env device) := by
  have hrun := grab_update_loop_lifted env device source_device current_serial
    display.last_event_time hk (rest.length + 1) display g rest hl (Nat.lt_succ_self _) hg hlift
  have hfuel : (lookup_grabs display device).length + 1 = rest.length + 1 + 1 := by
    rw [hl]
    rfl
  unfold _gdk_display_device_grab_update
  simp only [hfuel]
  refine ⟨hrun.1, hrun.2, ?_, ?_⟩
  · intro ht
    simp [toplevel_after_ungrab, ht]
  · intro ht
    simp [toplevel_after_ungrab, ht]

/-- In the scenario with the grab of `W2` ended at 30, advancing to 30 lifts the grab:
a master pointer is then tracked over the reported window 7, a slave pointer over
nothing, and the ledger is empty. -/
theorem grab_update_lifted_grab_window_witness :
    (pointer_info_at (_gdk_display_device_grab_update scenario_pointer_backend
        scenario_W2_ended 0 0 30) 0).window_under_pointer = some 7 ∧
      (pointer_info_at (_gdk_display_device_grab_update scenario_slave_backend
        scenario_W2_ended 0 0 30) 0).window_under_pointer = none ∧
      lookup_grabs (_gdk_display_device_grab_update scenario_pointer_backend scenario_W2_ended
        0 0 30) 0 = [] :=
  ⟨(grab_update_lifted_grab_window scenario_pointer_backend scenario_W2_ended 0 0 30
      scenario_W1 [{ scenario_W2 with serial_end := 30 }] (by decide) (by decide) (by decide)
      (by decide)).1.trans (by decide),
   (grab_update_lifted_grab_window scenario_slave_backend scenario_W2_ended 0 0 30
      scenario_W1 [{ scenario_W2 with serial_end := 30 }] (by decide) (by decide) (by decide)
      (by decide)).1.trans (by decide),
   (grab_update_lifted_grab_window scenario_pointer_backend scenario_W2_ended 0 0 30
      scenario_W1 [{ scenario_W2 with serial_end := 30 }] (by decide) (by decide) (by decide)
      (by decide)).2.1.trans (by decide)⟩

theorem grab_update_head_not_retiring (env : Backend) (display : GdkDisplay)
    (device source_device : GdkDevice) (current_serial : Nat) (h : GdkDeviceGrabInfo)
    (t : List GdkDeviceGrabInfo)
    (hfin : lookup_grabs (_gdk_display_device_grab_update env display device source_device
      current_serial) device = h :: t) :
    retires current_serial h = false := by
  have hled := grab_update_loop_ledger env device source_device current_serial
    display.last_event_time _ display (Nat.lt_succ_self (lookup_grabs display device).length)
  unfold _gdk_display_device_grab_update at hfin
  simp only [] at hfin
  rw [hfin] at hled
  have hnot := List.head?_dropWhile_not (retires current_serial) (lookup_grabs display device)
  cases hd : (lookup_grabs display device).dropWhile (retires current_serial) with
  | nil =>
    rw [hd] at hled
    simp at hled
  | cons h1 t1 =>
    rw [hd] at hled hnot
    simp only [List.map_cons, List.cons.injEq, List.head?_cons] at hled hnot
    have e : retires current_serial h = retires current_serial h1 := by
      have e1 : retires current_serial (erase_activated h) =
          retires current_serial (erase_activated h1) := by rw [hled.1]
      exact e1
    rw [e]
    exact hnot

/-- C30: the update engine is idempotent per serial. Running
`_gdk_display_device_grab_update` again with the same `current_serial` returns the
display exactly as the first run left it: the same ledgers and record fields, the same
pointer infos, and no further event in the queue. -/
theorem grab_update_idempotent (env : Backend) (display : GdkDisplay)
    (device source_device source_device2 : GdkDevice) (current_serial : Nat) :
    _gdk_display_device_grab_update env
        (_gdk_display_device_grab_update env display device source_device current_serial)
        device source_device2 current_serial =
      _gdk_display_device_grab_update env display device source_device current_serial := by
  have hnr := grab_update_head_not_retiring env display device source_device current_serial
  have hactivated := fun hk => grab_update_loop_head_activated env device source_device
    current_serial display.last_event_time hk _ display
    (Nat.lt_succ_self (lookup_grabs display device).length)
  have hsame : grab_update_loop env device source_device current_serial
      display.last_event_time ((lookup_grabs display device).length + 1) display =
      _gdk_display_device_grab_update env display device source_device current_serial := rfl
  rw [hsame] at hactivated
  generalize _gdk_display_device_grab_update env display device source_device
    current_serial = d1 at hnr hactivated ⊢
  show grab_update_loop env device source_device2 current_serial d1.last_event_time
    ((lookup_grabs d1 device).length + 1) d1 = d1
  cases hfin : lookup_grabs d1 device with
  | nil => exact grab_update_loop_nil _ _ _ _ _ _ _ hfin
  | cons h t =>
    by_cases hs : h.serial_start ≤ current_serial
    · have he : current_serial < h.serial_end := by
        have := hnr h t hfin
        simp only [retires, hs, decide_True, Bool.true_and, decide_eq_false_iff_not,
          Nat.not_le] at this
        exact this
      simp only [List.length_cons]
      rw [grab_update_loop_current env device source_device2 current_serial
        d1.last_event_time (t.length + 1) d1 h t hfin hs he]
      apply if_neg
      rintro ⟨hact, hk⟩
      have htrue := hactivated hk h t hfin hs he
      rw [hact] at htrue
      cases htrue
    · exact grab_update_loop_not_started _ _ _ _ _ _ _ h t hfin (Nat.lt_of_not_le hs)

/-! ## The ownership arbitration -/

theorem has_device_grab_eq_active_in (display : GdkDisplay) (device : GdkDevice)
    (serial : Nat) :
    _gdk_display_has_device_grab display device serial =
      active_in (lookup_grabs display device) serial := rfl

theorem check_grab_ownership_step_eq (env : Backend) (device : GdkDevice) (serial : Nat)
    (acc : GdkGrabOwnership × GdkGrabOwnership)
    (entry : GdkDevice × List GdkDeviceGrabInfo) :
    check_grab_ownership_step env device serial
        (decide (env.gdk_device_get_source device = GdkInputSource.KEYBOARD)) acc entry =
      match active_in entry.2 serial with
      | none => acc
      | some g =>
        if same_class env entry.1 device then
          if entry.1 = device then (acc.1, g.ownership)
          else if g.ownership.toNat > acc.1.toNat then (g.ownership, acc.2)
          else acc
        else acc := by
  unfold check_grab_ownership_step active_in
  cases hf : grab_list_find entry.2 serial with
  | none => rfl
  | some i =>
    cases hg : entry.2[i]? with
    | none =>
      simp only [hg]
      split <;> rfl
    | some g =>
      by_cases hd : env.gdk_device_get_source device = GdkInputSource.KEYBOARD <;>
        by_cases he : env.gdk_device_get_source entry.1 = GdkInputSource.KEYBOARD <;>
        simp [hd, he, hg, same_class]

theorem mem_of_lookup {V : Type} (t : List (GdkDevice × V)) (k : GdkDevice) (v : V)
    (h : g_hash_table_lookup t k = some v) : (k, v) ∈ t := by
  induction t with
  | nil => simp [g_hash_table_lookup] at h
  | cons hd tl ih =>
    obtain ⟨k0, v0⟩ := hd
    by_cases hk : k0 = k
    · subst hk
      simp only [g_hash_table_lookup, if_true, Option.some.injEq] at h
      subst h
      exact List.mem_cons_self _ _
    · simp only [g_hash_table_lookup, hk, if_false] at h
      exact List.mem_cons_of_mem _ (ih h)

theorem lookup_of_mem_nodup {V : Type} (t : List (GdkDevice × V)) (k : GdkDevice) (v : V)
    (hn : (t.map Prod.fst).Nodup) (h : (k, v) ∈ t) : g_hash_table_lookup t k = some v := by
  induction t with
  | nil => simp at h
  | cons hd tl ih =>
    obtain ⟨k0, v0⟩ := hd
    simp only [List.map_cons, List.nodup_cons] at hn
    rcases List.mem_cons.mp h with h | h
    · cases h
      simp [g_hash_table_lookup]
    · have hk : k0 ≠ k := by
        intro hk
        subst hk
        exact hn.1 (List.mem_map_of_mem Prod.fst h)
      simp only [g_hash_table_lookup, hk, if_false]
      exact ih hn.2 h

theorem check_fold_own_keep (env : Backend) (device : GdkDevice) (serial : Nat)
    (l : List (GdkDevice × List GdkDeviceGrabInfo)) :
    ∀ acc : GdkGrabOwnership × GdkGrabOwnership, (∀ entry ∈ l, entry.1 ≠ device) →
      (l.foldl (check_grab_ownership_step env device serial
        (decide (env.gdk_device_get_source device = GdkInputSource.KEYBOARD))) acc).2 =
        acc.2 := by
  induction l with
  | nil => intro acc _; rfl
  | cons e tl ih =>
    intro acc hall
    have he : e.1 ≠ device := hall e (List.mem_cons_self _ _)
    rw [List.foldl_cons, ih _ (fun x hx => hall x (List.mem_cons_of_mem _ hx)),
      check_grab_ownership_step_eq]
    cases active_in e.2 serial with
    | none => rfl
    | some g =>
      simp only [he, if_false]
      split
      · split <;> rfl
      · rfl

theorem check_fold_own (env : Backend) (device : GdkDevice) (serial : Nat)
    (l : List (GdkDevice × List GdkDeviceGrabInfo)) :
    ∀ acc : GdkGrabOwnership × GdkGrabOwnership, (l.map Prod.fst).Nodup →
      (l.foldl (check_grab_ownership_step env device serial
        (decide (env.gdk_device_get_source device = GdkInputSource.KEYBOARD))) acc).2 =
        match active_in ((g_hash_table_lookup l device).getD []) serial with
        | some g => g.ownership
        | none => acc.2 := by
  induction l with
  | nil => intro acc _; rfl
  | cons e tl ih =>
    intro acc hn
    obtain ⟨k0, v0⟩ := e
    simp only [List.map_cons, List.nodup_cons] at hn
    by_cases hk : k0 = device
    · subst hk
      have hrest : ∀ entry ∈ tl, entry.1 ≠ k0 := by
        intro entry hentry heq
        exact hn.1 (heq ▸ List.mem_map_of_mem Prod.fst hentry)
      rw [List.foldl_cons, check_fold_own_keep env k0 serial tl _ hrest,
        check_grab_ownership_step_eq]
      simp only [g_hash_table_lookup, if_true, Option.getD_some]
      cases active_in v0 serial with
      | none => rfl
      | some g => simp [same_class]
    · rw [List.foldl_cons, ih _ hn.2, check_grab_ownership_step_eq]
      simp only [g_hash_table_lookup, hk, if_false]
      cases active_in ((g_hash_table_lookup tl device).getD []) serial with
      | some g => rfl
      | none =>
        simp only
        cases active_in v0 serial with
        | none => rfl
        | some g1 =>
          simp only [hk, if_false]
          split
          · split <;> rfl
          · rfl

theorem check_step_higher (env : Backend) (device : GdkDevice) (serial : Nat)
    (acc : GdkGrabOwnership × GdkGrabOwnership)
    (e : GdkDevice × List GdkDeviceGrabInfo) (x : Nat) :
    x < (check_grab_ownership_step env device serial
        (decide (env.gdk_device_get_source device = GdkInputSource.KEYBOARD)) acc e).1.toNat ↔
      (x < acc.1.toNat ∨
        (e.1 ≠ device ∧ same_class env e.1 device ∧
          ∃ g, active_in e.2 serial = some g ∧ x < g.ownership.toNat)) := by
  rw [check_grab_ownership_step_eq]
  cases ha : active_in e.2 serial with
  | none => simp
  | some g =>
    by_cases hc : same_class env e.1 device
    · by_cases hd : e.1 = device
      · have hcc : same_class env device device := Iff.rfl
        simp only [hd, hcc, if_true, ne_eq, not_true_eq_false, false_and, or_false]
      · by_cases hgt : g.ownership.toNat > acc.1.toNat
        · simp only [hc, hd, hgt, if_true, if_false, ne_eq, not_false_eq_true, true_and,
            Option.some.injEq, exists_eq_left']
          omega
        · simp only [hc, hd, hgt, if_true, if_false, ne_eq, not_false_eq_true, true_and,
            Option.some.injEq, exists_eq_left']
          omega
    · simp [hc]

theorem check_fold_higher (env : Backend) (device : GdkDevice) (serial : Nat)
    (l : List (GdkDevice × List GdkDeviceGrabInfo)) :
    ∀ (acc : GdkGrabOwnership × GdkGrabOwnership) (x : Nat),
      x < (l.foldl (check_grab_ownership_step env device serial
        (decide (env.gdk_device_get_source device = GdkInputSource.KEYBOARD))) acc).1.toNat ↔
      (x < acc.1.toNat ∨
        ∃ entry ∈ l, entry.1 ≠ device ∧ same_class env entry.1 device ∧
          ∃ g, active_in entry.2 serial = some g ∧ x < g.ownership.toNat) := by
  induction l with
  | nil => intro acc x; simp
  | cons e tl ih =>
    intro acc x
    rw [List.foldl_cons, ih, check_step_higher]
    constructor
    · rintro ((h | h) | ⟨entry, hmem, h⟩)
      · exact Or.inl h
      · exact Or.inr ⟨e, List.mem_cons_self _ _, h⟩
      · exact Or.inr ⟨entry, List.mem_cons_of_mem _ hmem, h⟩
    · rintro (h | ⟨entry, hmem, h⟩)
      · exact Or.inl (Or.inl h)
      · rcases List.mem_cons.mp hmem with heq | hmem
        · subst heq
          exact Or.inl (Or.inr h)
        · exact Or.inr ⟨entry, hmem, h⟩

/-- Delivery is refused exactly when another device of the same class has an active
grab of strictly higher ownership than the device's own active grab. -/
theorem check_grab_ownership_false_iff (env : Backend) (display : GdkDisplay)
    (device : GdkDevice) (serial : Nat) (hkeys : distinct_keys display) :
    _gdk_display_check_grab_ownership env display device serial = false ↔
      ∃ dev g, dev ≠ device ∧ same_class env dev device ∧
        _gdk_display_has_device_grab display dev serial = some g ∧
        (active_ownership display device serial).toNat < g.ownership.toNat := by
  have hown := check_fold_own env device serial display.device_grabs
    (GdkGrabOwnership.NONE, GdkGrabOwnership.NONE) hkeys
  have hown1 : (display.device_grabs.foldl (check_grab_ownership_step env device serial
      (decide (env.gdk_device_get_source device = GdkInputSource.KEYBOARD)))
      (GdkGrabOwnership.NONE, GdkGrabOwnership.NONE)).2 =
      active_ownership display device serial := by
    rw [hown]
    unfold active_ownership
    rw [has_device_grab_eq_active_in]
    rfl
  have hhigh := check_fold_higher env device serial display.device_grabs
    (GdkGrabOwnership.NONE, GdkGrabOwnership.NONE)
    (active_ownership display device serial).toNat
  unfold _gdk_display_check_grab_ownership
  simp only [hown1, gt_iff_lt]
  constructor
  · intro hres
    have hlt : (active_ownership display device serial).toNat <
        (display.device_grabs.foldl (check_grab_ownership_step env device serial
          (decide (env.gdk_device_get_source device = GdkInputSource.KEYBOARD)))
          (GdkGrabOwnership.NONE, GdkGrabOwnership.NONE)).1.toNat := by
      by_contra hn
      rw [if_neg hn] at hres
      cases hres
    rcases hhigh.mp hlt with h0 | ⟨entry, hmem, hne, hsc, g, hg, hgt⟩
    · exact absurd h0 (Nat.not_lt_zero _)
    · refine ⟨entry.1, g, hne, hsc, ?_, hgt⟩
      rw [has_device_grab_eq_active_in]
      unfold lookup_grabs
      rw [lookup_of_mem_nodup display.device_grabs entry.1 entry.2 hkeys hmem]
      exact hg
  · rintro ⟨dev, g, hne, hsc, hg, hgt⟩
    rw [has_device_grab_eq_active_in] at hg
    have hmem : (dev, lookup_grabs display dev) ∈ display.device_grabs := by
      apply mem_of_lookup
      unfold lookup_grabs at hg ⊢
      cases hl : g_hash_table_lookup display.device_grabs dev with
      | none =>
        rw [hl] at hg
        simp [active_in, grab_list_find] at hg
      | some v => rfl
    have hlt := hhigh.mpr (Or.inr ⟨(dev, lookup_grabs display dev), hmem, hne, hsc, g, hg, hgt⟩)
    rw [if_pos hlt]

/-- C22: with the keys of the grab table distinct, `_gdk_display_check_grab_ownership`
returns false exactly when some other device of the same broad class (keyboard or not)
has a grab active at `serial` whose ownership is strictly greater than the ownership of
the device's own grab active at `serial` (`NONE` if it has none). Hence a device is
never blocked by grabs whose ownership only equals its own. -/
theorem check_grab_ownership_iff (env : Backend) (display : GdkDisplay) (device : GdkDevice)
    (serial : Nat) (hkeys : distinct_keys display) :
    (_gdk_display_check_grab_ownership env display device serial = false ↔
      ∃ dev g, dev ≠ device ∧ same_class env dev device ∧
        _gdk_display_has_device_grab display dev serial = some g ∧
        (active_ownership display device serial).toNat < g.ownership.toNat) ∧
    ((∀ dev g, dev ≠ device → same_class env dev device →
        _gdk_display_has_device_grab display dev serial = some g →
        g.ownership = active_ownership display device serial) →
      _gdk_display_check_grab_ownership env display device serial = true) := by
  have hiff := check_grab_ownership_false_iff env display device serial hkeys
  refine ⟨hiff, ?_⟩
  intro heq
  cases hres : _gdk_display_check_grab_ownership env display device serial with
  | true => rfl
  | false =>
    obtain ⟨dev, g, hne, hsc, hg, hlt⟩ := hiff.mp hres
    rw [heq dev g hne hsc hg] at hlt
    exact absurd hlt (Nat.lt_irrefl _)

/-- Keyboard 0 holds a `WINDOW` grab and keyboard 1 an `APPLICATION` grab: at serial 15
delivery to keyboard 0 is refused and delivery to keyboard 1 is allowed. -/
theorem check_grab_ownership_iff_witness :
    distinct_keys scenario_two_devices ∧
      _gdk_display_check_grab_ownership scenario_mixed_backend scenario_two_devices 0 15 =
        false ∧
      _gdk_display_check_grab_ownership scenario_mixed_backend scenario_two_devices 1 15 =
        true :=
  ⟨by decide,
   (check_grab_ownership_iff scenario_mixed_backend scenario_two_devices 0 15 (by decide)).1.mpr
     ⟨1, { scenario_W2 with serial_start := 10, ownership := GdkGrabOwnership.APPLICATION },
      by decide, by decide, by decide, by decide⟩,
   by decide⟩

/-- C23: pointer-class and keyboard-class devices never arbitrate against each other.
In two displays (with distinct keys) that agree on the ledgers of all devices of the
class of `device`, `_gdk_display_check_grab_ownership` gives the same answer for
`device` at every serial, whatever the ledgers of the devices of the other class
are. -/
theorem check_grab_ownership_ignores_other_class (env : Backend) (d1 d2 : GdkDisplay)
    (device : GdkDevice) (serial : Nat) (h1 : distinct_keys d1) (h2 : distinct_keys d2)
    (hsame : ∀ dev, same_class env dev device → lookup_grabs d1 dev = lookup_grabs d2 dev) :
    _gdk_display_check_grab_ownership env d1 device serial =
      _gdk_display_check_grab_ownership env d2 device serial := by
  have hself : same_class env device device := Iff.rfl
  have hhas : ∀ dev, same_class env dev device →
      _gdk_display_has_device_grab d1 dev serial = _gdk_display_has_device_grab d2 dev serial := by
    intro dev hsc
    rw [has_device_grab_eq_active_in, has_device_grab_eq_active_in, hsame dev hsc]
  have hown : active_ownership d1 device serial = active_ownership d2 device serial := by
    unfold active_ownership
    rw [hhas device hself]
  have hiff : _gdk_display_check_grab_ownership env d1 device serial = false ↔
      _gdk_display_check_grab_ownership env d2 device serial = false := by
    rw [check_grab_ownership_false_iff env d1 device serial h1,
      check_grab_ownership_false_iff env d2 device serial h2]
    constructor
    · rintro ⟨dev, g, hne, hsc, hg, hlt⟩
      exact ⟨dev, g, hne, hsc, by rw [← hhas dev hsc]; exact hg, by rw [← hown]; exact hlt⟩
    · rintro ⟨dev, g, hne, hsc, hg, hlt⟩
      exact ⟨dev, g, hne, hsc, by rw [hhas dev hsc]; exact hg, by rw [hown]; exact hlt⟩
  cases hr1 : _gdk_display_check_grab_ownership env d1 device serial <;>
    cases hr2 : _gdk_display_check_grab_ownership env d2 device serial
  · rfl
  · exact absurd (hiff.mp hr1) (by rw [hr2]; simp)
  · exact absurd (hiff.mpr hr2) (by rw [hr1]; simp)
  · rfl

/-- The `APPLICATION` grab of the pointer device 2 changes nothing for keyboard 1:
delivery is allowed with and without it. -/
theorem check_grab_ownership_ignores_other_class_witness :
    distinct_keys scenario_two_devices ∧ distinct_keys scenario_three_devices ∧
      _gdk_display_check_grab_ownership scenario_mixed_backend scenario_two_devices 1 15 =
        _gdk_display_check_grab_ownership scenario_mixed_backend scenario_three_devices 1 15 :=
  ⟨by decide, by decide,
   check_grab_ownership_ignores_other_class scenario_mixed_backend scenario_two_devices
     scenario_three_devices 1 15 (by decide) (by decide) (by
       intro dev hsc
       have hdev : dev ≠ 2 := by
         intro h2
         subst h2
         revert hsc
         decide
       exact (lookup_grabs_add_other scenario_two_devices 2 dev 3 3
         GdkGrabOwnership.APPLICATION false 0 10 0 false hdev).symm)⟩

/-! ## The keys of the grab table stay distinct -/

theorem mem_keys_insert {V : Type} (t : List (GdkDevice × V)) (k x : GdkDevice) (v : V)
    (h : x ∈ (g_hash_table_insert t k v).map Prod.fst) : x = k ∨ x ∈ t.map Prod.fst := by
  induction t with
  | nil =>
    simp only [g_hash_table_insert, List.map_cons, List.map_nil, List.mem_singleton] at h
    exact Or.inl h
  | cons hd tl ih =>
    obtain ⟨k0, v0⟩ := hd
    by_cases hk : k0 = k
    · simp only [g_hash_table_insert, hk, if_true, List.map_cons, List.mem_cons] at h ⊢
      rcases h with h | h
      · exact Or.inl h
      · exact Or.inr (Or.inr h)
    · simp only [g_hash_table_insert, hk, if_false, List.map_cons, List.mem_cons] at h ⊢
      rcases h with h | h
      · exact Or.inr (Or.inl h)
      · rcases ih h with h | h
        · exact Or.inl h
        · exact Or.inr (Or.inr h)

theorem insert_keys_nodup {V : Type} (t : List (GdkDevice × V)) (k : GdkDevice) (v : V)
    (h : (t.map Prod.fst).Nodup) : ((g_hash_table_insert t k v).map Prod.fst).Nodup := by
  induction t with
  | nil => simp [g_hash_table_insert]
  | cons hd tl ih =>
    obtain ⟨k0, v0⟩ := hd
    simp only [List.map_cons, List.nodup_cons] at h
    by_cases hk : k0 = k
    · simp only [g_hash_table_insert, hk, if_true, List.map_cons, List.nodup_cons]
      rw [← hk]
      exact h
    · simp only [g_hash_table_insert, hk, if_false, List.map_cons, List.nodup_cons]
      refine ⟨?_, ih h.2⟩
      intro hmem
      rcases mem_keys_insert tl k k0 v hmem with h1 | h1
      · exact hk h1
      · exact h.1 h1

theorem steal_keys_nodup {V : Type} (t : List (GdkDevice × V)) (k : GdkDevice)
    (h : (t.map Prod.fst).Nodup) : ((g_hash_table_steal t k).map Prod.fst).Nodup := by
  have hsub : ∀ (l : List (GdkDevice × V)) (x : GdkDevice),
      x ∈ (g_hash_table_steal l k).map Prod.fst → x ∈ l.map Prod.fst := by
    intro l
    induction l with
    | nil => intro x hx; simp [g_hash_table_steal] at hx
    | cons hd tl ih =>
      intro x hx
      obtain ⟨k0, v0⟩ := hd
      by_cases hk : k0 = k
      · simp only [g_hash_table_steal, hk, if_true] at hx
        exact List.mem_cons_of_mem _ (ih x hx)
      · simp only [g_hash_table_steal, hk, if_false, List.map_cons, List.mem_cons] at hx ⊢
        rcases hx with hx | hx
        · exact Or.inl hx
        · exact Or.inr (ih x hx)
  induction t with
  | nil => simp [g_hash_table_steal]
  | cons hd tl ih =>
    obtain ⟨k0, v0⟩ := hd
    simp only [List.map_cons, List.nodup_cons] at h
    by_cases hk : k0 = k
    · simp only [g_hash_table_steal, hk, if_true]
      exact ih h.2
    · simp only [g_hash_table_steal, hk, if_false, List.map_cons, List.nodup_cons]
      exact ⟨fun hmem => h.1 (hsub tl k0 hmem), ih h.2⟩

theorem switch_to_pointer_grab_distinct_keys (env : Backend) (display : GdkDisplay)
    (device source_device : GdkDevice) (grab : Option Nat)
    (last_grab : Option GdkDeviceGrabInfo) (time serial : Nat) (h : distinct_keys display) :
    distinct_keys (switch_to_pointer_grab env display device source_device grab last_grab time
      serial) := by
  unfold distinct_keys
  rw [switch_to_pointer_grab_device_grabs]
  exact insert_keys_nodup _ _ _ (steal_keys_nodup _ _ h)

theorem retire_head_distinct_keys (env : Backend) (device source_device : GdkDevice)
    (current_serial time : Nat) (display : GdkDisplay) (g : GdkDeviceGrabInfo)
    (rest : List GdkDeviceGrabInfo) (h : distinct_keys display) :
    distinct_keys (retire_head env device source_device current_serial time display g rest) := by
  have h2 : ∀ d : GdkDisplay, d.device_grabs = display.device_grabs →
      distinct_keys { d with device_grabs := g_hash_table_insert d.device_grabs device rest } := by
    intro d hd
    unfold distinct_keys
    simp only [hd]
    exact insert_keys_nodup _ _ _ h
  unfold retire_head
  simp only []
  split
  · apply switch_to_pointer_grab_distinct_keys
    apply h2
    split
    · exact generate_grab_broken_event_device_grabs _ _ _ _ _ _
    · rfl
  · apply h2
    split
    · exact generate_grab_broken_event_device_grabs _ _ _ _ _ _
    · rfl

theorem grab_update_loop_distinct_keys (env : Backend) (device source_device : GdkDevice)
    (current_serial time : Nat) :
    ∀ (fuel : Nat) (display : GdkDisplay), distinct_keys display →
      distinct_keys (grab_update_loop env device source_device current_serial time fuel
        display) := by
  intro fuel
  induction fuel with
  | zero => intro display h; exact h
  | succ n ih =>
    intro display h
    cases hl : lookup_grabs display device with
    | nil => rw [grab_update_loop_nil _ _ _ _ _ _ _ hl]; exact h
    | cons g rest =>
      by_cases hs : g.serial_start ≤ current_serial
      · by_cases he : g.serial_end ≤ current_serial
        · have hr : retires current_serial g = true := by simp [retires, hs, he]
          rw [grab_update_loop_retire _ _ _ _ _ _ _ g rest hl hr]
          exact ih _ (retire_head_distinct_keys env device source_device current_serial time
            display g rest h)
        · rw [grab_update_loop_current _ _ _ _ _ _ _ g rest hl hs (Nat.lt_of_not_le he)]
          split
          · exact switch_to_pointer_grab_distinct_keys _ _ _ _ _ _ _ _ h
          · exact h
      · rw [grab_update_loop_not_started _ _ _ _ _ _ _ g rest hl (Nat.lt_of_not_le hs)]
        exact h

/-- In every reachable state the keys of the grab table are distinct. -/
theorem reachableBy_distinct_keys (b : Bool) (display : GdkDisplay)
    (h : ReachableBy b display) : distinct_keys display := by
  induction h with
  | init display h0 =>
    unfold distinct_keys
    rw [h0]
    exact List.nodup_nil
  | add_grab display dev window native_window grab_ownership owner_events event_mask
      serial_start time implicit _ _ ih =>
    exact insert_keys_nodup _ _ _ ih
  | end_grab env display dev serial if_child implicit _ _ _ ih =>
    rcases end_device_grab_cases env display dev serial if_child implicit with h |
      ⟨i, grab, hf, hg, hc⟩
    · rw [h]
      exact ih
    · rw [end_device_grab_found env display dev serial if_child implicit i grab hf hg hc]
      exact insert_keys_nodup _ _ _ ih
  | grab_update env display dev source_device current_serial _ _ ih =>
    exact grab_update_loop_distinct_keys env dev source_device current_serial _ _ display ih
  | other display pointers_info queued_events last_event_time _ ih =>
    exact ih

end Gdk
